import Mathlib

/-!
ColorPicker (scene/gui/color_picker.cpp): a shallow embedding.

The picker is embedded as a record of its member variables together with the
state of the child widgets that the code reads back (the text field, the
sliders, the swatch buttons).  Every method of the source that the properties
below talk about is a function from picker states to picker states.

Conventions of the embedding.

* `float` / `real_t` values are exact rationals; the rounding of 32-bit float
  arithmetic is not part of the embedding, and no property below is about it.
* `emit_signal("color_changed", c)` appends `c` to the field `emitted`.
* Calls that only repaint or restyle a widget (`queue_redraw`, theme overrides,
  tooltips, popup check marks, show/hide of the shape controls) do not touch
  the modelled state and are left out.
* `queue_free` marks a child as queued for deletion; the child stays in its
  container until the scene tree flushes its delete queue.
* `value_changed`, raised by `set_value` inside `_update_color`, reaches
  `_slider_value_changed` while `updating` is set; the handler returns at once
  and is left out there.
* `toggled`, raised by `set_pressed(true)` on a recent swatch that was not
  pressed, runs `_recent_preset_pressed` before `set_pressed` returns.  The
  definitions of the namespace `Toggled` are the methods with that handler run
  in place.  The definitions of the same names outside the namespace leave the
  delivery out: they are the run of the source whenever no recent swatch
  changes its pressed state, that is when the colour looked up has no swatch
  or a pressed one (`toggled_add_absent`, `toggled_add_pressed`,
  `toggled_set_pick_color_no_text`).
* The blocks under `TOOLS_ENABLED` only persist data into the editor settings.
* Code of the engine that is not part of `color_picker.cpp` is taken as a
  parameter, the record `Engine` (the `Color` parser and encoders, the OK-HSL
  conversions, `String::num`, `Vector2`, the `ColorMode` adapters, the header
  constants), except for the string helpers and the HSV conversions of
  `Color`, which are written out.
-/

namespace ColorPicker

/-! ## Strings -/

/-- String::strip_edges(): removes the characters with code at most 32 from
both ends. -/
def strip_edges (s : String) : String :=
  String.mk (List.rdropWhile (fun c => decide (c.toNat ≤ 32))
    (List.dropWhile (fun c => decide (c.toNat ≤ 32)) s.data))

/-- String::trim_prefix(p): removes `p` from the front when it is there. -/
def trim_prefix (s p : String) : String :=
  if p.data.isPrefixOf s.data then String.mk (s.data.drop p.data.length) else s

/-- The helper is_hex_digit of the engine. -/
def is_hex_digit (c : Char) : Bool :=
  (decide ('0' ≤ c) && decide (c ≤ '9')) || (decide ('a' ≤ c) && decide (c ≤ 'f')) ||
    (decide ('A' ≤ c) && decide (c ≤ 'F'))

/-- String::is_valid_hex_number(false): a non-empty string of hex digits; a
string of more than one character may start with a sign. -/
def is_valid_hex_number (s : String) : Bool :=
  let len := s.data.length
  if len = 0 then false
  else
    let sfrom := if len ≠ 1 ∧ (s.data.head? = some '+' ∨ s.data.head? = some '-') then 1 else 0
    (s.data.drop sfrom).all is_hex_digit

/-- String::repeat(n). -/
def str_repeat (s : String) (n : Nat) : String :=
  String.mk (List.flatten (List.replicate n s.data))

/-- String::left(n): the first `n` characters. -/
def str_left (s : String) (n : Nat) : String :=
  String.mk (s.data.take n)

/-- The repair of lines 636 to 651 of `_html_submitted`, applied to the text
without its `#`. -/
def hex_repair (html_no_pfx : String) : String :=
  if is_valid_hex_number html_no_pfx then
    if html_no_pfx.length = 1 then str_repeat html_no_pfx 6
    else if html_no_pfx.length = 2 then str_repeat html_no_pfx 3
    else if html_no_pfx.length = 5 then str_left html_no_pfx 4
    else if html_no_pfx.length = 7 then str_left html_no_pfx 6
    else html_no_pfx
  else html_no_pfx

/-! ## Values -/

/-- Color: four channels, none of them constrained. -/
structure Color where
  r : ℚ
  g : ℚ
  b : ℚ
  a : ℚ
deriving DecidableEq, Repr

/-- Vector2 / Size2 / Point2. -/
structure Vector2 where
  x : ℚ
  y : ℚ
deriving DecidableEq, Repr

/-- The macro CLAMP(m_a, m_min, m_max). -/
def CLAMP (m_a m_min m_max : ℚ) : ℚ :=
  if m_a < m_min then m_min else if m_a > m_max then m_max else m_a

/-- Modelled from the spec: Color::get_v of core/math/color.cpp, the value of
the standard hexagonal HSV model (the largest channel). -/
def Color.get_v (c : Color) : ℚ :=
  max (max c.r c.g) c.b

/-- Modelled from the spec: Color::get_s of core/math/color.cpp, the saturation
of the standard hexagonal HSV model, 0 for black. -/
def Color.get_s (c : Color) : ℚ :=
  let mn := min (min c.r c.g) c.b
  let mx := max (max c.r c.g) c.b
  if mx ≠ 0 then (mx - mn) / mx else 0

/-- Modelled from the spec: Color::get_h of core/math/color.cpp, the hue of the
standard hexagonal HSV model as a fraction of a turn, 0 by convention for a
grey. -/
def Color.get_h (c : Color) : ℚ :=
  let mn := min (min c.r c.g) c.b
  let mx := max (max c.r c.g) c.b
  let delta := mx - mn
  if delta = 0 then 0
  else
    let h := if c.r = mx then (c.g - c.b) / delta
      else if c.g = mx then 2 + (c.b - c.r) / delta
      else 4 + (c.r - c.g) / delta
    if h / 6 < 0 then h / 6 + 1 else h / 6

/-- Modelled from the spec: Color::set_hsv of core/math/color.cpp, the inverse
of the three getters: the hue is taken modulo 1, the sextant picks the
dominant channel. -/
def Color.set_hsv (p_h p_s p_v p_alpha : ℚ) : Color :=
  if p_s = 0 then ⟨p_v, p_v, p_v, p_alpha⟩
  else
    let h6 := Int.fract p_h * 6
    let i := ⌊h6⌋
    let f := h6 - i
    let p := p_v * (1 - p_s)
    let q := p_v * (1 - p_s * f)
    let t := p_v * (1 - p_s * (1 - f))
    if i = 0 then ⟨p_v, t, p, p_alpha⟩
    else if i = 1 then ⟨q, p_v, p, p_alpha⟩
    else if i = 2 then ⟨p, p_v, t, p_alpha⟩
    else if i = 3 then ⟨p, q, p_v, p_alpha⟩
    else if i = 4 then ⟨t, p, p_v, p_alpha⟩
    else ⟨p_v, p, q, p_alpha⟩

/-- The enum ColorPicker::ColorModeType without its end marker MODE_MAX. -/
inductive ColorModeType where
  | MODE_RGB
  | MODE_HSV
  | MODE_RAW
  | MODE_OKHSL
deriving DecidableEq, Repr

/-- The enum ColorPicker::PickerShapeType; SHAPE_MAX is the value a mode
returns from get_shape_override when it has no override. -/
inductive PickerShapeType where
  | SHAPE_HSV_RECTANGLE
  | SHAPE_HSV_WHEEL
  | SHAPE_VHS_CIRCLE
  | SHAPE_OKHSL_CIRCLE
  | SHAPE_NONE
  | SHAPE_MAX
deriving DecidableEq, Repr

open ColorModeType PickerShapeType

/-- The mode with a given enum value; none outside of [0, MODE_MAX). -/
def ColorModeType.ofIndex (i : Int) : Option ColorModeType :=
  if i = 0 then some MODE_RGB
  else if i = 1 then some MODE_HSV
  else if i = 2 then some MODE_RAW
  else if i = 3 then some MODE_OKHSL
  else none

/-- The shape with a given enum value; none outside of [0, SHAPE_MAX). -/
def PickerShapeType.ofIndex (i : Int) : Option PickerShapeType :=
  if i = 0 then some SHAPE_HSV_RECTANGLE
  else if i = 1 then some SHAPE_HSV_WHEEL
  else if i = 2 then some SHAPE_VHS_CIRCLE
  else if i = 3 then some SHAPE_OKHSL_CIRCLE
  else if i = 4 then some SHAPE_NONE
  else none

/-- MouseButton, as far as the handlers tell the buttons apart. -/
inductive MouseButton where
  | LEFT
  | RIGHT
  | MIDDLE
deriving DecidableEq, Repr

/-- The input events the handlers cast to: InputEventMouseButton,
InputEventMouseMotion, anything else. -/
inductive InputEvent where
  | mouse_button (button_index : MouseButton) (pressed : Bool) (position : Vector2)
  | mouse_motion (position : Vector2)
  | other
deriving DecidableEq, Repr

/-- The control a pointer handler is bound to: its size and whether it is
the member wheel_uv. -/
structure Control where
  size : Vector2
  is_wheel_uv : Bool
deriving DecidableEq, Repr

/-- A ColorPresetButton as a child of a swatch container. -/
structure ColorPresetButton where
  preset_color : Color
  pressed : Bool
  queued_for_deletion : Bool
deriving DecidableEq, Repr

/-- The signals of ColorPicker. -/
inductive Signal where
  | color_changed (c : Color)
  | preset_added (c : Color)
  | preset_removed (c : Color)
deriving DecidableEq, Repr

/-- The member variables of ColorPicker and the widget state it reads back.
`preset_container` lists the swatch buttons, the children after
`btn_add_preset`; `recent_preset_hbc` lists all children of that container;
`inside_tree` is `is_inside_tree()`; `c_text`, `c_text_visible` and
`text_type_visible` are the text and the visibility of the hex field and of
its type button; `sliders` and `alpha_slider` are the slider values;
`mode_cache` is the private data of the mode adapters; `w_edit_size` is the
size of the strip `w_edit`; `emitted` is the log of emitted signals. -/
structure PickerState where
  color : Color
  old_color : Color
  last_color : Color
  pre_picking_color : Color
  h : ℚ
  s : ℚ
  v : ℚ
  ok_hsl_h : ℚ
  ok_hsl_s : ℚ
  ok_hsl_l : ℚ
  updating : Bool
  text_changed : Bool
  text_is_constructor : Bool
  edit_alpha : Bool
  deferred_mode_enabled : Bool
  currently_dragging : Bool
  changing_color : Bool
  spinning : Bool
  is_picking_color : Bool
  current_mode : ColorModeType
  current_shape : PickerShapeType
  current_slider_count : Nat
  inside_tree : Bool
  c_text : String
  c_text_visible : Bool
  text_type_visible : Bool
  sliders : List ℚ
  alpha_slider : ℚ
  mode_cache : List ℚ
  w_edit_size : Vector2
  presets : List Color
  preset_cache : List Color
  recent_presets : List Color
  recent_preset_cache : List Color
  preset_container : List ColorPresetButton
  recent_preset_hbc : List ColorPresetButton
  emitted : List Signal
deriving DecidableEq, Repr

/-- The engine code outside of color_picker.cpp that the picker calls. -/
structure Engine where
  /-- The header constant PRESET_COLUMN_COUNT. -/
  PRESET_COLUMN_COUNT : Nat
  /-- The constant Math_TAU. -/
  Math_TAU : ℚ
  /-- The constant Math_SQRT12. -/
  Math_SQRT12 : ℚ
  /-- Color::from_string(text, default). -/
  from_string : String → Color → Color
  /-- Color::to_argb32(). -/
  to_argb32 : Color → Nat
  /-- Color::to_html(with_alpha). -/
  to_html : Color → Bool → String
  /-- Color::get_ok_hsl_h(). -/
  get_ok_hsl_h : Color → ℚ
  /-- Color::get_ok_hsl_s(). -/
  get_ok_hsl_s : Color → ℚ
  /-- Color::get_ok_hsl_l(). -/
  get_ok_hsl_l : Color → ℚ
  /-- Color::set_ok_hsl(h, s, l, alpha). -/
  set_ok_hsl : ℚ → ℚ → ℚ → ℚ → Color
  /-- String::num(value, decimals). -/
  num : ℚ → Nat → String
  /-- Vector2::distance_to. -/
  distance_to : Vector2 → Vector2 → ℚ
  /-- Vector2::angle_to_point. -/
  angle_to_point : Vector2 → Vector2 → ℚ
  /-- ColorMode::get_color() of the given mode, read from the picker. -/
  mode_get_color : ColorModeType → PickerState → Color
  /-- ColorMode::get_slider_count(). -/
  mode_get_slider_count : ColorModeType → Nat
  /-- ColorMode::get_shape_override(). -/
  mode_get_shape_override : ColorModeType → PickerShapeType
  /-- The private data of the mode after ColorMode::_value_changed(). -/
  mode_value_changed : ColorModeType → PickerState → List ℚ
  /-- The value slider `i` holds after set_max, set_allow_greater, set_step and
  set_value(get_slider_value(i)) of the given mode; index current_slider_count
  is the alpha slider. -/
  slider_value_after_update : ColorModeType → Nat → PickerState → ℚ

/-! ## Swatch buttons -/

/-- BaseButton::set_pressed(true) on child `i` of a container whose buttons
share one ButtonGroup: that button is pressed, the others are not. -/
def set_pressed_at (i : Nat) (l : List ColorPresetButton) : List ColorPresetButton :=
  (List.range l.length).zipWith (fun j b => { b with pressed := decide (j = i) }) l

/-- BaseButton::set_pressed(false) on the pressed button of a group. -/
def unpress_all (l : List ColorPresetButton) : List ColorPresetButton :=
  l.map (fun b => { b with pressed := false })

/-- Node::queue_free() on child `i`. -/
def queue_free_at (i : Nat) (l : List ColorPresetButton) : List ColorPresetButton :=
  (List.range l.length).zipWith
    (fun j b => if j = i then { b with queued_for_deletion := true } else b) l

/-- The scene tree flushing its delete queue at the end of a frame. -/
def flush_delete_queue (st : PickerState) : PickerState :=
  { st with
    preset_container := st.preset_container.filter (fun b => !b.queued_for_deletion)
    recent_preset_hbc := st.recent_preset_hbc.filter (fun b => !b.queued_for_deletion) }

/-! ## ColorPicker -/

/-- ColorPicker::_get_actual_shape. -/
def _get_actual_shape (E : Engine) (st : PickerState) : PickerShapeType :=
  if E.mode_get_shape_override st.current_mode ≠ SHAPE_MAX then
    E.mode_get_shape_override st.current_mode
  else st.current_shape

/-- ColorPicker::_copy_color_to_hsv. -/
def _copy_color_to_hsv (E : Engine) (st : PickerState) : PickerState :=
  { st with
    ok_hsl_h := E.get_ok_hsl_h st.color
    ok_hsl_s := E.get_ok_hsl_s st.color
    ok_hsl_l := E.get_ok_hsl_l st.color
    h := st.color.get_h
    s := st.color.get_s
    v := st.color.get_v }

/-- ColorPicker::_copy_hsv_to_color. -/
def _copy_hsv_to_color (E : Engine) (st : PickerState) : PickerState :=
  if _get_actual_shape E st = SHAPE_OKHSL_CIRCLE then
    { st with color := E.set_ok_hsl st.ok_hsl_h st.ok_hsl_s st.ok_hsl_l st.color.a }
  else
    { st with color := Color.set_hsv st.h st.s st.v st.color.a }

/-- ColorPicker::_update_text_value. -/
def _update_text_value (E : Engine) (st : PickerState) : PickerState :=
  let st1 :=
    if st.text_is_constructor then
      let t := "Color(" ++ E.num st.color.r 3 ++ ", " ++ E.num st.color.g 3 ++ ", " ++
        E.num st.color.b 3
      let t2 := if st.edit_alpha ∧ st.color.a < 1 then t ++ ", " ++ E.num st.color.a 3 ++ ")"
        else t ++ ")"
      { st with c_text := t2 }
    else st
  if st1.color.r > 1 ∨ st1.color.g > 1 ∨ st1.color.b > 1 ∨
      st1.color.r < 0 ∨ st1.color.g < 0 ∨ st1.color.b < 0 then
    { st1 with text_type_visible := false, c_text_visible := false }
  else if ¬ st1.text_is_constructor then
    { st1 with
      c_text := E.to_html st1.color (decide (st1.edit_alpha ∧ st1.color.a < 1))
      text_type_visible := true
      c_text_visible := true }
  else
    { st1 with text_type_visible := true, c_text_visible := true }

/-- ColorPicker::_update_controls: the slider count follows the mode. -/
def _update_controls (E : Engine) (st : PickerState) : PickerState :=
  { st with current_slider_count := E.mode_get_slider_count st.current_mode }

/-- ColorPicker::_update_color. The `value_changed` signals raised by the
set_value calls reach `_slider_value_changed` while `updating` is set, where
they return at once. -/
def _update_color (E : Engine) (st : PickerState) (p_update_sliders : Bool) : PickerState :=
  let st1 := { st with updating := true }
  let st2 :=
    if p_update_sliders then
      { st1 with
        sliders := (List.range st1.sliders.length).zipWith
          (fun i old => if i < st1.current_slider_count then
            E.slider_value_after_update st1.current_mode i st1 else old) st1.sliders
        alpha_slider :=
          E.slider_value_after_update st1.current_mode st1.current_slider_count st1 }
    else st1
  let st3 := _update_text_value E st2
  { st3 with updating := false }

/-- ColorPicker::_select_from_preset_container. -/
def _select_from_preset_container (st : PickerState) (p_color : Color) : PickerState :=
  let unpressed := unpress_all st.preset_container
  match unpressed.findIdx? (fun b => decide (p_color = b.preset_color)) with
  | some i => { st with preset_container := set_pressed_at i unpressed }
  | none => { st with preset_container := unpressed }

/-- ColorPicker::_select_from_recent_preset_hbc, with its return value and
without the delivery of `toggled`: the run of the source when the swatch found
is pressed already. `Toggled._select_from_recent_preset_hbc` is the method
with the handler of `toggled` run in place. -/
def _select_from_recent_preset_hbc (st : PickerState) (p_color : Color) : PickerState × Bool :=
  match st.recent_preset_hbc.findIdx? (fun b => decide (p_color = b.preset_color)) with
  | some i => ({ st with recent_preset_hbc := set_pressed_at i st.recent_preset_hbc }, true)
  | none => (st, false)

/-- ColorPicker::_add_recent_preset_button: the new button becomes child 0 and
the pressed button of its group. -/
def _add_recent_preset_button (st : PickerState) (p_color : Color) : PickerState :=
  { st with
    recent_preset_hbc :=
      set_pressed_at 0 (⟨p_color, false, false⟩ :: st.recent_preset_hbc) }

/-- ColorPicker::add_recent_preset without the delivery of `toggled`: the run
of the source when the colour has no recent swatch or a pressed one.
`Toggled.add_recent_preset` is the method with the handler of `toggled` run in
place. -/
def add_recent_preset (E : Engine) (st : PickerState) (p_color : Color) : PickerState :=
  let sel := _select_from_recent_preset_hbc st p_color
  let st1 :=
    if ¬ sel.2 then
      let st2 :=
        if sel.1.recent_preset_hbc.length ≥ E.PRESET_COLUMN_COUNT then
          { sel.1 with
            recent_preset_cache := sel.1.recent_preset_cache.tail
            recent_presets := sel.1.recent_presets.tail
            recent_preset_hbc :=
              queue_free_at (E.PRESET_COLUMN_COUNT - 1) sel.1.recent_preset_hbc }
        else sel.1
      _add_recent_preset_button
        { st2 with
          recent_presets := st2.recent_presets ++ [p_color]
          recent_preset_cache := st2.recent_preset_cache ++ [p_color] } p_color
    else sel.1
  _select_from_preset_container st1 p_color

/-- ColorPicker::get_recent_presets. -/
def get_recent_presets (st : PickerState) : List Color :=
  st.recent_presets

/-- ColorPicker::_set_pick_color. -/
def _set_pick_color (E : Engine) (st : PickerState) (p_color : Color)
    (p_update_sliders : Bool) : PickerState :=
  let st1 :=
    if st.text_changed then { add_recent_preset E st st.color with text_changed := false }
    else st
  let st2 := { st1 with color := p_color }
  let st3 :=
    if st2.color ≠ st2.last_color then
      { _copy_color_to_hsv E st2 with last_color := st2.color }
    else st2
  if ¬ st3.inside_tree then st3
  else _update_color E st3 p_update_sliders

/-- ColorPicker::set_pick_color. -/
def set_pick_color (E : Engine) (st : PickerState) (p_color : Color) : PickerState :=
  _set_pick_color E st p_color true

/-- The statement emit_signal("color_changed", color). -/
def emit_color_changed (st : PickerState) : PickerState :=
  { st with emitted := st.emitted ++ [Signal.color_changed st.color] }

/-- ColorPicker::set_edit_alpha. -/
def set_edit_alpha (E : Engine) (st : PickerState) (p_show : Bool) : PickerState :=
  if st.edit_alpha = p_show then st
  else
    let st1 := _update_controls E { st with edit_alpha := p_show }
    if ¬ st1.inside_tree then st1
    else _update_color E st1 true

/-- ColorPicker::_slider_value_changed. -/
def _slider_value_changed (E : Engine) (st : PickerState) : PickerState :=
  if st.updating then st
  else
    let st1 := { st with color := E.mode_get_color st.current_mode st }
    let st2 := { st1 with mode_cache := E.mode_value_changed st1.current_mode st1 }
    let st3 :=
      if st2.current_mode = MODE_HSV then
        { st2 with
          h := st2.sliders.getD 0 0 / 360
          s := st2.sliders.getD 1 0 / 100
          v := st2.sliders.getD 2 0 / 100
          ok_hsl_h := E.get_ok_hsl_h st2.color
          ok_hsl_s := E.get_ok_hsl_s st2.color
          ok_hsl_l := E.get_ok_hsl_l st2.color
          last_color := st2.color }
      else if st2.current_mode = MODE_OKHSL then
        { st2 with
          ok_hsl_h := st2.sliders.getD 0 0 / 360
          ok_hsl_s := st2.sliders.getD 1 0 / 100
          ok_hsl_l := st2.sliders.getD 2 0 / 100
          h := st2.color.get_h
          s := st2.color.get_s
          v := st2.color.get_v
          last_color := st2.color }
      else st2
    let st4 := _set_pick_color E st3 st3.color false
    if ¬ st4.deferred_mode_enabled ∨ ¬ st4.currently_dragging then emit_color_changed st4
    else st4

/-- The colour `_html_submitted` computes from the submitted text, lines 634
to 656: parse as given, repair, parse again, keep the old alpha when alpha is
not edited. -/
def _html_new_color (E : Engine) (st : PickerState) (p_html : String) : Color :=
  let new_color := E.from_string (strip_edges p_html) st.color
  let html_no_pfx := hex_repair ( trim_prefix (strip_edges p_html) "#")
  let new_color2 := E.from_string html_no_pfx new_color
  if ¬ st.edit_alpha then { new_color2 with a := st.color.a } else new_color2

/-- ColorPicker::_html_submitted. -/
def _html_submitted (E : Engine) (st : PickerState) (p_html : String) : PickerState :=
  if st.updating ∨ st.text_is_constructor ∨ ¬ st.c_text_visible then st
  else
    let new_color := _html_new_color E st p_html
    if E.to_argb32 new_color = E.to_argb32 st.color then st
    else
      let st1 := { st with color := new_color }
      if ¬ st1.inside_tree then st1
      else emit_color_changed (set_pick_color E st1 st1.color)

/-- ColorPicker::set_picker_shape; the argument is the raw enum value. -/
def set_picker_shape (E : Engine) (st : PickerState) (p_shape : Int) : PickerState :=
  match PickerShapeType.ofIndex p_shape with
  | none => st
  | some sh =>
    if sh = st.current_shape then st
    else
      _update_color E (_update_controls E (_copy_color_to_hsv E { st with current_shape := sh }))
        true

/-- ColorPicker::set_color_mode; the argument is the raw enum value. -/
def set_color_mode (E : Engine) (st : PickerState) (p_mode : Int) : PickerState :=
  match ColorModeType.ofIndex p_mode with
  | none => st
  | some m =>
    if st.current_mode = m then st
    else
      let st1 := { st with current_mode := m }
      if ¬ st1.inside_tree then st1
      else _update_color E (_update_controls E st1) true

/-- The hue of a pointer position: the angle from the centre as a fraction of a
turn, `((rad >= 0) ? rad : (Math_TAU + rad)) / Math_TAU`. -/
def pointer_hue (E : Engine) (center pos : Vector2) : ℚ :=
  let rad := E.angle_to_point center pos
  (if rad ≥ 0 then rad else E.Math_TAU + rad) / E.Math_TAU

/-- The left corner of the S/V rectangle inside control `c`, along x. -/
def uv_corner_x (E : Engine) (c : Control) : ℚ :=
  if c.is_wheel_uv then c.size.x / 2 - E.Math_SQRT12 * c.size.x * (42 / 100) else 0

/-- The top corner of the S/V rectangle inside control `c`, along y. -/
def uv_corner_y (E : Engine) (c : Control) : ℚ :=
  if c.is_wheel_uv then c.size.y / 2 - E.Math_SQRT12 * c.size.y * (42 / 100) else 0

/-- The tail shared by the press and motion branches of the pointer handlers:
`_copy_hsv_to_color(); last_color = color; set_pick_color(color);` and the
notification unless deferred. -/
def apply_hsv_edit (E : Engine) (st : PickerState) : PickerState :=
  let st1 := _copy_hsv_to_color E st
  let st2 := set_pick_color E { st1 with last_color := st1.color } st1.color
  if ¬ st2.deferred_mode_enabled then emit_color_changed st2 else st2

/-- The first half of the press branch of `_uv_input`: the new cached values,
or none where the source returns early. -/
def uv_press_target (E : Engine) (st : PickerState) (pos : Vector2) (c : Control) :
    Option PickerState :=
  let actual_shape := _get_actual_shape E st
  let center : Vector2 := ⟨c.size.x / 2, c.size.y / 2⟩
  if actual_shape = SHAPE_VHS_CIRCLE ∨ actual_shape = SHAPE_OKHSL_CIRCLE then
    let dist := E.distance_to center pos
    if dist ≤ center.x then
      let h := pointer_hue E center pos
      let s := CLAMP (dist / center.x) 0 1
      some { st with h := h, s := s, ok_hsl_h := h, ok_hsl_s := s }
    else none
  else
    let corner_x := uv_corner_x E c
    let corner_y := uv_corner_y E c
    let real_size : Vector2 := ⟨c.size.x - corner_x * 2, c.size.y - corner_y * 2⟩
    let ring : Option PickerState :=
      if pos.x < corner_x ∨ pos.x > c.size.x - corner_x ∨
          pos.y < corner_y ∨ pos.y > c.size.y - corner_y then
        let dist := E.distance_to center pos
        if dist ≥ center.x * (84 / 100) ∧ dist ≤ center.x then
          some { st with h := pointer_hue E center pos, spinning := true }
        else none
      else some st
    ring.map (fun st1 =>
      if ¬ st1.spinning then
        let x := CLAMP (pos.x - corner_x) 0 real_size.x
        let y := CLAMP (pos.y - corner_y) 0 real_size.y
        { st1 with s := x / real_size.x, v := 1 - y / real_size.y }
      else st1)

/-- The cached values a motion sample writes in `_uv_input`. -/
def uv_motion_target (E : Engine) (st : PickerState) (pos : Vector2) (c : Control) :
    PickerState :=
  let actual_shape := _get_actual_shape E st
  let center : Vector2 := ⟨c.size.x / 2, c.size.y / 2⟩
  if actual_shape = SHAPE_VHS_CIRCLE ∨ actual_shape = SHAPE_OKHSL_CIRCLE then
    let dist := E.distance_to center pos
    let h := pointer_hue E center pos
    let s := CLAMP (dist / center.x) 0 1
    { st with h := h, s := s, ok_hsl_h := h, ok_hsl_s := s }
  else if st.spinning then
    { st with h := pointer_hue E center pos }
  else
    let corner_x := uv_corner_x E c
    let corner_y := uv_corner_y E c
    let real_size : Vector2 := ⟨c.size.x - corner_x * 2, c.size.y - corner_y * 2⟩
    let x := CLAMP (pos.x - corner_x) 0 real_size.x
    let y := CLAMP (pos.y - corner_y) 0 real_size.y
    { st with s := x / real_size.x, v := 1 - y / real_size.y }

/-- ColorPicker::_uv_input. -/
def _uv_input (E : Engine) (st : PickerState) (p_event : InputEvent) (c : Control) :
    PickerState :=
  match p_event with
  | InputEvent.mouse_button button_index pressed pos =>
    if pressed ∧ button_index = MouseButton.LEFT then
      match uv_press_target E st pos c with
      | none => st
      | some st1 => apply_hsv_edit E { st1 with changing_color := true }
    else if ¬ pressed ∧ button_index = MouseButton.LEFT then
      let st1 := if st.deferred_mode_enabled then emit_color_changed st else st
      let st2 := add_recent_preset E st1 st1.color
      { st2 with changing_color := false, spinning := false }
    else { st with changing_color := false, spinning := false }
  | InputEvent.mouse_motion pos =>
    if ¬ st.changing_color then st
    else apply_hsv_edit E (uv_motion_target E st pos c)
  | InputEvent.other => st

/-- The cached value a position on the strip writes in `_w_input`. -/
def w_target (E : Engine) (st : PickerState) (pos : Vector2) : PickerState :=
  let actual_shape := _get_actual_shape E st
  let y := CLAMP pos.y 0 st.w_edit_size.y
  if actual_shape = SHAPE_VHS_CIRCLE ∨ actual_shape = SHAPE_OKHSL_CIRCLE then
    { st with v := 1 - y / st.w_edit_size.y, ok_hsl_l := 1 - y / st.w_edit_size.y }
  else { st with h := y / st.w_edit_size.y }

/-- ColorPicker::_w_input. -/
def _w_input (E : Engine) (st : PickerState) (p_event : InputEvent) : PickerState :=
  match p_event with
  | InputEvent.mouse_button button_index pressed pos =>
    let st1 :=
      if pressed ∧ button_index = MouseButton.LEFT then
        w_target E { st with changing_color := true } pos
      else { st with changing_color := false }
    let st2 := _copy_hsv_to_color E st1
    let st3 := set_pick_color E { st2 with last_color := st2.color } st2.color
    if ¬ pressed ∧ button_index = MouseButton.LEFT then
      emit_color_changed (add_recent_preset E st3 st3.color)
    else if ¬ st3.deferred_mode_enabled then emit_color_changed st3
    else st3
  | InputEvent.mouse_motion pos =>
    if ¬ st.changing_color then st
    else apply_hsv_edit E (w_target E st pos)
  | InputEvent.other => st

/-! ## Vocabulary of the properties -/

/-- The cached HSV triple. -/
def hsv_triple (st : PickerState) : ℚ × ℚ × ℚ :=
  (st.h, st.s, st.v)

/-- The cached OK-HSL triple. -/
def ok_hsl_triple (st : PickerState) : ℚ × ℚ × ℚ :=
  (st.ok_hsl_h, st.ok_hsl_s, st.ok_hsl_l)

/-- The HSV triple `_copy_color_to_hsv` derives from a colour. -/
def derived_hsv (c : Color) : ℚ × ℚ × ℚ :=
  (c.get_h, c.get_s, c.get_v)

/-- The OK-HSL triple `_copy_color_to_hsv` derives from a colour. -/
def derived_ok_hsl (E : Engine) (c : Color) : ℚ × ℚ × ℚ :=
  (E.get_ok_hsl_h c, E.get_ok_hsl_s c, E.get_ok_hsl_l c)

/-- The recent swatch buttons mirror the recent list: one button per entry,
the newest entry first. -/
def recent_buttons_mirror (st : PickerState) : Prop :=
  st.recent_preset_hbc.map (fun b => b.preset_color) = st.recent_presets.reverse

instance (st : PickerState) : Decidable (recent_buttons_mirror st) := by
  unfold recent_buttons_mirror
  infer_instance

/-- The value of a hex digit. -/
def hex_value (c : Char) : Option Nat :=
  if '0' ≤ c ∧ c ≤ '9' then some (c.toNat - '0'.toNat)
  else if 'a' ≤ c ∧ c ≤ 'f' then some (c.toNat - 'a'.toNat + 10)
  else if 'A' ≤ c ∧ c ≤ 'F' then some (c.toNat - 'A'.toNat + 10)
  else none

/-- The hex forms of Color::from_string (3, 4, 6 or 8 digits after an optional
`#`); every other text, named colours included, gives the default. -/
def sample_from_string (text : String) (dflt : Color) : Color :=
  match (( trim_prefix text "#").data.map hex_value).allSome with
  | some [r, g, b] => ⟨r / 15, g / 15, b / 15, 1⟩
  | some [r, g, b, a] => ⟨r / 15, g / 15, b / 15, a / 15⟩
  | some [r1, r2, g1, g2, b1, b2] =>
    ⟨(16 * r1 + r2 : ℕ) / 255, (16 * g1 + g2 : ℕ) / 255, (16 * b1 + b2 : ℕ) / 255, 1⟩
  | some [r1, r2, g1, g2, b1, b2, a1, a2] =>
    ⟨(16 * r1 + r2 : ℕ) / 255, (16 * g1 + g2 : ℕ) / 255, (16 * b1 + b2 : ℕ) / 255,
      (16 * a1 + a2 : ℕ) / 255⟩
  | _ => dflt

/-- One channel as a byte, rounded to nearest. -/
def channel_byte (x : ℚ) : Nat :=
  (⌊x * 255 + 1 / 2⌋).toNat % 256

/-- The 32-bit ARGB encoding of a colour. -/
def sample_to_argb32 (c : Color) : Nat :=
  ((channel_byte c.a * 256 + channel_byte c.r) * 256 + channel_byte c.g) * 256 + channel_byte c.b

/-- Two lowercase hex digits of a byte. -/
def byte_hex (n : Nat) : String :=
  String.mk [Nat.digitChar (n / 16 % 16), Nat.digitChar (n % 16)]

/-- The hex text of a colour, with or without its alpha byte. -/
def sample_to_html (c : Color) (with_alpha : Bool) : String :=
  byte_hex (channel_byte c.r) ++ byte_hex (channel_byte c.g) ++ byte_hex (channel_byte c.b) ++
    (if with_alpha then byte_hex (channel_byte c.a) else "")

/-- A decimal rendering with the given number of decimals, truncated. -/
def sample_num (x : ℚ) (decimals : Nat) : String :=
  (if x < 0 then "-" else "") ++ toString (⌊|x|⌋).toNat ++ "." ++
    toString ((⌊|x| * 10 ^ decimals⌋).toNat % 10 ^ decimals)

/-- Newton steps towards the integer square root of `n`, from the guess `g`. -/
def isqrt_iter : Nat → Nat → Nat → Nat
  | 0, _, g => g
  | fuel + 1, n, g => if (g + n / g) / 2 < g then isqrt_iter fuel n ((g + n / g) / 2) else g

/-- A rational square root, good to three decimals. -/
def sample_sqrt (x : ℚ) : ℚ :=
  (isqrt_iter 200 (⌊x * 1000000⌋).toNat ((⌊x * 1000000⌋).toNat + 1) : ℚ) / 1000

/-- The angle of a direction in quarter turns, in [0, 4), exact on the axes
and the diagonals. -/
def diamond_angle (dx dy : ℚ) : ℚ :=
  if dx = 0 ∧ dy = 0 then 0
  else if dy ≥ 0 then (if dx ≥ 0 then dy / (dx + dy) else 1 + (-dx) / (-dx + dy))
  else (if dx < 0 then 2 + (-dy) / (-dx - dy) else 3 + dx / (dx - dy))

/-- An engine to evaluate the model on. The constants are rational
approximations, the distance and the angle are approximate, the named-colour
table is empty, the OK-HSL entries are the lightness variant of the hexagonal
model rather than the perceptual transform, and the four modes read and write
the sliders on the scales 255, 360 and 100. -/
def sampleEngine : Engine where
  PRESET_COLUMN_COUNT := 8
  Math_TAU := 710 / 113
  Math_SQRT12 := 985 / 1393
  from_string := sample_from_string
  to_argb32 := sample_to_argb32
  to_html := sample_to_html
  get_ok_hsl_h := fun c => c.get_h
  get_ok_hsl_s := fun c => c.get_s
  get_ok_hsl_l := fun c => (max (max c.r c.g) c.b + min (min c.r c.g) c.b) / 2
  set_ok_hsl := fun h s l a => Color.set_hsv h s l a
  num := sample_num
  distance_to := fun p q => sample_sqrt ((p.x - q.x) ^ 2 + (p.y - q.y) ^ 2)
  angle_to_point := fun p q =>
    let d := diamond_angle (q.x - p.x) (q.y - p.y)
    if d > 2 then (d - 4) * (710 / 113 / 4) else d * (710 / 113 / 4)
  mode_get_color := fun m st =>
    let x := st.sliders.getD 0 0
    let y := st.sliders.getD 1 0
    let z := st.sliders.getD 2 0
    match m with
    | MODE_RGB => ⟨x / 255, y / 255, z / 255, st.alpha_slider / 255⟩
    | MODE_HSV => Color.set_hsv (x / 360) (y / 100) (z / 100) (st.alpha_slider / 255)
    | MODE_RAW => ⟨x, y, z, st.alpha_slider⟩
    | MODE_OKHSL => Color.set_hsv (x / 360) (y / 100) (z / 100) (st.alpha_slider / 255)
  mode_get_slider_count := fun _ => 3
  mode_get_shape_override := fun m =>
    match m with
    | MODE_OKHSL => SHAPE_OKHSL_CIRCLE
    | _ => SHAPE_MAX
  mode_value_changed := fun m st =>
    match m with
    | MODE_HSV => st.sliders
    | _ => st.mode_cache
  slider_value_after_update := fun m i st =>
    match m, i with
    | MODE_RGB, 0 => st.color.r * 255
    | MODE_RGB, 1 => st.color.g * 255
    | MODE_RGB, 2 => st.color.b * 255
    | MODE_RAW, 0 => st.color.r
    | MODE_RAW, 1 => st.color.g
    | MODE_RAW, 2 => st.color.b
    | MODE_RAW, _ => st.color.a
    | MODE_HSV, 0 => st.h * 360
    | MODE_HSV, 1 => st.s * 100
    | MODE_HSV, 2 => st.v * 100
    | MODE_OKHSL, 0 => st.ok_hsl_h * 360
    | MODE_OKHSL, 1 => st.ok_hsl_s * 100
    | MODE_OKHSL, 2 => st.ok_hsl_l * 100
    | _, _ => st.color.a * 255

/-- The picker as its constructor leaves it (opaque white, RGB mode, HSV
rectangle, alpha edited, no swatches), once it has entered the tree. -/
def initialState : PickerState where
  color := ⟨1, 1, 1, 1⟩
  old_color := ⟨0, 0, 0, 1⟩
  last_color := ⟨1, 1, 1, 1⟩
  pre_picking_color := ⟨0, 0, 0, 1⟩
  h := 0
  s := 0
  v := 1
  ok_hsl_h := 0
  ok_hsl_s := 0
  ok_hsl_l := 1
  updating := false
  text_changed := false
  text_is_constructor := false
  edit_alpha := true
  deferred_mode_enabled := false
  currently_dragging := false
  changing_color := false
  spinning := false
  is_picking_color := false
  current_mode := MODE_RGB
  current_shape := SHAPE_HSV_RECTANGLE
  current_slider_count := 3
  inside_tree := true
  c_text := "ffffff"
  c_text_visible := true
  text_type_visible := true
  sliders := [255, 255, 255]
  alpha_slider := 255
  mode_cache := []
  w_edit_size := ⟨30, 256⟩
  presets := []
  preset_cache := []
  recent_presets := []
  recent_preset_cache := []
  preset_container := []
  recent_preset_hbc := []
  emitted := []

/-- Nine pairwise distinct colours. -/
def sampleColors : List Color :=
  (List.range 9).map (fun k => ⟨(k : ℚ) / 8, 0, 0, 1⟩)

/-- The fresh picker after the first eight sample colours were added to its
recent list. -/
def fullRecentState : PickerState :=
  (sampleColors.take 8).foldl (add_recent_preset sampleEngine) initialState

/-- The fresh picker after a left press in the middle of the hue strip: the
colour is still white, the cached hue is 1/2. -/
def hueMemoryState : PickerState :=
  _w_input sampleEngine initialState (InputEvent.mouse_button MouseButton.LEFT true ⟨10, 128⟩)

/-- The picker after a left press at `pos` over the S/V area `c` followed by
motion samples at the positions `ps`, each handled by `_uv_input`. -/
def uv_drag (E : Engine) (st : PickerState) (pos : Vector2) (ps : List Vector2) (c : Control) :
    PickerState :=
  ps.foldl (fun s p => _uv_input E s (InputEvent.mouse_motion p) c)
    (_uv_input E st (InputEvent.mouse_button MouseButton.LEFT true pos) c)

/-- The picker after a left press at `pos` over the strip followed by motion
samples at the positions `ps`, each handled by `_w_input`. -/
def w_drag (E : Engine) (st : PickerState) (pos : Vector2) (ps : List Vector2) : PickerState :=
  ps.foldl (fun s p => _w_input E s (InputEvent.mouse_motion p))
    (_w_input E st (InputEvent.mouse_button MouseButton.LEFT true pos))

/-- List<Color>::move_to_back applied to the element `find(c)` returns, the
first one equal to `c`. -/
def list_move_to_back (l : List Color) (c : Color) : List Color :=
  l.erase c ++ [c]

/-- Node::move_child(child, get_child_count() - 1) for the swatch at index `i`. -/
def move_child_to_back (i : Nat) (l : List ColorPresetButton) : List ColorPresetButton :=
  match l.get? i with
  | some b => l.eraseIdx i ++ [b]
  | none => l

/-- ColorPicker::_add_preset_button: the new swatch is the last child and the
pressed button of its group. -/
def _add_preset_button (st : PickerState) (p_color : Color) : PickerState :=
  { st with
    preset_container :=
      set_pressed_at st.preset_container.length
        (st.preset_container ++ [⟨p_color, false, false⟩]) }

/-- ColorPicker::add_preset. The swatch moved in the first branch is the
pressed button of the group, not the swatch of `p_color`; with no pressed
button `move_child` fails on its null argument and moves nothing. The palette
name label is not part of the state. -/
def add_preset (st : PickerState) (p_color : Color) : PickerState :=
  let st1 :=
    if p_color ∈ st.presets then
      { st with
        presets := list_move_to_back st.presets p_color
        preset_container :=
          match st.preset_container.findIdx? (fun b => b.pressed) with
          | some i => move_child_to_back i st.preset_container
          | none => st.preset_container }
    else _add_preset_button { st with presets := st.presets ++ [p_color] } p_color
  if p_color ∈ st1.preset_cache then
    { st1 with preset_cache := list_move_to_back st1.preset_cache p_color }
  else { st1 with preset_cache := st1.preset_cache ++ [p_color] }

/-- ColorPicker::get_presets. -/
def get_presets (st : PickerState) : List Color :=
  st.presets

/-- ColorPicker::_text_changed. -/
def _text_changed (st : PickerState) : PickerState :=
  { st with text_changed := true }

/-- Node::move_child(child, 0) for the swatch at index `i`. -/
def move_child_to_front (i : Nat) (l : List ColorPresetButton) : List ColorPresetButton :=
  match l.get? i with
  | some b => b :: l.eraseIdx i
  | none => l

/-- ColorPicker::erase_preset. The swatch loop of the source starts at
child 1, the first child after `btn_add_preset`, which is the head of
`preset_container` here. The palette name label is not part of the state. -/
def erase_preset (st : PickerState) (p_color : Color) : PickerState :=
  if p_color ∈ st.presets then
    { st with
      presets := st.presets.erase p_color
      preset_cache := st.preset_cache.erase p_color
      preset_container :=
        match st.preset_container.findIdx? (fun b => decide (p_color = b.preset_color)) with
        | some i => queue_free_at i st.preset_container
        | none => st.preset_container }
  else st

/-- ColorPicker::erase_recent_preset. The swatch loop of the source starts at
child 1 of `recent_preset_hbc`, all of whose children are swatches: child 0
is never looked at. -/
def erase_recent_preset (st : PickerState) (p_color : Color) : PickerState :=
  if p_color ∈ st.recent_presets then
    { st with
      recent_presets := st.recent_presets.erase p_color
      recent_preset_cache := st.recent_preset_cache.erase p_color
      recent_preset_hbc :=
        match (st.recent_preset_hbc.drop 1).findIdx?
            (fun b => decide (p_color = b.preset_color)) with
        | some i => queue_free_at (i + 1) st.recent_preset_hbc
        | none => st.recent_preset_hbc }
  else st

/-- ColorPicker::_pick_button_pressed: the eyedropper gesture starts. The
popup window it creates and shows is not part of the state. -/
def _pick_button_pressed (st : PickerState) : PickerState :=
  { st with is_picking_color := true, pre_picking_color := st.color }

/-- The case NOTIFICATION_INTERNAL_PROCESS of ColorPicker::_notification, one
frame tick; `c` is the pixel that DisplayServer::screen_get_pixel returns at
the mouse position. -/
def notification_internal_process (E : Engine) (st : PickerState) (c : Color) : PickerState :=
  if ¬ st.is_picking_color then st
  else set_pick_color E st c

/-- ColorPicker::_pick_finished; `window_visible` is
picker_window->is_visible() and `ui_cancel` is
Input::is_action_just_pressed("ui_cancel"). -/
def _pick_finished (E : Engine) (st : PickerState) (window_visible ui_cancel : Bool) :
    PickerState :=
  if window_visible then st
  else
    let st1 :=
      if ui_cancel then set_pick_color E st st.pre_picking_color
      else emit_color_changed st
    { st1 with is_picking_color := false }

/-- ColorPicker::_target_gui_input. After picker_window->hide() the window
is not visible, which is what the direct call of `_pick_finished` sees. An
event of another button is forwarded to a parent window and does not touch the
picker. -/
def _target_gui_input (E : Engine) (st : PickerState) (p_event : InputEvent)
    (ui_cancel : Bool) : PickerState :=
  match p_event with
  | InputEvent.mouse_button button_index pressed _ =>
    if button_index = MouseButton.LEFT then
      if pressed then _pick_finished E st false ui_cancel else st
    else if button_index = MouseButton.RIGHT then
      { set_pick_color E st st.pre_picking_color with is_picking_color := false }
    else st
  | _ => st

/-- The fresh picker after the first two sample colours were added to its
recent list: the list is [black, dark red], the swatches are dark red, then
black. -/
def twoRecentState : PickerState :=
  (sampleColors.take 2).foldl (add_recent_preset sampleEngine) initialState

/-- The eyedropper gesture after its start by `_pick_button_pressed` and one
frame tick per sampled pixel in `samples`. -/
def eyedropper_sampling (E : Engine) (st : PickerState) (samples : List Color) : PickerState :=
  samples.foldl (notification_internal_process E) (_pick_button_pressed st)

/-! ## The `toggled` signal of the recent swatches

`_add_recent_preset_button` connects the signal `toggled` of every recent
swatch to `_recent_preset_pressed` (line 850), after its own
set_pressed(true).  BaseButton::set_pressed raises `toggled` when it changes
the pressed state of the button, and the handler runs before set_pressed
returns.  So `_select_from_recent_preset_hbc`, and with it `add_recent_preset`
and `_set_pick_color`, run `_recent_preset_pressed` when the swatch they find
was not pressed.  The definitions of the namespace `Toggled` are these methods
with the handler run in place.  Their parameter `H` is the handler as it runs
for a signal raised one level further in: `H st c` is its run in the state
`st` for the swatch of colour `c` that was just pressed, and the result is
none when that run does not return.  The swatches that lose the pressed state
get `toggled(false)`, on which the handler returns at once; the swatches of
the saved presets have no handler on `toggled` (line 840). -/

namespace Toggled

/-- ColorPicker::_select_from_recent_preset_hbc, with its return value.
set_pressed(true) changes nothing on a swatch that is pressed already; on
another swatch it makes it the pressed button of its group and runs the
handler of `toggled`. -/
def _select_from_recent_preset_hbc (H : PickerState → Color → Option PickerState)
    (st : PickerState) (p_color : Color) : Option (PickerState × Bool) :=
  match st.recent_preset_hbc.findIdx? (fun b => decide (p_color = b.preset_color)) with
  | some i =>
    if (st.recent_preset_hbc.get? i).map (fun (b : ColorPresetButton) => b.pressed) = some true then
      some (st, true)
    else
      (H { st with recent_preset_hbc := set_pressed_at i st.recent_preset_hbc } p_color).map
        (fun (s : PickerState) => (s, true))
  | none => some (st, false)

/-- ColorPicker::add_recent_preset. The new swatch is pressed before its
signal is connected, so that no handler runs for it. -/
def add_recent_preset (H : PickerState → Color → Option PickerState) (E : Engine)
    (st : PickerState) (p_color : Color) : Option PickerState :=
  (_select_from_recent_preset_hbc H st p_color).map (fun (sel : PickerState × Bool) =>
    let st1 :=
      if ¬ sel.2 then
        let st2 :=
          if sel.1.recent_preset_hbc.length ≥ E.PRESET_COLUMN_COUNT then
            { sel.1 with
              recent_preset_cache := sel.1.recent_preset_cache.tail
              recent_presets := sel.1.recent_presets.tail
              recent_preset_hbc :=
                queue_free_at (E.PRESET_COLUMN_COUNT - 1) sel.1.recent_preset_hbc }
          else sel.1
        _add_recent_preset_button
          { st2 with
            recent_presets := st2.recent_presets ++ [p_color]
            recent_preset_cache := st2.recent_preset_cache ++ [p_color] } p_color
      else sel.1
    ColorPicker._select_from_preset_container st1 p_color)

/-- ColorPicker::_set_pick_color. -/
def _set_pick_color (H : PickerState → Color → Option PickerState) (E : Engine)
    (st : PickerState) (p_color : Color) (p_update_sliders : Bool) : Option PickerState :=
  (if st.text_changed then
      (add_recent_preset H E st st.color).map (fun (s : PickerState) => { s with text_changed := false })
    else some st).map (fun (st1 : PickerState) =>
    let st2 := { st1 with color := p_color }
    let st3 :=
      if st2.color ≠ st2.last_color then
        { _copy_color_to_hsv E st2 with last_color := st2.color }
      else st2
    if ¬ st3.inside_tree then st3
    else _update_color E st3 p_update_sliders)

/-- ColorPicker::set_pick_color. -/
def set_pick_color (H : PickerState → Color → Option PickerState) (E : Engine)
    (st : PickerState) (p_color : Color) : Option PickerState :=
  _set_pick_color H E st p_color true

/-- ColorPicker::_recent_preset_pressed, the handler of `toggled`, for the
swatch `p_preset` given by its colour `c`: the swatch is the first one of its
colour, the one `_select_from_recent_preset_hbc` presses, and nothing that
runs inside set_pick_color puts a swatch of that colour in front of it. The
result is none where the source hands the null result of `find` to
`move_to_back`. -/
def _recent_preset_pressed (H : PickerState → Color → Option PickerState) (E : Engine)
    (st : PickerState) (p_pressed : Bool) (c : Color) : Option PickerState :=
  if ¬ p_pressed then some st
  else
    (set_pick_color H E st c).bind (fun (st1 : PickerState) =>
      if c ∈ st1.recent_presets then
        let st2 := { st1 with recent_presets := list_move_to_back st1.recent_presets c }
        let st3 :=
          if c ∈ st2.recent_preset_cache then
            { st2 with recent_preset_cache := list_move_to_back st2.recent_preset_cache c }
          else st2
        let st4 :=
          { st3 with
            recent_preset_hbc :=
              match st3.recent_preset_hbc.findIdx?
                  (fun (b : ColorPresetButton) => decide (c = b.preset_color)) with
              | some i => move_child_to_front i st3.recent_preset_hbc
              | none => st3.recent_preset_hbc }
        some { st4 with emitted := st4.emitted ++ [Signal.color_changed c] }
      else none)

/-- The handler of `toggled` with the signals raised inside it handled to the
given nesting depth; at depth 0 nothing is returned. Two levels are all that
a call reaches (`recent_toggled_depth`): the second handler runs for the
swatch of the current colour, which `add_recent_preset(color)` then finds
pressed. -/
def recent_toggled (E : Engine) : Nat → PickerState → Color → Option PickerState
  | 0, _, _ => none
  | n + 1, st, c => _recent_preset_pressed (recent_toggled E n) E st true c

/-- ColorPicker::_slider_value_changed. -/
def _slider_value_changed (H : PickerState → Color → Option PickerState) (E : Engine)
    (st : PickerState) : Option PickerState :=
  if st.updating then some st
  else
    let st1 := { st with color := E.mode_get_color st.current_mode st }
    let st2 := { st1 with mode_cache := E.mode_value_changed st1.current_mode st1 }
    let st3 :=
      if st2.current_mode = MODE_HSV then
        { st2 with
          h := st2.sliders.getD 0 0 / 360
          s := st2.sliders.getD 1 0 / 100
          v := st2.sliders.getD 2 0 / 100
          ok_hsl_h := E.get_ok_hsl_h st2.color
          ok_hsl_s := E.get_ok_hsl_s st2.color
          ok_hsl_l := E.get_ok_hsl_l st2.color
          last_color := st2.color }
      else if st2.current_mode = MODE_OKHSL then
        { st2 with
          ok_hsl_h := st2.sliders.getD 0 0 / 360
          ok_hsl_s := st2.sliders.getD 1 0 / 100
          ok_hsl_l := st2.sliders.getD 2 0 / 100
          h := st2.color.get_h
          s := st2.color.get_s
          v := st2.color.get_v
          last_color := st2.color }
      else st2
    (_set_pick_color H E st3 st3.color false).map (fun (st4 : PickerState) =>
      if ¬ st4.deferred_mode_enabled ∨ ¬ st4.currently_dragging then emit_color_changed st4
      else st4)

/-- ColorPicker::_html_submitted. -/
def _html_submitted (H : PickerState → Color → Option PickerState) (E : Engine)
    (st : PickerState) (p_html : String) : Option PickerState :=
  if st.updating ∨ st.text_is_constructor ∨ ¬ st.c_text_visible then some st
  else
    let new_color := _html_new_color E st p_html
    if E.to_argb32 new_color = E.to_argb32 st.color then some st
    else
      let st1 := { st with color := new_color }
      if ¬ st1.inside_tree then some st1
      else (set_pick_color H E st1 st1.color).map emit_color_changed

/-- The tail shared by the press and motion branches of the pointer handlers. -/
def apply_hsv_edit (H : PickerState → Color → Option PickerState) (E : Engine)
    (st : PickerState) : Option PickerState :=
  let st1 := _copy_hsv_to_color E st
  (set_pick_color H E { st1 with last_color := st1.color } st1.color).map (fun (st2 : PickerState) =>
    if ¬ st2.deferred_mode_enabled then emit_color_changed st2 else st2)

/-- ColorPicker::_uv_input. -/
def _uv_input (H : PickerState → Color → Option PickerState) (E : Engine) (st : PickerState)
    (p_event : InputEvent) (c : Control) : Option PickerState :=
  match p_event with
  | InputEvent.mouse_button button_index pressed pos =>
    if pressed ∧ button_index = MouseButton.LEFT then
      match uv_press_target E st pos c with
      | none => some st
      | some st1 => apply_hsv_edit H E { st1 with changing_color := true }
    else if ¬ pressed ∧ button_index = MouseButton.LEFT then
      let st1 := if st.deferred_mode_enabled then emit_color_changed st else st
      (add_recent_preset H E st1 st1.color).map (fun (st2 : PickerState) =>
        { st2 with changing_color := false, spinning := false })
    else some { st with changing_color := false, spinning := false }
  | InputEvent.mouse_motion pos =>
    if ¬ st.changing_color then some st
    else apply_hsv_edit H E (uv_motion_target E st pos c)
  | InputEvent.other => some st

/-- ColorPicker::_w_input. -/
def _w_input (H : PickerState → Color → Option PickerState) (E : Engine) (st : PickerState)
    (p_event : InputEvent) : Option PickerState :=
  match p_event with
  | InputEvent.mouse_button button_index pressed pos =>
    let st1 :=
      if pressed ∧ button_index = MouseButton.LEFT then
        w_target E { st with changing_color := true } pos
      else { st with changing_color := false }
    let st2 := _copy_hsv_to_color E st1
    (set_pick_color H E { st2 with last_color := st2.color } st2.color).bind (fun (st3 : PickerState) =>
      if ¬ pressed ∧ button_index = MouseButton.LEFT then
        (add_recent_preset H E st3 st3.color).map emit_color_changed
      else if ¬ st3.deferred_mode_enabled then some (emit_color_changed st3)
      else some st3)
  | InputEvent.mouse_motion pos =>
    if ¬ st.changing_color then some st
    else apply_hsv_edit H E (w_target E st pos)
  | InputEvent.other => some st

end Toggled

/-- The fresh picker after the first two sample colours were added to its
recent list and the text field was edited without being submitted. -/
def pendingTextState : PickerState :=
  _text_changed ((sampleColors.take 2).foldl (add_recent_preset sampleEngine) initialState)

/-- The picker `fullRecentState`, whose recent list holds eight colours, after
the text field was edited without being submitted. -/
def fullPendingTextState : PickerState :=
  _text_changed fullRecentState

/-- The recent list is not longer than the row of recent swatches and has at
most PRESET_COLUMN_COUNT entries. -/
def recent_within_capacity (E : Engine) (st : PickerState) : Prop :=
  st.recent_presets.length ≤ st.recent_preset_hbc.length ∧
  st.recent_presets.length ≤ E.PRESET_COLUMN_COUNT

instance (E : Engine) (st : PickerState) : Decidable (recent_within_capacity E st) := by
  unfold recent_within_capacity
  infer_instance

/-- Whether set_pressed(true) on the recent swatch that
`_select_from_recent_preset_hbc` finds for colour `c` raises `toggled`: there
is a swatch of that colour and the first one is not pressed. -/
def raises_toggled (st : PickerState) (c : Color) : Bool :=
  match st.recent_preset_hbc.findIdx? (fun b => decide (c = b.preset_color)) with
  | some i =>
    decide (¬ (st.recent_preset_hbc.get? i).map (fun (b : ColorPresetButton) => b.pressed) =
      some true)
  | none => false

/-- The gesture of `uv_drag` with the handler of `toggled` run in place: none
when one of its events does not return. -/
def Toggled.uv_drag (H : PickerState → Color → Option PickerState) (E : Engine)
    (st : PickerState) (pos : Vector2) (ps : List Vector2) (c : Control) : Option PickerState :=
  ps.foldl
    (fun (o : Option PickerState) (p : Vector2) =>
      o.bind (fun (s : PickerState) => Toggled._uv_input H E s (InputEvent.mouse_motion p) c))
    (Toggled._uv_input H E st (InputEvent.mouse_button MouseButton.LEFT true pos) c)

/-- The gesture of `w_drag` with the handler of `toggled` run in place. -/
def Toggled.w_drag (H : PickerState → Color → Option PickerState) (E : Engine)
    (st : PickerState) (pos : Vector2) (ps : List Vector2) : Option PickerState :=
  ps.foldl
    (fun (o : Option PickerState) (p : Vector2) =>
      o.bind (fun (s : PickerState) => Toggled._w_input H E s (InputEvent.mouse_motion p)))
    (Toggled._w_input H E st (InputEvent.mouse_button MouseButton.LEFT true pos))

/-- The picker `twoRecentState`, whose recent swatches are dark red (pressed)
and black (not pressed), after set_deferred_mode(true). -/
def deferredTwoRecentState : PickerState :=
  { twoRecentState with deferred_mode_enabled := true }

/-- What a gesture in progress keeps, one event at a time. -/
def gesture_keeps (st s : PickerState) : Prop :=
  s.text_changed = false ∧ s.recent_presets = st.recent_presets ∧
  s.recent_preset_hbc = st.recent_preset_hbc ∧ s.current_mode = st.current_mode ∧
  s.current_shape = st.current_shape

theorem update_text_value_frame (E : Engine) (st : PickerState) :
    ∃ t vis tv, _update_text_value E st =
      { st with c_text := t, c_text_visible := vis, text_type_visible := tv } := by
  unfold _update_text_value
  dsimp only
  split_ifs <;> exact ⟨_, _, _, rfl⟩

theorem update_color_frame (E : Engine) (st : PickerState) (b : Bool) :
    ∃ sl al t vis tv, _update_color E st b =
      { st with updating := false, sliders := sl, alpha_slider := al, c_text := t,
                c_text_visible := vis, text_type_visible := tv } := by
  have key : ∀ s1 : PickerState,
      (∃ sl al, s1 = { st with updating := true, sliders := sl, alpha_slider := al }) →
      ∃ sl al t vis tv, { _update_text_value E s1 with updating := false } =
        { st with updating := false, sliders := sl, alpha_slider := al, c_text := t,
                  c_text_visible := vis, text_type_visible := tv } := by
    rintro s1 ⟨sl, al, rfl⟩
    obtain ⟨t, vis, tv, h⟩ := update_text_value_frame E
      { st with updating := true, sliders := sl, alpha_slider := al }
    rw [h]
    exact ⟨_, _, _, _, _, rfl⟩
  unfold _update_color
  apply key
  dsimp only
  split_ifs <;> exact ⟨_, _, rfl⟩

theorem select_recent_frame (st : PickerState) (c : Color) :
    ∃ l, (_select_from_recent_preset_hbc st c).1 = { st with recent_preset_hbc := l } := by
  unfold _select_from_recent_preset_hbc
  cases List.findIdx? _ st.recent_preset_hbc <;> exact ⟨_, rfl⟩

theorem select_container_frame (st : PickerState) (c : Color) :
    ∃ l, _select_from_preset_container st c = { st with preset_container := l } := by
  unfold _select_from_preset_container
  dsimp only
  cases List.findIdx? _ (unpress_all st.preset_container) <;> exact ⟨_, rfl⟩

theorem add_recent_preset_frame (E : Engine) (st : PickerState) (c : Color) :
    ∃ rp rc hbc pc, add_recent_preset E st c =
      { st with recent_presets := rp, recent_preset_cache := rc, recent_preset_hbc := hbc,
                preset_container := pc } := by
  obtain ⟨l, hl⟩ := select_recent_frame st c
  have key : ∀ s1 : PickerState,
      (∃ rp rc hbc, s1 =
        { st with recent_presets := rp, recent_preset_cache := rc, recent_preset_hbc := hbc }) →
      ∃ rp rc hbc pc, _select_from_preset_container s1 c =
        { st with recent_presets := rp, recent_preset_cache := rc, recent_preset_hbc := hbc,
                  preset_container := pc } := by
    rintro s1 ⟨rp, rc, hbc, rfl⟩
    obtain ⟨l2, h2⟩ := select_container_frame
      { st with recent_presets := rp, recent_preset_cache := rc, recent_preset_hbc := hbc } c
    exact ⟨rp, rc, hbc, l2, h2⟩
  unfold add_recent_preset
  apply key
  dsimp only
  rw [hl]
  unfold _add_recent_preset_button
  split_ifs <;> exact ⟨_, _, _, rfl⟩

/-- What `_update_text_value` leaves alone. -/
@[simp]
theorem update_text_value_fields (E : Engine) (st : PickerState) :
    (_update_text_value E st).color = st.color ∧
    (_update_text_value E st).old_color = st.old_color ∧
    (_update_text_value E st).last_color = st.last_color ∧
    (_update_text_value E st).pre_picking_color = st.pre_picking_color ∧
    (_update_text_value E st).h = st.h ∧
    (_update_text_value E st).s = st.s ∧
    (_update_text_value E st).v = st.v ∧
    (_update_text_value E st).ok_hsl_h = st.ok_hsl_h ∧
    (_update_text_value E st).ok_hsl_s = st.ok_hsl_s ∧
    (_update_text_value E st).ok_hsl_l = st.ok_hsl_l ∧
    (_update_text_value E st).updating = st.updating ∧
    (_update_text_value E st).text_changed = st.text_changed ∧
    (_update_text_value E st).text_is_constructor = st.text_is_constructor ∧
    (_update_text_value E st).edit_alpha = st.edit_alpha ∧
    (_update_text_value E st).deferred_mode_enabled = st.deferred_mode_enabled ∧
    (_update_text_value E st).currently_dragging = st.currently_dragging ∧
    (_update_text_value E st).changing_color = st.changing_color ∧
    (_update_text_value E st).spinning = st.spinning ∧
    (_update_text_value E st).is_picking_color = st.is_picking_color ∧
    (_update_text_value E st).current_mode = st.current_mode ∧
    (_update_text_value E st).current_shape = st.current_shape ∧
    (_update_text_value E st).current_slider_count = st.current_slider_count ∧
    (_update_text_value E st).inside_tree = st.inside_tree ∧
    (_update_text_value E st).sliders = st.sliders ∧
    (_update_text_value E st).alpha_slider = st.alpha_slider ∧
    (_update_text_value E st).mode_cache = st.mode_cache ∧
    (_update_text_value E st).w_edit_size = st.w_edit_size ∧
    (_update_text_value E st).presets = st.presets ∧
    (_update_text_value E st).preset_cache = st.preset_cache ∧
    (_update_text_value E st).recent_presets = st.recent_presets ∧
    (_update_text_value E st).recent_preset_cache = st.recent_preset_cache ∧
    (_update_text_value E st).preset_container = st.preset_container ∧
    (_update_text_value E st).recent_preset_hbc = st.recent_preset_hbc ∧
    (_update_text_value E st).emitted = st.emitted := by
  obtain ⟨_, _, _, h⟩ := update_text_value_frame E st
  rw [h]
  repeat' constructor

/-- What `_update_color` leaves alone. -/
@[simp]
theorem update_color_fields (E : Engine) (st : PickerState) (b : Bool) :
    (_update_color E st b).color = st.color ∧
    (_update_color E st b).old_color = st.old_color ∧
    (_update_color E st b).last_color = st.last_color ∧
    (_update_color E st b).pre_picking_color = st.pre_picking_color ∧
    (_update_color E st b).h = st.h ∧
    (_update_color E st b).s = st.s ∧
    (_update_color E st b).v = st.v ∧
    (_update_color E st b).ok_hsl_h = st.ok_hsl_h ∧
    (_update_color E st b).ok_hsl_s = st.ok_hsl_s ∧
    (_update_color E st b).ok_hsl_l = st.ok_hsl_l ∧
    (_update_color E st b).text_changed = st.text_changed ∧
    (_update_color E st b).text_is_constructor = st.text_is_constructor ∧
    (_update_color E st b).edit_alpha = st.edit_alpha ∧
    (_update_color E st b).deferred_mode_enabled = st.deferred_mode_enabled ∧
    (_update_color E st b).currently_dragging = st.currently_dragging ∧
    (_update_color E st b).changing_color = st.changing_color ∧
    (_update_color E st b).spinning = st.spinning ∧
    (_update_color E st b).is_picking_color = st.is_picking_color ∧
    (_update_color E st b).current_mode = st.current_mode ∧
    (_update_color E st b).current_shape = st.current_shape ∧
    (_update_color E st b).current_slider_count = st.current_slider_count ∧
    (_update_color E st b).inside_tree = st.inside_tree ∧
    (_update_color E st b).mode_cache = st.mode_cache ∧
    (_update_color E st b).w_edit_size = st.w_edit_size ∧
    (_update_color E st b).presets = st.presets ∧
    (_update_color E st b).preset_cache = st.preset_cache ∧
    (_update_color E st b).recent_presets = st.recent_presets ∧
    (_update_color E st b).recent_preset_cache = st.recent_preset_cache ∧
    (_update_color E st b).preset_container = st.preset_container ∧
    (_update_color E st b).recent_preset_hbc = st.recent_preset_hbc ∧
    (_update_color E st b).emitted = st.emitted := by
  obtain ⟨_, _, _, _, _, h⟩ := update_color_frame E st b
  rw [h]
  repeat' constructor

/-- What `_select_from_recent_preset_hbc` leaves alone. -/
@[simp]
theorem select_recent_fields (st : PickerState) (c : Color) :
    (_select_from_recent_preset_hbc st c).1.color = st.color ∧
    (_select_from_recent_preset_hbc st c).1.old_color = st.old_color ∧
    (_select_from_recent_preset_hbc st c).1.last_color = st.last_color ∧
    (_select_from_recent_preset_hbc st c).1.pre_picking_color = st.pre_picking_color ∧
    (_select_from_recent_preset_hbc st c).1.h = st.h ∧
    (_select_from_recent_preset_hbc st c).1.s = st.s ∧
    (_select_from_recent_preset_hbc st c).1.v = st.v ∧
    (_select_from_recent_preset_hbc st c).1.ok_hsl_h = st.ok_hsl_h ∧
    (_select_from_recent_preset_hbc st c).1.ok_hsl_s = st.ok_hsl_s ∧
    (_select_from_recent_preset_hbc st c).1.ok_hsl_l = st.ok_hsl_l ∧
    (_select_from_recent_preset_hbc st c).1.updating = st.updating ∧
    (_select_from_recent_preset_hbc st c).1.text_changed = st.text_changed ∧
    (_select_from_recent_preset_hbc st c).1.text_is_constructor = st.text_is_constructor ∧
    (_select_from_recent_preset_hbc st c).1.edit_alpha = st.edit_alpha ∧
    (_select_from_recent_preset_hbc st c).1.deferred_mode_enabled = st.deferred_mode_enabled ∧
    (_select_from_recent_preset_hbc st c).1.currently_dragging = st.currently_dragging ∧
    (_select_from_recent_preset_hbc st c).1.changing_color = st.changing_color ∧
    (_select_from_recent_preset_hbc st c).1.spinning = st.spinning ∧
    (_select_from_recent_preset_hbc st c).1.is_picking_color = st.is_picking_color ∧
    (_select_from_recent_preset_hbc st c).1.current_mode = st.current_mode ∧
    (_select_from_recent_preset_hbc st c).1.current_shape = st.current_shape ∧
    (_select_from_recent_preset_hbc st c).1.current_slider_count = st.current_slider_count ∧
    (_select_from_recent_preset_hbc st c).1.inside_tree = st.inside_tree ∧
    (_select_from_recent_preset_hbc st c).1.c_text = st.c_text ∧
    (_select_from_recent_preset_hbc st c).1.c_text_visible = st.c_text_visible ∧
    (_select_from_recent_preset_hbc st c).1.text_type_visible = st.text_type_visible ∧
    (_select_from_recent_preset_hbc st c).1.sliders = st.sliders ∧
    (_select_from_recent_preset_hbc st c).1.alpha_slider = st.alpha_slider ∧
    (_select_from_recent_preset_hbc st c).1.mode_cache = st.mode_cache ∧
    (_select_from_recent_preset_hbc st c).1.w_edit_size = st.w_edit_size ∧
    (_select_from_recent_preset_hbc st c).1.presets = st.presets ∧
    (_select_from_recent_preset_hbc st c).1.preset_cache = st.preset_cache ∧
    (_select_from_recent_preset_hbc st c).1.recent_presets = st.recent_presets ∧
    (_select_from_recent_preset_hbc st c).1.recent_preset_cache = st.recent_preset_cache ∧
    (_select_from_recent_preset_hbc st c).1.preset_container = st.preset_container ∧
    (_select_from_recent_preset_hbc st c).1.emitted = st.emitted := by
  obtain ⟨_, h⟩ := select_recent_frame st c
  rw [h]
  repeat' constructor

/-- What `_select_from_preset_container` leaves alone. -/
@[simp]
theorem select_container_fields (st : PickerState) (c : Color) :
    (_select_from_preset_container st c).color = st.color ∧
    (_select_from_preset_container st c).old_color = st.old_color ∧
    (_select_from_preset_container st c).last_color = st.last_color ∧
    (_select_from_preset_container st c).pre_picking_color = st.pre_picking_color ∧
    (_select_from_preset_container st c).h = st.h ∧
    (_select_from_preset_container st c).s = st.s ∧
    (_select_from_preset_container st c).v = st.v ∧
    (_select_from_preset_container st c).ok_hsl_h = st.ok_hsl_h ∧
    (_select_from_preset_container st c).ok_hsl_s = st.ok_hsl_s ∧
    (_select_from_preset_container st c).ok_hsl_l = st.ok_hsl_l ∧
    (_select_from_preset_container st c).updating = st.updating ∧
    (_select_from_preset_container st c).text_changed = st.text_changed ∧
    (_select_from_preset_container st c).text_is_constructor = st.text_is_constructor ∧
    (_select_from_preset_container st c).edit_alpha = st.edit_alpha ∧
    (_select_from_preset_container st c).deferred_mode_enabled = st.deferred_mode_enabled ∧
    (_select_from_preset_container st c).currently_dragging = st.currently_dragging ∧
    (_select_from_preset_container st c).changing_color = st.changing_color ∧
    (_select_from_preset_container st c).spinning = st.spinning ∧
    (_select_from_preset_container st c).is_picking_color = st.is_picking_color ∧
    (_select_from_preset_container st c).current_mode = st.current_mode ∧
    (_select_from_preset_container st c).current_shape = st.current_shape ∧
    (_select_from_preset_container st c).current_slider_count = st.current_slider_count ∧
    (_select_from_preset_container st c).inside_tree = st.inside_tree ∧
    (_select_from_preset_container st c).c_text = st.c_text ∧
    (_select_from_preset_container st c).c_text_visible = st.c_text_visible ∧
    (_select_from_preset_container st c).text_type_visible = st.text_type_visible ∧
    (_select_from_preset_container st c).sliders = st.sliders ∧
    (_select_from_preset_container st c).alpha_slider = st.alpha_slider ∧
    (_select_from_preset_container st c).mode_cache = st.mode_cache ∧
    (_select_from_preset_container st c).w_edit_size = st.w_edit_size ∧
    (_select_from_preset_container st c).presets = st.presets ∧
    (_select_from_preset_container st c).preset_cache = st.preset_cache ∧
    (_select_from_preset_container st c).recent_presets = st.recent_presets ∧
    (_select_from_preset_container st c).recent_preset_cache = st.recent_preset_cache ∧
    (_select_from_preset_container st c).recent_preset_hbc = st.recent_preset_hbc ∧
    (_select_from_preset_container st c).emitted = st.emitted := by
  obtain ⟨_, h⟩ := select_container_frame st c
  rw [h]
  repeat' constructor

/-- What `add_recent_preset` leaves alone. -/
@[simp]
theorem add_recent_preset_fields (E : Engine) (st : PickerState) (c : Color) :
    (add_recent_preset E st c).color = st.color ∧
    (add_recent_preset E st c).old_color = st.old_color ∧
    (add_recent_preset E st c).last_color = st.last_color ∧
    (add_recent_preset E st c).pre_picking_color = st.pre_picking_color ∧
    (add_recent_preset E st c).h = st.h ∧
    (add_recent_preset E st c).s = st.s ∧
    (add_recent_preset E st c).v = st.v ∧
    (add_recent_preset E st c).ok_hsl_h = st.ok_hsl_h ∧
    (add_recent_preset E st c).ok_hsl_s = st.ok_hsl_s ∧
    (add_recent_preset E st c).ok_hsl_l = st.ok_hsl_l ∧
    (add_recent_preset E st c).updating = st.updating ∧
    (add_recent_preset E st c).text_changed = st.text_changed ∧
    (add_recent_preset E st c).text_is_constructor = st.text_is_constructor ∧
    (add_recent_preset E st c).edit_alpha = st.edit_alpha ∧
    (add_recent_preset E st c).deferred_mode_enabled = st.deferred_mode_enabled ∧
    (add_recent_preset E st c).currently_dragging = st.currently_dragging ∧
    (add_recent_preset E st c).changing_color = st.changing_color ∧
    (add_recent_preset E st c).spinning = st.spinning ∧
    (add_recent_preset E st c).is_picking_color = st.is_picking_color ∧
    (add_recent_preset E st c).current_mode = st.current_mode ∧
    (add_recent_preset E st c).current_shape = st.current_shape ∧
    (add_recent_preset E st c).current_slider_count = st.current_slider_count ∧
    (add_recent_preset E st c).inside_tree = st.inside_tree ∧
    (add_recent_preset E st c).c_text = st.c_text ∧
    (add_recent_preset E st c).c_text_visible = st.c_text_visible ∧
    (add_recent_preset E st c).text_type_visible = st.text_type_visible ∧
    (add_recent_preset E st c).sliders = st.sliders ∧
    (add_recent_preset E st c).alpha_slider = st.alpha_slider ∧
    (add_recent_preset E st c).mode_cache = st.mode_cache ∧
    (add_recent_preset E st c).w_edit_size = st.w_edit_size ∧
    (add_recent_preset E st c).presets = st.presets ∧
    (add_recent_preset E st c).preset_cache = st.preset_cache ∧
    (add_recent_preset E st c).emitted = st.emitted := by
  obtain ⟨_, _, _, _, h⟩ := add_recent_preset_frame E st c
  rw [h]
  repeat' constructor

/-- The method `_update_color` always clears `updating`. -/
@[simp]
theorem update_color_updating (E : Engine) (st : PickerState) (b : Bool) :
    (_update_color E st b).updating = false := by
  obtain ⟨_, _, _, _, _, h⟩ := update_color_frame E st b
  rw [h]

/-- What `_set_pick_color` leaves alone, and what it writes. -/
@[simp]
theorem set_pick_color_fields (E : Engine) (st : PickerState) (p : Color) (b : Bool) :
    (_set_pick_color E st p b).color = p ∧
    (_set_pick_color E st p b).last_color = p ∧
    (_set_pick_color E st p b).text_changed = false ∧
    (_set_pick_color E st p b).old_color = st.old_color ∧
    (_set_pick_color E st p b).pre_picking_color = st.pre_picking_color ∧
    (_set_pick_color E st p b).text_is_constructor = st.text_is_constructor ∧
    (_set_pick_color E st p b).edit_alpha = st.edit_alpha ∧
    (_set_pick_color E st p b).deferred_mode_enabled = st.deferred_mode_enabled ∧
    (_set_pick_color E st p b).currently_dragging = st.currently_dragging ∧
    (_set_pick_color E st p b).changing_color = st.changing_color ∧
    (_set_pick_color E st p b).spinning = st.spinning ∧
    (_set_pick_color E st p b).is_picking_color = st.is_picking_color ∧
    (_set_pick_color E st p b).current_mode = st.current_mode ∧
    (_set_pick_color E st p b).current_shape = st.current_shape ∧
    (_set_pick_color E st p b).current_slider_count = st.current_slider_count ∧
    (_set_pick_color E st p b).inside_tree = st.inside_tree ∧
    (_set_pick_color E st p b).mode_cache = st.mode_cache ∧
    (_set_pick_color E st p b).w_edit_size = st.w_edit_size ∧
    (_set_pick_color E st p b).presets = st.presets ∧
    (_set_pick_color E st p b).preset_cache = st.preset_cache ∧
    (_set_pick_color E st p b).emitted = st.emitted := by
  unfold _set_pick_color _copy_color_to_hsv
  dsimp only
  split_ifs <;> simp_all

/-- The `updating` flag after `_set_pick_color`. -/
theorem set_pick_color_updating (E : Engine) (st : PickerState) (p : Color) (b : Bool) :
    (_set_pick_color E st p b).updating = (st.updating && !st.inside_tree) := by
  unfold _set_pick_color _copy_color_to_hsv
  dsimp only
  split_ifs <;> simp_all

/-- The cached triples after `_set_pick_color`. -/
theorem set_pick_color_triples (E : Engine) (st : PickerState) (p : Color) (b : Bool) :
    hsv_triple (_set_pick_color E st p b) =
      (if p = st.last_color then hsv_triple st else derived_hsv p) ∧
    ok_hsl_triple (_set_pick_color E st p b) =
      (if p = st.last_color then ok_hsl_triple st else derived_ok_hsl E p) := by
  unfold _set_pick_color _copy_color_to_hsv hsv_triple ok_hsl_triple derived_hsv derived_ok_hsl
  dsimp only
  split_ifs <;> simp_all

/-- C2: `set_color_mode` never changes the canonical colour, so switching from
mode A to mode B and back leaves it exactly as it was. -/
theorem C2_set_color_mode_keeps_color (E : Engine) (st : PickerState) (a b : Int) :
    (set_color_mode E st b).color = st.color ∧
    (set_color_mode E (set_color_mode E st b) a).color = st.color := by
  have one : ∀ (s : PickerState) (m : Int), (set_color_mode E s m).color = s.color := by
    intro s m
    unfold set_color_mode _update_controls
    cases ColorModeType.ofIndex m with
    | none => rfl
    | some m =>
      dsimp only
      split_ifs <;> simp
  exact ⟨one st b, by rw [one, one]⟩

/-- C7: when neither parse of the submitted text succeeds (both calls of
`Color::from_string` return their default), `_html_submitted` changes nothing
at all and emits nothing. -/
theorem C7_html_unparsable_noop (E : Engine) (st : PickerState) (p_html : String)
    (h1 : E.from_string (strip_edges p_html) st.color = st.color)
    (h2 : E.from_string (hex_repair ( trim_prefix (strip_edges p_html) "#"))
      (E.from_string (strip_edges p_html) st.color) =
      E.from_string (strip_edges p_html) st.color) :
    _html_submitted E st p_html = st := by
  have hc : _html_new_color E st p_html = st.color := by
    unfold _html_new_color
    dsimp only
    rw [h2, h1]
    split_ifs <;> rfl
  unfold _html_submitted
  dsimp only
  rw [hc]
  simp

/-- C7, evaluated: the text "zzz" submitted to the fresh picker. -/
theorem C7_html_unparsable_noop_witness :
    sampleEngine.from_string (strip_edges "zzz") initialState.color = initialState.color ∧
    _html_submitted sampleEngine initialState "zzz" = initialState :=
  ⟨by decide!, C7_html_unparsable_noop sampleEngine initialState "zzz" (by decide!) (by decide!)⟩

theorem set_pressed_at_map (i : Nat) (l : List ColorPresetButton) :
    (set_pressed_at i l).map (fun b => b.preset_color) = l.map (fun b => b.preset_color) := by
  unfold set_pressed_at
  apply List.ext_getElem
  · simp
  · intro n h1 h2
    simp

theorem set_pressed_at_length (i : Nat) (l : List ColorPresetButton) :
    (set_pressed_at i l).length = l.length := by
  simp [set_pressed_at]

theorem queue_free_at_map (i : Nat) (l : List ColorPresetButton) :
    (queue_free_at i l).map (fun b => b.preset_color) = l.map (fun b => b.preset_color) := by
  unfold queue_free_at
  apply List.ext_getElem
  · simp
  · intro n h1 h2
    simp only [List.getElem_map, List.getElem_zipWith, List.getElem_range]
    split_ifs <;> rfl

theorem queue_free_at_length (i : Nat) (l : List ColorPresetButton) :
    (queue_free_at i l).length = l.length := by
  simp [queue_free_at]

/-- The colours and the number of the recent buttons, and the recent list,
after `add_recent_preset`. -/
theorem add_recent_preset_recent (E : Engine) (st : PickerState) (c : Color) :
    (c ∈ st.recent_preset_hbc.map (fun b => b.preset_color) →
      (add_recent_preset E st c).recent_presets = st.recent_presets ∧
      (add_recent_preset E st c).recent_preset_hbc.map (fun b => b.preset_color) =
        st.recent_preset_hbc.map (fun b => b.preset_color)) ∧
    (c ∉ st.recent_preset_hbc.map (fun b => b.preset_color) →
      (add_recent_preset E st c).recent_presets =
        (if st.recent_preset_hbc.length ≥ E.PRESET_COLUMN_COUNT then st.recent_presets.tail
          else st.recent_presets) ++ [c] ∧
      (add_recent_preset E st c).recent_preset_hbc.map (fun b => b.preset_color) =
        c :: st.recent_preset_hbc.map (fun b => b.preset_color)) := by
  constructor
  · intro hin
    have hsome : ∃ i, st.recent_preset_hbc.findIdx? (fun b => decide (c = b.preset_color)) =
        some i := by
      cases hf : st.recent_preset_hbc.findIdx? (fun b => decide (c = b.preset_color)) with
      | some i => exact ⟨i, rfl⟩
      | none =>
        rw [List.findIdx?_eq_none_iff] at hf
        simp only [List.mem_map] at hin
        obtain ⟨b, hb, hbc⟩ := hin
        have := hf b hb
        simp [hbc] at this
    obtain ⟨i, hi⟩ := hsome
    unfold add_recent_preset _select_from_recent_preset_hbc
    simp [hi, set_pressed_at_map]
  · intro hnin
    have hnone : st.recent_preset_hbc.findIdx? (fun b => decide (c = b.preset_color)) = none := by
      rw [List.findIdx?_eq_none_iff]
      intro b hb
      simp only [decide_eq_false_iff_not]
      intro hcb
      exact hnin (List.mem_map.mpr ⟨b, hb, hcb.symm⟩)
    unfold add_recent_preset _select_from_recent_preset_hbc _add_recent_preset_button
    simp only [hnone]
    simp only [select_container_fields]
    split_ifs <;> first | contradiction | simp [set_pressed_at_map, queue_free_at_map]

/-- Adding pairwise distinct colours, none of them on a button yet, while the
buttons stay below the capacity, appends them to the list in order. -/
theorem foldl_add_recent_distinct (E : Engine) (cs : List Color) :
    ∀ st : PickerState, cs.Nodup →
      (∀ c ∈ cs, c ∉ st.recent_preset_hbc.map (fun b => b.preset_color)) →
      st.recent_preset_hbc.length + cs.length ≤ E.PRESET_COLUMN_COUNT →
      (cs.foldl (add_recent_preset E) st).recent_presets = st.recent_presets ++ cs ∧
      (cs.foldl (add_recent_preset E) st).recent_preset_hbc.map (fun b => b.preset_color) =
        cs.reverse ++ st.recent_preset_hbc.map (fun b => b.preset_color) := by
  induction cs with
  | nil => intro st _ _ _; simp
  | cons c cs ih =>
    intro st hnd hnew hlen
    have hc : c ∉ st.recent_preset_hbc.map (fun b => b.preset_color) :=
      hnew c (List.mem_cons_self c cs)
    obtain ⟨hrp, hcol⟩ := (add_recent_preset_recent E st c).2 hc
    have hlt : ¬ st.recent_preset_hbc.length ≥ E.PRESET_COLUMN_COUNT := by
      simp only [List.length_cons] at hlen
      omega
    rw [if_neg hlt] at hrp
    have hlen2 : (add_recent_preset E st c).recent_preset_hbc.length =
        st.recent_preset_hbc.length + 1 := by
      have := congrArg List.length hcol
      simpa using this
    rw [List.nodup_cons] at hnd
    have hnew2 : ∀ d ∈ cs,
        d ∉ (add_recent_preset E st c).recent_preset_hbc.map (fun b => b.preset_color) := by
      intro d hd
      rw [hcol, List.mem_cons, not_or]
      refine ⟨?_, hnew d (List.mem_cons_of_mem c hd)⟩
      rintro rfl
      exact hnd.1 hd
    obtain ⟨h1, h2⟩ := ih (add_recent_preset E st c) hnd.2 hnew2 (by
      rw [hlen2]
      simp only [List.length_cons] at hlen
      omega)
    rw [List.foldl_cons, h1, h2, hrp, hcol]
    simp

/-- C4: from an empty recent list with no recent buttons, adding
PRESET_COLUMN_COUNT + 1 pairwise distinct colours in order leaves exactly the
colours after the first, in insertion order: PRESET_COLUMN_COUNT entries, the
first-added colour evicted and the last-added colour at the tail. -/
theorem C4_recent_eviction (E : Engine) (st : PickerState) (cs : List Color)
    (hN : 0 < E.PRESET_COLUMN_COUNT)
    (hlen : cs.length = E.PRESET_COLUMN_COUNT + 1)
    (hnd : cs.Nodup)
    (hempty : st.recent_presets = [])
    (hbuttons : st.recent_preset_hbc = []) :
    get_recent_presets (cs.foldl (add_recent_preset E) st) = cs.tail ∧
    (get_recent_presets (cs.foldl (add_recent_preset E) st)).length = E.PRESET_COLUMN_COUNT ∧
    cs.head? ∉ (get_recent_presets (cs.foldl (add_recent_preset E) st)).map some ∧
    (get_recent_presets (cs.foldl (add_recent_preset E) st)).getLast? = cs.getLast? := by
  have hne : cs ≠ [] := by
    intro h
    rw [h] at hlen
    simp at hlen
  have main : get_recent_presets (cs.foldl (add_recent_preset E) st) = cs.tail := by
    unfold get_recent_presets
    obtain ⟨init, last, rfl⟩ : ∃ init last, cs = init ++ [last] :=
      ⟨cs.dropLast, cs.getLast hne, (List.dropLast_append_getLast hne).symm⟩
    have hinit : init.length = E.PRESET_COLUMN_COUNT := by
      simp only [List.length_append, List.length_singleton] at hlen
      omega
    have hnd2 := List.nodup_append.mp hnd
    obtain ⟨h1, h2⟩ := foldl_add_recent_distinct E init st hnd2.1
      (by rw [hbuttons]; simp) (by rw [hbuttons, hinit]; simp)
    rw [hempty] at h1
    rw [hbuttons] at h2
    simp only [List.nil_append, List.map_nil, List.append_nil] at h1 h2
    have hlast : last ∉ (init.foldl (add_recent_preset E) st).recent_preset_hbc.map
        (fun b => b.preset_color) := by
      rw [h2, List.mem_reverse]
      intro hmem
      exact hnd2.2.2 hmem (List.mem_singleton_self last)
    have hcount : (init.foldl (add_recent_preset E) st).recent_preset_hbc.length =
        E.PRESET_COLUMN_COUNT := by
      have := congrArg List.length h2
      simpa [hinit] using this
    rw [List.foldl_append, List.foldl_cons, List.foldl_nil,
      ((add_recent_preset_recent E _ last).2 hlast).1, h1, hcount]
    simp only [ge_iff_le, le_refl, if_true]
    cases init with
    | nil => simp at hinit; omega
    | cons a t => rfl
  refine ⟨main, ?_, ?_, ?_⟩
  · rw [main, List.length_tail, hlen]
    rfl
  · rw [main]
    cases cs with
    | nil => exact absurd rfl hne
    | cons a t =>
      simp only [List.head?_cons, List.tail_cons, List.mem_map, Option.some.injEq, not_exists,
        not_and]
      intro x hx hxa
      rw [List.nodup_cons] at hnd
      exact hnd.1 (hxa ▸ hx)
  · rw [main]
    cases cs with
    | nil => exact absurd rfl hne
    | cons a t =>
      cases t with
      | nil => simp at hlen; omega
      | cons b u => simp [List.getLast?_cons_cons]

/-- C4, evaluated: the nine sample colours added to the fresh picker. -/
theorem C4_recent_eviction_witness :
    sampleColors.length = sampleEngine.PRESET_COLUMN_COUNT + 1 ∧
    get_recent_presets (sampleColors.foldl (add_recent_preset sampleEngine) initialState) =
      sampleColors.tail :=
  ⟨by decide!,
    (C4_recent_eviction sampleEngine initialState sampleColors (by decide!) (by decide!)
      (by decide!) rfl rfl).1⟩

/-- C5: with the VHS circle or the OKHSL circle as actual shape, a left-button
press farther from the centre of the control than the radius (half the
width) leaves the whole picker state as it was: no cached value, colour or
flag changes and nothing is emitted. -/
theorem C5_circle_press_outside (E : Engine) (st : PickerState) (pos : Vector2) (c : Control)
    (hshape : _get_actual_shape E st = SHAPE_VHS_CIRCLE ∨
      _get_actual_shape E st = SHAPE_OKHSL_CIRCLE)
    (hdist : E.distance_to ⟨c.size.x / 2, c.size.y / 2⟩ pos > c.size.x / 2) :
    _uv_input E st (InputEvent.mouse_button MouseButton.LEFT true pos) c = st := by
  have hnone : uv_press_target E st pos c = none := by
    unfold uv_press_target
    dsimp only
    rw [if_pos hshape, if_neg (not_le.mpr hdist)]
  unfold _uv_input
  simp [hnone]

/-- C5, evaluated: a press 200 units right of the centre of a 200 by 200 VHS
circle. -/
theorem C5_circle_press_outside_witness :
    sampleEngine.distance_to ⟨(200 : ℚ) / 2, (200 : ℚ) / 2⟩ ⟨300, 100⟩ > (200 : ℚ) / 2 ∧
    _uv_input sampleEngine { initialState with current_shape := SHAPE_VHS_CIRCLE }
      (InputEvent.mouse_button MouseButton.LEFT true ⟨300, 100⟩) ⟨⟨200, 200⟩, true⟩ =
      { initialState with current_shape := SHAPE_VHS_CIRCLE } :=
  ⟨by decide!,
    C5_circle_press_outside sampleEngine { initialState with current_shape := SHAPE_VHS_CIRCLE }
      ⟨300, 100⟩ ⟨⟨200, 200⟩, true⟩ (by decide!) (by decide!)⟩

/-- The colour `set_hsv` builds in sextant `k` at offset `f`, for the
saturation and value of a colour with largest channel `mx` and smallest
channel `mn`. -/
theorem set_hsv_sextant (k : ℤ) (f mx mn a : ℚ) (hk0 : 0 ≤ k) (hk5 : k ≤ 5)
    (hf0 : 0 ≤ f) (hf1 : f < 1) (hmx : mx ≠ 0) (hne : mx ≠ mn) :
    Color.set_hsv ((k + f) / 6) ((mx - mn) / mx) mx a =
      if k = 0 then ⟨mx, mn + (mx - mn) * f, mn, a⟩
      else if k = 1 then ⟨mx - (mx - mn) * f, mx, mn, a⟩
      else if k = 2 then ⟨mn, mx, mn + (mx - mn) * f, a⟩
      else if k = 3 then ⟨mn, mx - (mx - mn) * f, mx, a⟩
      else if k = 4 then ⟨mn + (mx - mn) * f, mn, mx, a⟩
      else ⟨mx, mn, mx - (mx - mn) * f, a⟩ := by
  have hs : (mx - mn) / mx ≠ 0 := div_ne_zero (sub_ne_zero.mpr hne) hmx
  have hkq0 : (0 : ℚ) ≤ k := by exact_mod_cast hk0
  have hkq5 : (k : ℚ) ≤ 5 := by exact_mod_cast hk5
  have hfr : Int.fract (((k : ℚ) + f) / 6) = ((k : ℚ) + f) / 6 := by
    rw [Int.fract_eq_iff]
    refine ⟨by positivity, ?_, 0, by simp⟩
    rw [div_lt_one (by norm_num)]
    linarith
  have hfl : ⌊(k : ℚ) + f⌋ = k := by
    rw [Int.floor_int_add, Int.floor_eq_zero_iff.mpr ⟨hf0, hf1⟩, add_zero]
  have h6 : ((k : ℚ) + f) / 6 * 6 = k + f := by ring
  have hp : mx * (1 - (mx - mn) / mx) = mn := by field_simp
  have hq : mx * (1 - (mx - mn) / mx * f) = mx - (mx - mn) * f := by field_simp
  have ht : mx * (1 - (mx - mn) / mx * (1 - f)) = mn + (mx - mn) * f := by
    field_simp
    ring
  unfold Color.set_hsv
  rw [if_neg hs]
  simp only [hfr, h6, hfl, add_sub_cancel_left, hp, hq, ht]

/-- Over the exact rationals of the embedding the conversion to HSV and back
is the identity on a colour with channels that are not negative: the written
out getters and `Color.set_hsv` are inverse to each other. -/
theorem hsv_roundtrip (r g b a : ℚ) (hr : 0 ≤ r) (hg : 0 ≤ g) (hb : 0 ≤ b) :
    Color.set_hsv (Color.get_h ⟨r, g, b, a⟩) (Color.get_s ⟨r, g, b, a⟩)
      (Color.get_v ⟨r, g, b, a⟩) a = ⟨r, g, b, a⟩ := by
  -- the largest and the smallest channel
  obtain ⟨mx, hmx⟩ : ∃ mx, max (max r g) b = mx := ⟨_, rfl⟩
  obtain ⟨mn, hmn⟩ : ∃ mn, min (min r g) b = mn := ⟨_, rfl⟩
  have hrmx : r ≤ mx := hmx ▸ le_trans (le_max_left r g) (le_max_left _ b)
  have hgmx : g ≤ mx := hmx ▸ le_trans (le_max_right r g) (le_max_left _ b)
  have hbmx : b ≤ mx := hmx ▸ le_max_right _ b
  have hmnr : mn ≤ r := hmn ▸ le_trans (min_le_left _ b) (min_le_left r g)
  have hmng : mn ≤ g := hmn ▸ le_trans (min_le_left _ b) (min_le_right r g)
  have hmnb : mn ≤ b := hmn ▸ min_le_right _ b
  have hmn0 : 0 ≤ mn := hmn ▸ le_min (le_min hr hg) hb
  have hv : Color.get_v ⟨r, g, b, a⟩ = mx := hmx
  by_cases hd : mx - mn = 0
  · -- a grey
    have he : mx = mn := sub_eq_zero.mp hd
    have e1 : r = mx := le_antisymm hrmx (he ▸ hmnr)
    have e2 : g = mx := le_antisymm hgmx (he ▸ hmng)
    have e3 : b = mx := le_antisymm hbmx (he ▸ hmnb)
    have hs : Color.get_s ⟨r, g, b, a⟩ = 0 := by
      unfold Color.get_s
      simp only [hmx, hmn, hd]
      simp
    rw [hs, hv]
    unfold Color.set_hsv
    simp [e1, e2, e3]
  · have hne : mx ≠ mn := fun h => hd (sub_eq_zero.mpr h)
    have hlt : mn < mx := lt_of_le_of_ne (le_trans hmnr hrmx) (Ne.symm hne)
    have hmx0 : mx ≠ 0 := ne_of_gt (lt_of_le_of_lt hmn0 hlt)
    have hdpos : 0 < mx - mn := sub_pos.mpr hlt
    have hs : Color.get_s ⟨r, g, b, a⟩ = (mx - mn) / mx := by
      unfold Color.get_s
      simp only [hmx, hmn]
      simp [hmx0]
    have hh : Color.get_h ⟨r, g, b, a⟩ =
        (if ((if r = mx then (g - b) / (mx - mn)
              else if g = mx then 2 + (b - r) / (mx - mn)
              else 4 + (r - g) / (mx - mn)) / 6 < 0)
          then (if r = mx then (g - b) / (mx - mn)
              else if g = mx then 2 + (b - r) / (mx - mn)
              else 4 + (r - g) / (mx - mn)) / 6 + 1
          else (if r = mx then (g - b) / (mx - mn)
              else if g = mx then 2 + (b - r) / (mx - mn)
              else 4 + (r - g) / (mx - mn)) / 6) := by
      unfold Color.get_h
      simp only [hmx, hmn, if_neg hd]
    rw [hs, hv, hh]
    have leaf : ∀ (k : ℤ) (f : ℚ), 0 ≤ k → k ≤ 5 → 0 ≤ f → f < 1 →
        (if k = 0 then (⟨mx, mn + (mx - mn) * f, mn, a⟩ : Color)
          else if k = 1 then ⟨mx - (mx - mn) * f, mx, mn, a⟩
          else if k = 2 then ⟨mn, mx, mn + (mx - mn) * f, a⟩
          else if k = 3 then ⟨mn, mx - (mx - mn) * f, mx, a⟩
          else if k = 4 then ⟨mn + (mx - mn) * f, mn, mx, a⟩
          else ⟨mx, mn, mx - (mx - mn) * f, a⟩) = ⟨r, g, b, a⟩ →
        Color.set_hsv (((k : ℚ) + f) / 6) ((mx - mn) / mx) mx a = ⟨r, g, b, a⟩ := by
      intro k f h1 h2 h3 h4 h5
      rw [set_hsv_sextant k f mx mn a h1 h2 h3 h4 hmx0 hne, h5]
    have hmul : ∀ x : ℚ, (mx - mn) * (x / (mx - mn)) = x := by
      intro x
      field_simp
    have hdne : mx - mn ≠ 0 := hd
    by_cases hrm : r = mx
    · simp only [if_pos hrm]
      rcases le_or_lt b g with hbg | hgb
      · -- red is largest, blue is smallest
        have hmb : mn = b :=
          le_antisymm hmnb (hmn ▸ le_min (le_min (hrm ▸ hbmx) hbg) le_rfl)
        have hf0 : 0 ≤ (g - b) / (mx - mn) := div_nonneg (sub_nonneg.mpr hbg) hdpos.le
        rw [if_neg (not_lt.mpr (div_nonneg hf0 (by norm_num)))]
        rcases lt_or_eq_of_le hgmx with hgl | hge
        · have hf1 : (g - b) / (mx - mn) < 1 := by
            rw [div_lt_one hdpos]
            linarith
          have := leaf 0 ((g - b) / (mx - mn)) le_rfl (by norm_num) hf0 hf1 (by
            simp only [if_true, hmul]
            rw [hmb, ← hrm]
            simp)
          simpa using this
        · have h16 : (g - b) / (mx - mn) / 6 = (((1 : ℤ) : ℚ) + 0) / 6 := by
            rw [hge, hmb, div_self (hmb ▸ hdne)]
            norm_num
          rw [h16]
          exact leaf 1 0 (by norm_num) (by norm_num) le_rfl (by norm_num) (by
            simp [hrm, hge, hmb])
      · -- red is largest, green is smallest
        have hmg : mn = g :=
          le_antisymm hmng (hmn ▸ le_min (le_min (hrm ▸ hgmx) le_rfl) hgb.le)
        have hneg : (g - b) / (mx - mn) / 6 < 0 :=
          div_neg_of_neg_of_pos (div_neg_of_neg_of_pos (sub_neg.mpr hgb) hdpos) (by norm_num)
        rw [if_pos hneg]
        have hX : (g - b) / (mx - mn) / 6 + 1 =
            (((5 : ℤ) : ℚ) + (1 + (g - b) / (mx - mn))) / 6 := by
          push_cast
          ring
        have hf0 : 0 ≤ 1 + (g - b) / (mx - mn) := by
          have : (b - g) / (mx - mn) ≤ 1 := by
            rw [div_le_one hdpos]
            linarith
          have e : (g - b) / (mx - mn) = -((b - g) / (mx - mn)) := by
            rw [← neg_div]
            ring_nf
          linarith
        have hf1 : 1 + (g - b) / (mx - mn) < 1 := by
          have := div_neg_of_neg_of_pos (sub_neg.mpr hgb) hdpos
          linarith
        rw [hX]
        exact leaf 5 _ (by norm_num) le_rfl hf0 hf1 (by
          simp only [mul_add, mul_one, hmul]
          rw [hmg, ← hrm]
          simp)
    · have hrl : r < mx := lt_of_le_of_ne hrmx hrm
      simp only [if_neg hrm]
      by_cases hgm : g = mx
      · simp only [if_pos hgm]
        rcases le_or_lt r b with hrb | hbr
        · -- green is largest, red is smallest
          have hmr : mn = r :=
            le_antisymm hmnr (hmn ▸ le_min (le_min le_rfl (hgm ▸ hrmx)) hrb)
          have hf0 : 0 ≤ (b - r) / (mx - mn) := div_nonneg (sub_nonneg.mpr hrb) hdpos.le
          rw [if_neg (not_lt.mpr (div_nonneg (add_nonneg (by norm_num) hf0) (by norm_num)))]
          rcases lt_or_eq_of_le hbmx with hbl | hbe
          · have hf1 : (b - r) / (mx - mn) < 1 := by
              rw [div_lt_one hdpos]
              linarith
            have := leaf 2 ((b - r) / (mx - mn)) (by norm_num) (by norm_num) hf0 hf1 (by
              simp only [hmul]
              rw [hmr, ← hgm]
              simp)
            simpa using this
          · have h36 : (2 + (b - r) / (mx - mn)) / 6 = (((3 : ℤ) : ℚ) + 0) / 6 := by
              rw [hbe, hmr, div_self (hmr ▸ hdne)]
              norm_num
            rw [h36]
            exact leaf 3 0 (by norm_num) (by norm_num) le_rfl (by norm_num) (by
              simp [hgm, hbe, hmr])
        · -- green is largest, blue is smallest
          have hmb : mn = b :=
            le_antisymm hmnb (hmn ▸ le_min (le_min hbr.le (hgm ▸ hbmx)) le_rfl)
          have hlo : -1 < (b - r) / (mx - mn) := by
            rw [lt_div_iff₀ hdpos]
            linarith
          have hhi : (b - r) / (mx - mn) < 0 := div_neg_of_neg_of_pos (sub_neg.mpr hbr) hdpos
          rw [if_neg (not_lt.mpr (div_nonneg (by linarith) (by norm_num)))]
          have hX : (2 + (b - r) / (mx - mn)) / 6 =
              (((1 : ℤ) : ℚ) + (1 + (b - r) / (mx - mn))) / 6 := by
            push_cast
            ring
          rw [hX]
          exact leaf 1 _ (by norm_num) (by norm_num) (by linarith) (by linarith) (by
            simp only [mul_add, mul_one, hmul]
            rw [hmb, ← hgm]
            simp)
      · have hgl : g < mx := lt_of_le_of_ne hgmx hgm
        have hbm : b = mx := by
          rcases max_choice (max r g) b with h | h
          · rcases max_choice r g with h2 | h2
            · exact absurd (by rw [← hmx, h, h2]) hrm
            · exact absurd (by rw [← hmx, h, h2]) hgm
          · rw [← hmx, h]
        simp only [if_neg hgm]
        rcases le_or_lt g r with hgr | hrg
        · -- blue is largest, green is smallest
          have hmg : mn = g :=
            le_antisymm hmng (hmn ▸ le_min (le_min hgr le_rfl) (hbm ▸ hgmx))
          have hf0 : 0 ≤ (r - g) / (mx - mn) := div_nonneg (sub_nonneg.mpr hgr) hdpos.le
          have hf1 : (r - g) / (mx - mn) < 1 := by
            rw [div_lt_one hdpos]
            linarith
          rw [if_neg (not_lt.mpr (div_nonneg (add_nonneg (by norm_num) hf0) (by norm_num)))]
          have := leaf 4 ((r - g) / (mx - mn)) (by norm_num) (by norm_num) hf0 hf1 (by
            simp only [hmul]
            rw [hmg, ← hbm]
            simp)
          simpa using this
        · -- blue is largest, red is smallest
          have hmr : mn = r :=
            le_antisymm hmnr (hmn ▸ le_min (le_min le_rfl hrg.le) (hbm ▸ hrmx))
          have hlo : -1 < (r - g) / (mx - mn) := by
            rw [lt_div_iff₀ hdpos]
            linarith
          have hhi : (r - g) / (mx - mn) < 0 := div_neg_of_neg_of_pos (sub_neg.mpr hrg) hdpos
          rw [if_neg (not_lt.mpr (div_nonneg (by linarith) (by norm_num)))]
          have hX : (4 + (r - g) / (mx - mn)) / 6 =
              (((3 : ℤ) : ℚ) + (1 + (r - g) / (mx - mn))) / 6 := by
            push_cast
            ring
          rw [hX]
          exact leaf 3 _ (by norm_num) (by norm_num) (by linarith) (by linarith) (by
            simp only [mul_add, mul_one, hmul]
            rw [hmr, ← hbm]
            simp)

/-- What `_copy_hsv_to_color` leaves alone. -/
@[simp]
theorem copy_hsv_to_color_fields (E : Engine) (st : PickerState) :
    (_copy_hsv_to_color E st).old_color = st.old_color ∧
    (_copy_hsv_to_color E st).last_color = st.last_color ∧
    (_copy_hsv_to_color E st).pre_picking_color = st.pre_picking_color ∧
    (_copy_hsv_to_color E st).h = st.h ∧
    (_copy_hsv_to_color E st).s = st.s ∧
    (_copy_hsv_to_color E st).v = st.v ∧
    (_copy_hsv_to_color E st).ok_hsl_h = st.ok_hsl_h ∧
    (_copy_hsv_to_color E st).ok_hsl_s = st.ok_hsl_s ∧
    (_copy_hsv_to_color E st).ok_hsl_l = st.ok_hsl_l ∧
    (_copy_hsv_to_color E st).updating = st.updating ∧
    (_copy_hsv_to_color E st).text_changed = st.text_changed ∧
    (_copy_hsv_to_color E st).text_is_constructor = st.text_is_constructor ∧
    (_copy_hsv_to_color E st).edit_alpha = st.edit_alpha ∧
    (_copy_hsv_to_color E st).deferred_mode_enabled = st.deferred_mode_enabled ∧
    (_copy_hsv_to_color E st).currently_dragging = st.currently_dragging ∧
    (_copy_hsv_to_color E st).changing_color = st.changing_color ∧
    (_copy_hsv_to_color E st).spinning = st.spinning ∧
    (_copy_hsv_to_color E st).is_picking_color = st.is_picking_color ∧
    (_copy_hsv_to_color E st).current_mode = st.current_mode ∧
    (_copy_hsv_to_color E st).current_shape = st.current_shape ∧
    (_copy_hsv_to_color E st).current_slider_count = st.current_slider_count ∧
    (_copy_hsv_to_color E st).inside_tree = st.inside_tree ∧
    (_copy_hsv_to_color E st).c_text = st.c_text ∧
    (_copy_hsv_to_color E st).c_text_visible = st.c_text_visible ∧
    (_copy_hsv_to_color E st).text_type_visible = st.text_type_visible ∧
    (_copy_hsv_to_color E st).sliders = st.sliders ∧
    (_copy_hsv_to_color E st).alpha_slider = st.alpha_slider ∧
    (_copy_hsv_to_color E st).mode_cache = st.mode_cache ∧
    (_copy_hsv_to_color E st).w_edit_size = st.w_edit_size ∧
    (_copy_hsv_to_color E st).presets = st.presets ∧
    (_copy_hsv_to_color E st).preset_cache = st.preset_cache ∧
    (_copy_hsv_to_color E st).recent_presets = st.recent_presets ∧
    (_copy_hsv_to_color E st).recent_preset_cache = st.recent_preset_cache ∧
    (_copy_hsv_to_color E st).preset_container = st.preset_container ∧
    (_copy_hsv_to_color E st).recent_preset_hbc = st.recent_preset_hbc ∧
    (_copy_hsv_to_color E st).emitted = st.emitted := by
  unfold _copy_hsv_to_color
  split_ifs <;> simp

/-- What a motion sample of `_uv_input` leaves alone. -/
@[simp]
theorem uv_motion_target_fields (E : Engine) (st : PickerState) (pos : Vector2) (c : Control) :
    (uv_motion_target E st pos c).color = st.color ∧
    (uv_motion_target E st pos c).old_color = st.old_color ∧
    (uv_motion_target E st pos c).last_color = st.last_color ∧
    (uv_motion_target E st pos c).pre_picking_color = st.pre_picking_color ∧
    (uv_motion_target E st pos c).ok_hsl_l = st.ok_hsl_l ∧
    (uv_motion_target E st pos c).updating = st.updating ∧
    (uv_motion_target E st pos c).text_changed = st.text_changed ∧
    (uv_motion_target E st pos c).text_is_constructor = st.text_is_constructor ∧
    (uv_motion_target E st pos c).edit_alpha = st.edit_alpha ∧
    (uv_motion_target E st pos c).deferred_mode_enabled = st.deferred_mode_enabled ∧
    (uv_motion_target E st pos c).currently_dragging = st.currently_dragging ∧
    (uv_motion_target E st pos c).changing_color = st.changing_color ∧
    (uv_motion_target E st pos c).spinning = st.spinning ∧
    (uv_motion_target E st pos c).is_picking_color = st.is_picking_color ∧
    (uv_motion_target E st pos c).current_mode = st.current_mode ∧
    (uv_motion_target E st pos c).current_shape = st.current_shape ∧
    (uv_motion_target E st pos c).current_slider_count = st.current_slider_count ∧
    (uv_motion_target E st pos c).inside_tree = st.inside_tree ∧
    (uv_motion_target E st pos c).c_text = st.c_text ∧
    (uv_motion_target E st pos c).c_text_visible = st.c_text_visible ∧
    (uv_motion_target E st pos c).text_type_visible = st.text_type_visible ∧
    (uv_motion_target E st pos c).sliders = st.sliders ∧
    (uv_motion_target E st pos c).alpha_slider = st.alpha_slider ∧
    (uv_motion_target E st pos c).mode_cache = st.mode_cache ∧
    (uv_motion_target E st pos c).w_edit_size = st.w_edit_size ∧
    (uv_motion_target E st pos c).presets = st.presets ∧
    (uv_motion_target E st pos c).preset_cache = st.preset_cache ∧
    (uv_motion_target E st pos c).recent_presets = st.recent_presets ∧
    (uv_motion_target E st pos c).recent_preset_cache = st.recent_preset_cache ∧
    (uv_motion_target E st pos c).preset_container = st.preset_container ∧
    (uv_motion_target E st pos c).recent_preset_hbc = st.recent_preset_hbc ∧
    (uv_motion_target E st pos c).emitted = st.emitted := by
  unfold uv_motion_target
  dsimp only
  split_ifs <;> simp

/-- What a position on the strip leaves alone. -/
@[simp]
theorem w_target_fields (E : Engine) (st : PickerState) (pos : Vector2) :
    (w_target E st pos).color = st.color ∧
    (w_target E st pos).old_color = st.old_color ∧
    (w_target E st pos).last_color = st.last_color ∧
    (w_target E st pos).pre_picking_color = st.pre_picking_color ∧
    (w_target E st pos).s = st.s ∧
    (w_target E st pos).ok_hsl_h = st.ok_hsl_h ∧
    (w_target E st pos).ok_hsl_s = st.ok_hsl_s ∧
    (w_target E st pos).updating = st.updating ∧
    (w_target E st pos).text_changed = st.text_changed ∧
    (w_target E st pos).text_is_constructor = st.text_is_constructor ∧
    (w_target E st pos).edit_alpha = st.edit_alpha ∧
    (w_target E st pos).deferred_mode_enabled = st.deferred_mode_enabled ∧
    (w_target E st pos).currently_dragging = st.currently_dragging ∧
    (w_target E st pos).changing_color = st.changing_color ∧
    (w_target E st pos).spinning = st.spinning ∧
    (w_target E st pos).is_picking_color = st.is_picking_color ∧
    (w_target E st pos).current_mode = st.current_mode ∧
    (w_target E st pos).current_shape = st.current_shape ∧
    (w_target E st pos).current_slider_count = st.current_slider_count ∧
    (w_target E st pos).inside_tree = st.inside_tree ∧
    (w_target E st pos).c_text = st.c_text ∧
    (w_target E st pos).c_text_visible = st.c_text_visible ∧
    (w_target E st pos).text_type_visible = st.text_type_visible ∧
    (w_target E st pos).sliders = st.sliders ∧
    (w_target E st pos).alpha_slider = st.alpha_slider ∧
    (w_target E st pos).mode_cache = st.mode_cache ∧
    (w_target E st pos).w_edit_size = st.w_edit_size ∧
    (w_target E st pos).presets = st.presets ∧
    (w_target E st pos).preset_cache = st.preset_cache ∧
    (w_target E st pos).recent_presets = st.recent_presets ∧
    (w_target E st pos).recent_preset_cache = st.recent_preset_cache ∧
    (w_target E st pos).preset_container = st.preset_container ∧
    (w_target E st pos).recent_preset_hbc = st.recent_preset_hbc ∧
    (w_target E st pos).emitted = st.emitted := by
  unfold w_target
  dsimp only
  split_ifs <;> simp
/-- What the press branch of `_uv_input` leaves alone, when it does not return
early. -/
theorem uv_press_target_fields (E : Engine) (st t : PickerState) (pos : Vector2) (c : Control)
    (h : uv_press_target E st pos c = some t) :
    t.color = st.color ∧ t.last_color = st.last_color ∧ t.updating = st.updating ∧
    t.text_changed = st.text_changed ∧ t.deferred_mode_enabled = st.deferred_mode_enabled ∧
    t.changing_color = st.changing_color ∧ t.current_mode = st.current_mode ∧
    t.current_shape = st.current_shape ∧ t.inside_tree = st.inside_tree ∧
    t.emitted = st.emitted ∧ t.ok_hsl_l = st.ok_hsl_l ∧
    t.recent_presets = st.recent_presets ∧ t.recent_preset_hbc = st.recent_preset_hbc := by
  unfold uv_press_target at h
  dsimp only at h
  split_ifs at h
  all_goals (try (simp only [Option.map_some', Option.map_none', Option.some.injEq] at h))
  all_goals (try contradiction)
  all_goals (subst h; first | (split_ifs <;> simp) | simp)

/-- The tail of the pointer handlers never touches `updating` unless it
clears it, keeps the flags, and emits one notification unless deferred. -/
theorem apply_hsv_edit_fields (E : Engine) (st : PickerState) :
    (apply_hsv_edit E st).updating = (st.updating && !st.inside_tree) ∧
    (apply_hsv_edit E st).deferred_mode_enabled = st.deferred_mode_enabled ∧
    (apply_hsv_edit E st).changing_color = st.changing_color ∧
    (apply_hsv_edit E st).spinning = st.spinning ∧
    (apply_hsv_edit E st).current_mode = st.current_mode ∧
    (apply_hsv_edit E st).current_shape = st.current_shape ∧
    (apply_hsv_edit E st).w_edit_size = st.w_edit_size ∧
    (apply_hsv_edit E st).inside_tree = st.inside_tree ∧
    (apply_hsv_edit E st).h = st.h ∧ (apply_hsv_edit E st).s = st.s ∧
    (apply_hsv_edit E st).v = st.v ∧ (apply_hsv_edit E st).ok_hsl_h = st.ok_hsl_h ∧
    (apply_hsv_edit E st).ok_hsl_s = st.ok_hsl_s ∧ (apply_hsv_edit E st).ok_hsl_l = st.ok_hsl_l ∧
    (apply_hsv_edit E st).color = (_copy_hsv_to_color E st).color ∧
    (apply_hsv_edit E st).last_color = (_copy_hsv_to_color E st).color ∧
    (apply_hsv_edit E st).emitted =
      st.emitted ++ (if st.deferred_mode_enabled then []
        else [Signal.color_changed (_copy_hsv_to_color E st).color]) := by
  have htri := set_pick_color_triples E
    { _copy_hsv_to_color E st with last_color := (_copy_hsv_to_color E st).color }
    (_copy_hsv_to_color E st).color true
  simp only [if_true, hsv_triple, ok_hsl_triple, Prod.mk.injEq] at htri
  unfold apply_hsv_edit set_pick_color
  dsimp only
  split_ifs with hd <;>
    simp_all [set_pick_color_updating, emit_color_changed]

/-- C17: while `updating` is set, `_slider_value_changed` and `_html_submitted`
return at once: the whole state, with the colour, the cached triples,
`last_color`, the recent list and the log of emitted signals, is unchanged. -/
theorem C17_updating_blocks_editors (E : Engine) (st : PickerState) (p_html : String)
    (hupd : st.updating = true) :
    _slider_value_changed E st = st ∧ _html_submitted E st p_html = st := by
  constructor
  · unfold _slider_value_changed
    simp [hupd]
  · unfold _html_submitted
    simp [hupd]

/-- C17, evaluated: the fresh picker with `updating` set, and the text
"#ff0000". -/
theorem C17_updating_blocks_editors_witness :
    _slider_value_changed sampleEngine { initialState with updating := true } =
      { initialState with updating := true } ∧
    _html_submitted sampleEngine { initialState with updating := true } "#ff0000" =
      { initialState with updating := true } :=
  C17_updating_blocks_editors sampleEngine { initialState with updating := true } "#ff0000" rfl

/-- C18: from a state with `updating` false, each of set_pick_color,
_slider_value_changed, _html_submitted, _uv_input, _w_input, set_color_mode,
set_picker_shape and set_edit_alpha returns with `updating` false, whatever
its arguments and on every path, the early returns outside the tree
included. -/
theorem C18_updating_false_on_return (E : Engine) (st : PickerState)
    (hupd : st.updating = false) :
    (∀ p : Color, (set_pick_color E st p).updating = false) ∧
    (_slider_value_changed E st).updating = false ∧
    (∀ text : String, (_html_submitted E st text).updating = false) ∧
    (∀ (ev : InputEvent) (c : Control), (_uv_input E st ev c).updating = false) ∧
    (∀ ev : InputEvent, (_w_input E st ev).updating = false) ∧
    (∀ m : Int, (set_color_mode E st m).updating = false) ∧
    (∀ sh : Int, (set_picker_shape E st sh).updating = false) ∧
    (∀ b : Bool, (set_edit_alpha E st b).updating = false) := by
  refine ⟨?_, ?_, ?_, ?_, ?_, ?_, ?_, ?_⟩
  · intro p
    simp [set_pick_color, set_pick_color_updating, hupd]
  · unfold _slider_value_changed
    simp only [hupd, Bool.false_eq_true, if_false]
    split_ifs <;> simp [set_pick_color_updating, emit_color_changed, hupd]
  · intro text
    unfold _html_submitted set_pick_color emit_color_changed
    dsimp only
    split_ifs <;> simp [set_pick_color_updating, hupd]
  · intro ev c
    unfold _uv_input
    cases ev with
    | mouse_button idx pressed pos =>
      dsimp only
      split_ifs
      · cases hp : uv_press_target E st pos c with
        | none => simpa using hupd
        | some t =>
          have ht := (uv_press_target_fields E st t pos c hp).2.2.1
          simp [apply_hsv_edit_fields, ht, hupd]
      all_goals simp [emit_color_changed, hupd]
    | mouse_motion pos =>
      dsimp only
      split_ifs <;> simp [apply_hsv_edit_fields, hupd]
    | other => exact hupd
  · intro ev
    unfold _w_input
    cases ev with
    | mouse_button idx pressed pos =>
      dsimp only
      split_ifs <;>
        simp [set_pick_color, set_pick_color_updating, emit_color_changed, hupd]
    | mouse_motion pos =>
      dsimp only
      split_ifs <;> simp [apply_hsv_edit_fields, hupd]
    | other => exact hupd
  · intro m
    unfold set_color_mode _update_controls
    cases ColorModeType.ofIndex m with
    | none => exact hupd
    | some m =>
      dsimp only
      split_ifs <;> simp [hupd]
  · intro sh
    unfold set_picker_shape
    cases PickerShapeType.ofIndex sh with
    | none => exact hupd
    | some sh =>
      dsimp only
      split_ifs <;> simp [hupd]
  · intro b
    unfold set_edit_alpha _update_controls
    dsimp only
    split_ifs <;> simp [hupd]

/-- C18, evaluated: a left press in the S/V rectangle of the fresh picker. -/
theorem C18_updating_false_on_return_witness :
    initialState.updating = false ∧
    (_uv_input sampleEngine initialState
      (InputEvent.mouse_button MouseButton.LEFT true ⟨50, 50⟩) ⟨⟨200, 200⟩, false⟩).updating =
      false :=
  ⟨rfl, (C18_updating_false_on_return sampleEngine initialState rfl).2.2.2.1 _ _⟩

/-- C20, as amended: `set_color_mode` never writes the canonical colour or
the cached triples, for any argument; the triples equal the values derived
from the colour after the call exactly when they did before it. -/
theorem C20_set_color_mode_keeps_triples (E : Engine) (st : PickerState) (m : Int) :
    (set_color_mode E st m).color = st.color ∧
    hsv_triple (set_color_mode E st m) = hsv_triple st ∧
    ok_hsl_triple (set_color_mode E st m) = ok_hsl_triple st ∧
    (hsv_triple (set_color_mode E st m) = derived_hsv (set_color_mode E st m).color ↔
      hsv_triple st = derived_hsv st.color) ∧
    (ok_hsl_triple (set_color_mode E st m) = derived_ok_hsl E (set_color_mode E st m).color ↔
      ok_hsl_triple st = derived_ok_hsl E st.color) := by
  have hc : (set_color_mode E st m).color = st.color := by
    unfold set_color_mode _update_controls
    cases ColorModeType.ofIndex m with
    | none => rfl
    | some m =>
      dsimp only
      split_ifs <;> simp
  have h1 : hsv_triple (set_color_mode E st m) = hsv_triple st := by
    unfold set_color_mode _update_controls hsv_triple
    cases ColorModeType.ofIndex m with
    | none => rfl
    | some m =>
      dsimp only
      split_ifs <;> simp
  have h2 : ok_hsl_triple (set_color_mode E st m) = ok_hsl_triple st := by
    unfold set_color_mode _update_controls ok_hsl_triple
    cases ColorModeType.ofIndex m with
    | none => rfl
    | some m =>
      dsimp only
      split_ifs <;> simp
  refine ⟨hc, h1, h2, ?_, ?_⟩
  · rw [h1, hc]
  · rw [h2, hc]

/-- C20 as stated fails: `hueMemoryState` is in RGB mode with the colour white
and the cached hue 1/2 (set by a press on the hue strip); after the switch to
HSV mode the cached HSV triple is still (1/2, 0, 1), not the triple (0, 0, 1)
derived from the colour. -/
theorem C20_set_color_mode_counterexample :
    hueMemoryState.current_mode = MODE_RGB ∧
    (set_color_mode sampleEngine hueMemoryState 1).current_mode = MODE_HSV ∧
    (set_color_mode sampleEngine hueMemoryState 1).color = ⟨1, 1, 1, 1⟩ ∧
    hsv_triple (set_color_mode sampleEngine hueMemoryState 1) = (1 / 2, 0, 1) ∧
    derived_hsv (set_color_mode sampleEngine hueMemoryState 1).color = (0, 0, 1) ∧
    hsv_triple (set_color_mode sampleEngine hueMemoryState 1) ≠
      derived_hsv (set_color_mode sampleEngine hueMemoryState 1).color := by
  decide!

/-- Inside the tree `_html_submitted` keeps the derived state consistent: if
`last_color` is the colour and both cached triples are derived from it before
the call, the same holds after it. -/
theorem html_submitted_consistent_inside_tree (E : Engine) (st : PickerState) (p_html : String)
    (htree : st.inside_tree = true) (hlast : st.last_color = st.color)
    (hhsv : hsv_triple st = derived_hsv st.color)
    (hok : ok_hsl_triple st = derived_ok_hsl E st.color) :
    (_html_submitted E st p_html).last_color = (_html_submitted E st p_html).color ∧
    hsv_triple (_html_submitted E st p_html) = derived_hsv (_html_submitted E st p_html).color ∧
    ok_hsl_triple (_html_submitted E st p_html) =
      derived_ok_hsl E (_html_submitted E st p_html).color := by
  unfold _html_submitted
  dsimp only
  split_ifs with h1 h2
  · exact ⟨hlast, hhsv, hok⟩
  · exact ⟨hlast, hhsv, hok⟩
  · have hne : _html_new_color E st p_html ≠ st.last_color := by
      intro h
      apply h2
      rw [h, hlast]
    have htri := set_pick_color_triples E { st with color := _html_new_color E st p_html }
      (_html_new_color E st p_html) true
    simp only [if_neg hne] at htri
    unfold set_pick_color emit_color_changed hsv_triple ok_hsl_triple at *
    simp_all

/-- The macro CLAMP stays within its bounds. -/
theorem CLAMP_bounds (a lo hi : ℚ) (h : lo ≤ hi) : lo ≤ CLAMP a lo hi ∧ CLAMP a lo hi ≤ hi := by
  unfold CLAMP
  split_ifs with h1 h2
  · exact ⟨le_rfl, h⟩
  · exact ⟨h, le_rfl⟩
  · exact ⟨not_lt.mp h1, not_lt.mp h2⟩

/-- The macro CLAMP is the identity between its bounds. -/
theorem CLAMP_of_mem (a lo hi : ℚ) (h1 : lo ≤ a) (h2 : a ≤ hi) : CLAMP a lo hi = a := by
  unfold CLAMP
  rw [if_neg (not_lt.mpr h1), if_neg (not_lt.mpr h2)]

/-- A clamped coordinate divided by the positive size lies in [0, 1]. -/
theorem CLAMP_ratio_bounds (a w : ℚ) (hw : 0 < w) :
    0 ≤ CLAMP a 0 w / w ∧ CLAMP a 0 w / w ≤ 1 := by
  obtain ⟨h1, h2⟩ := CLAMP_bounds a 0 w hw.le
  exact ⟨div_nonneg h1 hw.le, (div_le_one hw).mpr h2⟩

/-- C13, as amended: for the HSV rectangle shape on a control of positive
size W by H, outside a hue spin, a motion sample during a gesture is clamped
to the rectangle whatever its position, giving s = clamp(x, 0, W) / W and
v = 1 - clamp(y, 0, H) / H, both in [0, 1]; a left press inside the rectangle
is mapped the same way; a left press outside the rectangle leaves s and v as
they were. -/
theorem C13_rectangle_clamp_amended (E : Engine) (st : PickerState) (pos : Vector2)
    (c : Control)
    (hshape : _get_actual_shape E st = SHAPE_HSV_RECTANGLE) (hc : c.is_wheel_uv = false)
    (hW : 0 < c.size.x) (hH : 0 < c.size.y) (hspin : st.spinning = false) :
    (st.changing_color = true →
      (_uv_input E st (InputEvent.mouse_motion pos) c).s = CLAMP pos.x 0 c.size.x / c.size.x ∧
      (_uv_input E st (InputEvent.mouse_motion pos) c).v =
        1 - CLAMP pos.y 0 c.size.y / c.size.y ∧
      0 ≤ (_uv_input E st (InputEvent.mouse_motion pos) c).s ∧
      (_uv_input E st (InputEvent.mouse_motion pos) c).s ≤ 1 ∧
      0 ≤ (_uv_input E st (InputEvent.mouse_motion pos) c).v ∧
      (_uv_input E st (InputEvent.mouse_motion pos) c).v ≤ 1) ∧
    (0 ≤ pos.x ∧ pos.x ≤ c.size.x ∧ 0 ≤ pos.y ∧ pos.y ≤ c.size.y →
      (_uv_input E st (InputEvent.mouse_button MouseButton.LEFT true pos) c).s =
        CLAMP pos.x 0 c.size.x / c.size.x ∧
      (_uv_input E st (InputEvent.mouse_button MouseButton.LEFT true pos) c).v =
        1 - CLAMP pos.y 0 c.size.y / c.size.y ∧
      (_uv_input E st (InputEvent.mouse_button MouseButton.LEFT true pos) c).s =
        pos.x / c.size.x ∧
      (_uv_input E st (InputEvent.mouse_button MouseButton.LEFT true pos) c).v =
        1 - pos.y / c.size.y) ∧
    (pos.x < 0 ∨ pos.x > c.size.x ∨ pos.y < 0 ∨ pos.y > c.size.y →
      (_uv_input E st (InputEvent.mouse_button MouseButton.LEFT true pos) c).s = st.s ∧
      (_uv_input E st (InputEvent.mouse_button MouseButton.LEFT true pos) c).v = st.v) := by
  have hcx : uv_corner_x E c = 0 := by simp [uv_corner_x, hc]
  have hcy : uv_corner_y E c = 0 := by simp [uv_corner_y, hc]
  have hnc : ¬ (_get_actual_shape E st = SHAPE_VHS_CIRCLE ∨
      _get_actual_shape E st = SHAPE_OKHSL_CIRCLE) := by
    rw [hshape]
    decide
  refine ⟨?_, ?_, ?_⟩
  · intro hch
    have hm : uv_motion_target E st pos c =
        { st with s := CLAMP pos.x 0 c.size.x / c.size.x,
                  v := 1 - CLAMP pos.y 0 c.size.y / c.size.y } := by
      unfold uv_motion_target
      simp [hnc, hspin, hcx, hcy]
    have hs : (_uv_input E st (InputEvent.mouse_motion pos) c).s =
        CLAMP pos.x 0 c.size.x / c.size.x := by
      simp [_uv_input, hch, apply_hsv_edit_fields, hm]
    have hv : (_uv_input E st (InputEvent.mouse_motion pos) c).v =
        1 - CLAMP pos.y 0 c.size.y / c.size.y := by
      simp [_uv_input, hch, apply_hsv_edit_fields, hm]
    obtain ⟨a1, a2⟩ := CLAMP_ratio_bounds pos.x c.size.x hW
    obtain ⟨b1, b2⟩ := CLAMP_ratio_bounds pos.y c.size.y hH
    rw [hs, hv]
    exact ⟨rfl, rfl, a1, a2, by linarith, by linarith⟩
  · rintro ⟨x0, x1, y0, y1⟩
    have hin : ¬ (pos.x < 0 ∨ pos.x > c.size.x - 0 ∨ pos.y < 0 ∨ pos.y > c.size.y - 0) := by
      simp only [sub_zero, not_or, not_lt]
      exact ⟨x0, x1, y0, y1⟩
    have hp : uv_press_target E st pos c =
        some { st with s := CLAMP pos.x 0 c.size.x / c.size.x,
                       v := 1 - CLAMP pos.y 0 c.size.y / c.size.y } := by
      unfold uv_press_target
      simp only [hnc, if_false, hcx, hcy, hin]
      simp [hspin]
    have hs : (_uv_input E st (InputEvent.mouse_button MouseButton.LEFT true pos) c).s =
        CLAMP pos.x 0 c.size.x / c.size.x := by
      simp [_uv_input, hp, apply_hsv_edit_fields]
    have hv : (_uv_input E st (InputEvent.mouse_button MouseButton.LEFT true pos) c).v =
        1 - CLAMP pos.y 0 c.size.y / c.size.y := by
      simp [_uv_input, hp, apply_hsv_edit_fields]
    refine ⟨hs, hv, ?_, ?_⟩
    · rw [hs, CLAMP_of_mem pos.x 0 c.size.x x0 x1]
    · rw [hv, CLAMP_of_mem pos.y 0 c.size.y y0 y1]
  · intro hout
    have hout2 : pos.x < 0 ∨ pos.x > c.size.x - 0 ∨ pos.y < 0 ∨ pos.y > c.size.y - 0 := by
      simpa using hout
    cases hp : uv_press_target E st pos c with
    | none => simp [_uv_input, hp]
    | some t =>
      have ht : t.s = st.s ∧ t.v = st.v := by
        unfold uv_press_target at hp
        simp only [hnc, if_false, hcx, hcy, if_pos hout2] at hp
        split_ifs at hp
        · simp only [Option.map_some', Option.some.injEq] at hp
          subst hp
          simp
        · simp at hp
      simp [_uv_input, hp, apply_hsv_edit_fields, ht]

/-- C13 as amended, evaluated: a motion sample right of and above a 200 by
200 rectangle during a gesture gives s = 1 and v = 1. -/
theorem C13_rectangle_clamp_amended_witness :
    ({ initialState with changing_color := true } : PickerState).changing_color = true ∧
    (_uv_input sampleEngine { initialState with changing_color := true }
      (InputEvent.mouse_motion ⟨300, -50⟩) ⟨⟨200, 200⟩, false⟩).s =
      CLAMP 300 0 200 / 200 ∧
    CLAMP 300 0 200 / 200 = 1 :=
  ⟨rfl,
    ((C13_rectangle_clamp_amended sampleEngine { initialState with changing_color := true }
      ⟨300, -50⟩ ⟨⟨200, 200⟩, false⟩ (by decide!) rfl (by decide!) (by decide!) rfl).1 rfl).1,
    by decide!⟩

/-- C13 as stated fails on pointer-down: on the fresh picker (HSV rectangle,
control of 200 by 200) a left press at (300, 100), right of the rectangle,
is not clamped: it changes nothing, and s stays 0 where clamp(x, 0, W) / W
is 1. -/
theorem C13_rectangle_press_counterexample :
    _get_actual_shape sampleEngine initialState = SHAPE_HSV_RECTANGLE ∧
    _uv_input sampleEngine initialState
      (InputEvent.mouse_button MouseButton.LEFT true ⟨300, 100⟩) ⟨⟨200, 200⟩, false⟩ =
      initialState ∧
    (_uv_input sampleEngine initialState
      (InputEvent.mouse_button MouseButton.LEFT true ⟨300, 100⟩) ⟨⟨200, 200⟩, false⟩).s = 0 ∧
    CLAMP 300 0 200 / 200 = 1 := by
  decide!

/-- The hue of a pointer position lies in [0, 1] when the angle lies within
half a turn of zero. -/
theorem pointer_hue_bounds (E : Engine) (center pos : Vector2) (hTAU : 0 < E.Math_TAU)
    (hlo : -(E.Math_TAU / 2) ≤ E.angle_to_point center pos)
    (hhi : E.angle_to_point center pos ≤ E.Math_TAU / 2) :
    0 ≤ pointer_hue E center pos ∧ pointer_hue E center pos ≤ 1 := by
  unfold pointer_hue
  dsimp only
  split_ifs with h
  · exact ⟨div_nonneg h hTAU.le, (div_le_one hTAU).mpr (by linarith)⟩
  · exact ⟨div_nonneg (by linarith) hTAU.le, (div_le_one hTAU).mpr (by linarith [not_le.mp h])⟩

/-- C15: on the VHS circle and the OKHSL circle, a motion sample during a
gesture (`changing_color` set) is never rejected: whatever its distance from
the centre, the cached s (and ok_hsl_s) becomes clamp(dist / radius, 0, 1),
which lies in [0, 1], and the cached h becomes the hue of the pointer angle,
which lies in [0, 1] for an angle within half a turn of zero (the range of
`angle_to_point`) and a positive Math_TAU. -/
theorem C15_circle_motion_clamped (E : Engine) (st : PickerState) (pos : Vector2) (c : Control)
    (hshape : _get_actual_shape E st = SHAPE_VHS_CIRCLE ∨
      _get_actual_shape E st = SHAPE_OKHSL_CIRCLE)
    (hch : st.changing_color = true) (hTAU : 0 < E.Math_TAU)
    (hlo : -(E.Math_TAU / 2) ≤ E.angle_to_point ⟨c.size.x / 2, c.size.y / 2⟩ pos)
    (hhi : E.angle_to_point ⟨c.size.x / 2, c.size.y / 2⟩ pos ≤ E.Math_TAU / 2) :
    (_uv_input E st (InputEvent.mouse_motion pos) c).s =
      CLAMP (E.distance_to ⟨c.size.x / 2, c.size.y / 2⟩ pos / (c.size.x / 2)) 0 1 ∧
    (_uv_input E st (InputEvent.mouse_motion pos) c).ok_hsl_s =
      CLAMP (E.distance_to ⟨c.size.x / 2, c.size.y / 2⟩ pos / (c.size.x / 2)) 0 1 ∧
    0 ≤ (_uv_input E st (InputEvent.mouse_motion pos) c).s ∧
    (_uv_input E st (InputEvent.mouse_motion pos) c).s ≤ 1 ∧
    (_uv_input E st (InputEvent.mouse_motion pos) c).h =
      pointer_hue E ⟨c.size.x / 2, c.size.y / 2⟩ pos ∧
    0 ≤ (_uv_input E st (InputEvent.mouse_motion pos) c).h ∧
    (_uv_input E st (InputEvent.mouse_motion pos) c).h ≤ 1 ∧
    (_uv_input E st (InputEvent.mouse_motion pos) c).changing_color = true := by
  have hm : uv_motion_target E st pos c =
      { st with
        h := pointer_hue E ⟨c.size.x / 2, c.size.y / 2⟩ pos
        s := CLAMP (E.distance_to ⟨c.size.x / 2, c.size.y / 2⟩ pos / (c.size.x / 2)) 0 1
        ok_hsl_h := pointer_hue E ⟨c.size.x / 2, c.size.y / 2⟩ pos
        ok_hsl_s :=
          CLAMP (E.distance_to ⟨c.size.x / 2, c.size.y / 2⟩ pos / (c.size.x / 2)) 0 1 } := by
    unfold uv_motion_target
    simp [hshape]
  have hs : (_uv_input E st (InputEvent.mouse_motion pos) c).s =
      CLAMP (E.distance_to ⟨c.size.x / 2, c.size.y / 2⟩ pos / (c.size.x / 2)) 0 1 := by
    simp [_uv_input, hch, apply_hsv_edit_fields, hm]
  have hos : (_uv_input E st (InputEvent.mouse_motion pos) c).ok_hsl_s =
      CLAMP (E.distance_to ⟨c.size.x / 2, c.size.y / 2⟩ pos / (c.size.x / 2)) 0 1 := by
    simp [_uv_input, hch, apply_hsv_edit_fields, hm]
  have hh : (_uv_input E st (InputEvent.mouse_motion pos) c).h =
      pointer_hue E ⟨c.size.x / 2, c.size.y / 2⟩ pos := by
    simp [_uv_input, hch, apply_hsv_edit_fields, hm]
  have hc : (_uv_input E st (InputEvent.mouse_motion pos) c).changing_color = true := by
    simp [_uv_input, hch, apply_hsv_edit_fields]
  obtain ⟨a1, a2⟩ := CLAMP_bounds
    (E.distance_to ⟨c.size.x / 2, c.size.y / 2⟩ pos / (c.size.x / 2)) 0 1 (by norm_num)
  obtain ⟨b1, b2⟩ := pointer_hue_bounds E ⟨c.size.x / 2, c.size.y / 2⟩ pos hTAU hlo hhi
  rw [hs, hos, hh]
  exact ⟨rfl, rfl, a1, a2, rfl, b1, b2, hc⟩

/-- C15, evaluated: during a gesture on a 200 by 200 VHS circle, a motion
sample 200 units right of the centre gives s = 1. -/
theorem C15_circle_motion_clamped_witness :
    sampleEngine.distance_to ⟨(200 : ℚ) / 2, (200 : ℚ) / 2⟩ ⟨300, 100⟩ = 200 ∧
    (_uv_input sampleEngine
      { initialState with current_shape := SHAPE_VHS_CIRCLE, changing_color := true }
      (InputEvent.mouse_motion ⟨300, 100⟩) ⟨⟨200, 200⟩, true⟩).s =
      CLAMP (sampleEngine.distance_to ⟨(200 : ℚ) / 2, (200 : ℚ) / 2⟩ ⟨300, 100⟩ /
        ((200 : ℚ) / 2)) 0 1 ∧
    CLAMP (sampleEngine.distance_to ⟨(200 : ℚ) / 2, (200 : ℚ) / 2⟩ ⟨300, 100⟩ /
        ((200 : ℚ) / 2)) 0 1 = 1 :=
  ⟨by decide!,
    (C15_circle_motion_clamped sampleEngine
      { initialState with current_shape := SHAPE_VHS_CIRCLE, changing_color := true }
      ⟨300, 100⟩ ⟨⟨200, 200⟩, true⟩ (by decide!) rfl (by decide!) (by decide!) (by decide!)).1,
    by decide!⟩

/-- A motion sample over the S/V area during a gesture applies the colour of
the new cached values and notifies unless deferred. -/
theorem uv_motion_step (E : Engine) (s : PickerState) (p : Vector2) (c : Control)
    (hch : s.changing_color = true) :
    (_uv_input E s (InputEvent.mouse_motion p) c).changing_color = true ∧
    (_uv_input E s (InputEvent.mouse_motion p) c).deferred_mode_enabled =
      s.deferred_mode_enabled ∧
    (_uv_input E s (InputEvent.mouse_motion p) c).color =
      (_copy_hsv_to_color E (uv_motion_target E s p c)).color ∧
    (_uv_input E s (InputEvent.mouse_motion p) c).emitted =
      s.emitted ++ (if s.deferred_mode_enabled then []
        else [Signal.color_changed (_uv_input E s (InputEvent.mouse_motion p) c).color]) := by
  simp [_uv_input, hch, apply_hsv_edit_fields]

/-- A motion sample over the strip during a gesture applies the colour of the
new cached values and notifies unless deferred. -/
theorem w_motion_step (E : Engine) (s : PickerState) (p : Vector2)
    (hch : s.changing_color = true) :
    (_w_input E s (InputEvent.mouse_motion p)).changing_color = true ∧
    (_w_input E s (InputEvent.mouse_motion p)).deferred_mode_enabled =
      s.deferred_mode_enabled ∧
    (_w_input E s (InputEvent.mouse_motion p)).color =
      (_copy_hsv_to_color E (w_target E s p)).color ∧
    (_w_input E s (InputEvent.mouse_motion p)).emitted =
      s.emitted ++ (if s.deferred_mode_enabled then []
        else [Signal.color_changed (_w_input E s (InputEvent.mouse_motion p)).color]) := by
  simp [_w_input, hch, apply_hsv_edit_fields]

/-- A valid left press over the S/V area. -/
theorem uv_press_step (E : Engine) (st t : PickerState) (pos : Vector2) (c : Control)
    (hvalid : uv_press_target E st pos c = some t) :
    (_uv_input E st (InputEvent.mouse_button MouseButton.LEFT true pos) c).changing_color =
      true ∧
    (_uv_input E st (InputEvent.mouse_button MouseButton.LEFT true pos) c).deferred_mode_enabled =
      st.deferred_mode_enabled ∧
    (_uv_input E st (InputEvent.mouse_button MouseButton.LEFT true pos) c).color =
      (_copy_hsv_to_color E { t with changing_color := true }).color ∧
    (_uv_input E st (InputEvent.mouse_button MouseButton.LEFT true pos) c).emitted =
      st.emitted ++ (if st.deferred_mode_enabled then []
        else [Signal.color_changed
          (_uv_input E st (InputEvent.mouse_button MouseButton.LEFT true pos) c).color]) := by
  have hf := uv_press_target_fields E st t pos c hvalid
  simp [_uv_input, hvalid, apply_hsv_edit_fields, hf]

/-- The press branch of `_w_input` is the shared tail run on the new cached
value. -/
theorem w_press_eq (E : Engine) (st : PickerState) (pos : Vector2) :
    _w_input E st (InputEvent.mouse_button MouseButton.LEFT true pos) =
      apply_hsv_edit E (w_target E { st with changing_color := true } pos) := by
  simp [_w_input, apply_hsv_edit]

/-- A left press over the strip. -/
theorem w_press_step (E : Engine) (st : PickerState) (pos : Vector2) :
    (_w_input E st (InputEvent.mouse_button MouseButton.LEFT true pos)).changing_color = true ∧
    (_w_input E st (InputEvent.mouse_button MouseButton.LEFT true pos)).deferred_mode_enabled =
      st.deferred_mode_enabled ∧
    (_w_input E st (InputEvent.mouse_button MouseButton.LEFT true pos)).color =
      (_copy_hsv_to_color E (w_target E { st with changing_color := true } pos)).color ∧
    (_w_input E st (InputEvent.mouse_button MouseButton.LEFT true pos)).emitted =
      st.emitted ++ (if st.deferred_mode_enabled then []
        else [Signal.color_changed
          (_w_input E st (InputEvent.mouse_button MouseButton.LEFT true pos)).color]) := by
  rw [w_press_eq]
  simp [apply_hsv_edit_fields]

/-- The release of the left button over the S/V area keeps the colour and
notifies exactly when deferred mode is on. -/
theorem uv_release_step (E : Engine) (s : PickerState) (q : Vector2) (c : Control) :
    (_uv_input E s (InputEvent.mouse_button MouseButton.LEFT false q) c).color = s.color ∧
    (_uv_input E s (InputEvent.mouse_button MouseButton.LEFT false q) c).emitted =
      s.emitted ++ (if s.deferred_mode_enabled then [Signal.color_changed s.color] else []) := by
  simp only [_uv_input]
  by_cases hd : s.deferred_mode_enabled = true <;> simp [hd, emit_color_changed]

/-- The release of the left button over the strip notifies once, with the
colour it leaves. -/
theorem w_release_step (E : Engine) (s : PickerState) (q : Vector2) :
    (_w_input E s (InputEvent.mouse_button MouseButton.LEFT false q)).emitted =
      s.emitted ++
        [Signal.color_changed (_w_input E s (InputEvent.mouse_button MouseButton.LEFT false q)).color] := by
  simp [_w_input, emit_color_changed, set_pick_color, set_pick_color_fields]

/-- Motion samples over the S/V area during a gesture: nothing is notified
while deferred, one notification per sample otherwise. -/
theorem uv_motion_fold (E : Engine) (c : Control) (ps : List Vector2) :
    ∀ s : PickerState, s.changing_color = true →
      (ps.foldl (fun s p => _uv_input E s (InputEvent.mouse_motion p) c) s).changing_color =
        true ∧
      (ps.foldl (fun s p => _uv_input E s (InputEvent.mouse_motion p) c) s).deferred_mode_enabled =
        s.deferred_mode_enabled ∧
      (s.deferred_mode_enabled = true →
        (ps.foldl (fun s p => _uv_input E s (InputEvent.mouse_motion p) c) s).emitted =
          s.emitted) := by
  induction ps with
  | nil => intro s hs; exact ⟨hs, rfl, fun _ => rfl⟩
  | cons p ps ih =>
    intro s hs
    obtain ⟨a1, a2, _, a4⟩ := uv_motion_step E s p c hs
    obtain ⟨b1, b2, b3⟩ := ih _ a1
    rw [List.foldl_cons]
    refine ⟨b1, b2.trans a2, fun hd => ?_⟩
    rw [b3 (a2.trans hd), a4, hd]
    simp

/-- Motion samples over the strip during a gesture: nothing is notified while
deferred. -/
theorem w_motion_fold (E : Engine) (ps : List Vector2) :
    ∀ s : PickerState, s.changing_color = true →
      (ps.foldl (fun s p => _w_input E s (InputEvent.mouse_motion p)) s).changing_color = true ∧
      (ps.foldl (fun s p => _w_input E s (InputEvent.mouse_motion p)) s).deferred_mode_enabled =
        s.deferred_mode_enabled ∧
      (s.deferred_mode_enabled = true →
        (ps.foldl (fun s p => _w_input E s (InputEvent.mouse_motion p)) s).emitted =
          s.emitted) := by
  induction ps with
  | nil => intro s hs; exact ⟨hs, rfl, fun _ => rfl⟩
  | cons p ps ih =>
    intro s hs
    obtain ⟨a1, a2, _, a4⟩ := w_motion_step E s p hs
    obtain ⟨b1, b2, b3⟩ := ih _ a1
    rw [List.foldl_cons]
    refine ⟨b1, b2.trans a2, fun hd => ?_⟩
    rw [b3 (a2.trans hd), a4, hd]
    simp

/-- The saved list after `add_preset`: the colour is taken out, if it was in,
and put at the end. -/
theorem add_preset_presets (st : PickerState) (c : Color) :
    get_presets (add_preset st c) = st.presets.erase c ++ [c] := by
  unfold get_presets add_preset _add_preset_button list_move_to_back
  dsimp only
  by_cases hc : c ∈ st.presets
  · simp only [if_pos hc]
    split_ifs <;> rfl
  · simp only [if_neg hc, List.erase_of_not_mem hc]
    split_ifs <;> rfl

/-- C11: for a duplicate-free saved list and any colour c, after
`add_preset(c)` the list `get_presets()` returns is duplicate-free, contains c
exactly once, as its last element, and holds before it the other colours in
their previous order (the old list without c); its length is one more when c
was absent and unchanged when c was present. -/
theorem C11_add_preset (st : PickerState) (c : Color) (hnd : (get_presets st).Nodup) :
    (get_presets (add_preset st c)).Nodup ∧
    (get_presets (add_preset st c)).count c = 1 ∧
    (get_presets (add_preset st c)).getLast? = some c ∧
    (get_presets (add_preset st c)).dropLast = (get_presets st).filter (fun x => x ≠ c) ∧
    (get_presets (add_preset st c)).filter (fun x => x ≠ c) =
      (get_presets st).filter (fun x => x ≠ c) ∧
    (c ∉ get_presets st →
      (get_presets (add_preset st c)).length = (get_presets st).length + 1) ∧
    (c ∈ get_presets st →
      (get_presets (add_preset st c)).length = (get_presets st).length) := by
  rw [add_preset_presets]
  have hnd0 : st.presets.Nodup := hnd
  have he : st.presets.erase c = st.presets.filter (fun x => x ≠ c) := by
    rw [List.Nodup.erase_eq_filter hnd0]
    apply List.filter_congr
    intro x _
    by_cases hx : x = c <;> simp [hx]
  have hnot : c ∉ st.presets.erase c := fun h => ((List.Nodup.mem_erase_iff hnd0).1 h).1 rfl
  simp only [get_presets]
  refine ⟨?_, ?_, ?_, ?_, ?_, ?_, ?_⟩
  · rw [List.nodup_append]
    refine ⟨hnd0.erase c, List.nodup_singleton c, ?_⟩
    intro x hx hx2
    rw [List.mem_singleton] at hx2
    exact hnot (hx2 ▸ hx)
  · rw [List.count_append, List.count_eq_zero_of_not_mem hnot]
    simp
  · simp
  · rw [List.dropLast_concat, he]
  · rw [List.filter_append, he, List.filter_filter]
    simp
  · intro hc
    rw [List.erase_of_not_mem hc]
    simp
  · intro hc
    rw [List.length_append, List.length_erase_of_mem hc]
    have : 0 < st.presets.length := List.length_pos_of_mem hc
    simp only [List.length_singleton]
    omega

/-- C11, evaluated: re-adding the first of three saved colours. -/
theorem C11_add_preset_witness :
    (get_presets { initialState with presets := sampleColors.take 3 }).Nodup ∧
    get_presets (add_preset { initialState with presets := sampleColors.take 3 }
      ⟨0, 0, 0, 1⟩) = [⟨1 / 8, 0, 0, 1⟩, ⟨2 / 8, 0, 0, 1⟩, ⟨0, 0, 0, 1⟩] ∧
    (get_presets (add_preset { initialState with presets := sampleColors.take 3 }
      ⟨0, 0, 0, 1⟩)).getLast? = some ⟨0, 0, 0, 1⟩ :=
  ⟨by decide!, by decide!,
    (C11_add_preset { initialState with presets := sampleColors.take 3 } ⟨0, 0, 0, 1⟩
      (by decide!)).2.2.1⟩

/-- Pressing child `i` leaves its colour: the child at `i` is the old one,
pressed. -/
theorem set_pressed_at_get (i : Nat) (l : List ColorPresetButton) (h : i < l.length) :
    (set_pressed_at i l).get? i = some { l[i] with pressed := true } := by
  unfold set_pressed_at
  rw [List.get?_eq_getElem?, List.getElem?_eq_getElem (by simp [h])]
  simp

/-- Without a pending text edit `_set_pick_color` leaves the recent list, its
cache and the recent swatches alone. -/
theorem set_pick_color_recent (E : Engine) (st : PickerState) (p : Color) (b : Bool)
    (ht : st.text_changed = false) :
    (_set_pick_color E st p b).recent_presets = st.recent_presets ∧
    (_set_pick_color E st p b).recent_preset_cache = st.recent_preset_cache ∧
    (_set_pick_color E st p b).recent_preset_hbc = st.recent_preset_hbc := by
  unfold _set_pick_color _copy_color_to_hsv
  dsimp only
  split_ifs <;> simp_all

/-- C21: `_get_actual_shape` returns the shape override of the current mode
whenever that override differs from SHAPE_MAX, whatever shape the user
selected, and the selected `current_shape` when the override is SHAPE_MAX;
it follows the selected shape, for every selection, exactly when the mode has
no override. -/
theorem C21_actual_shape (E : Engine) (st : PickerState) :
    _get_actual_shape E st =
      (if E.mode_get_shape_override st.current_mode = SHAPE_MAX then st.current_shape
        else E.mode_get_shape_override st.current_mode) ∧
    (∀ sh : PickerShapeType, _get_actual_shape E { st with current_shape := sh } =
      (if E.mode_get_shape_override st.current_mode = SHAPE_MAX then sh
        else E.mode_get_shape_override st.current_mode)) ∧
    ((∀ sh : PickerShapeType, _get_actual_shape E { st with current_shape := sh } = sh) ↔
      E.mode_get_shape_override st.current_mode = SHAPE_MAX) := by
  have key : ∀ sh : PickerShapeType, _get_actual_shape E { st with current_shape := sh } =
      (if E.mode_get_shape_override st.current_mode = SHAPE_MAX then sh
        else E.mode_get_shape_override st.current_mode) := by
    intro sh
    unfold _get_actual_shape
    by_cases h : E.mode_get_shape_override st.current_mode = SHAPE_MAX <;> simp [h]
  refine ⟨?_, key, ?_⟩
  · unfold _get_actual_shape
    by_cases h : E.mode_get_shape_override st.current_mode = SHAPE_MAX <;> simp [h]
  · constructor
    · intro hall
      by_contra hne
      have h1 := hall SHAPE_MAX
      rw [key, if_neg hne] at h1
      exact hne h1
    · intro h sh
      rw [key, if_pos h]

/-- C25: with SHAPE_MAX = 5 and MODE_MAX = 4, the values of the header
enumerations, `set_picker_shape(p)` with p outside [0, SHAPE_MAX) and
`set_color_mode(m)` with m outside [0, MODE_MAX) return with the whole state
unchanged: `current_shape`, `current_mode`, the colour, both cached triples
and `last_color` included. -/
theorem C25_out_of_range_enum (E : Engine) (st : PickerState) (p m : Int)
    (hp : p < 0 ∨ 5 ≤ p) (hm : m < 0 ∨ 4 ≤ m) :
    set_picker_shape E st p = st ∧ set_color_mode E st m = st := by
  constructor
  · have h : PickerShapeType.ofIndex p = none := by
      unfold PickerShapeType.ofIndex
      have h0 : p ≠ 0 := by omega
      have h1 : p ≠ 1 := by omega
      have h2 : p ≠ 2 := by omega
      have h3 : p ≠ 3 := by omega
      have h4 : p ≠ 4 := by omega
      simp [h0, h1, h2, h3, h4]
    unfold set_picker_shape
    rw [h]
  · have h : ColorModeType.ofIndex m = none := by
      unfold ColorModeType.ofIndex
      have h0 : m ≠ 0 := by omega
      have h1 : m ≠ 1 := by omega
      have h2 : m ≠ 2 := by omega
      have h3 : m ≠ 3 := by omega
      simp [h0, h1, h2, h3]
    unfold set_color_mode
    rw [h]

/-- C25, evaluated: shape 7 and mode -1 on the fresh picker. -/
theorem C25_out_of_range_enum_witness :
    set_picker_shape sampleEngine initialState 7 = initialState ∧
    set_color_mode sampleEngine initialState (-1) = initialState :=
  C25_out_of_range_enum sampleEngine initialState 7 (-1) (by decide) (by decide)

/-- C30: with alpha editing disabled, the alpha of the canonical colour after
`_html_submitted` is its alpha before, for every submitted text. -/
theorem C30_html_keeps_alpha (E : Engine) (st : PickerState) (p_html : String)
    (halpha : st.edit_alpha = false) :
    (_html_submitted E st p_html).color.a = st.color.a := by
  have hnew : (_html_new_color E st p_html).a = st.color.a := by
    unfold _html_new_color
    simp [halpha]
  unfold _html_submitted
  dsimp only
  split_ifs
  all_goals first
    | rfl
    | exact hnew
    | simp [emit_color_changed, set_pick_color, hnew]

/-- C30, evaluated: the eight-digit text "#ff000080" on the fresh picker
with alpha editing disabled gives red with the old alpha 1. -/
theorem C30_html_keeps_alpha_witness :
    ({ initialState with edit_alpha := false } : PickerState).edit_alpha = false ∧
    sampleEngine.from_string "ff000080" ⟨0, 0, 0, 1⟩ = ⟨1, 0, 0, 128 / 255⟩ ∧
    (_html_submitted sampleEngine { initialState with edit_alpha := false } "#ff000080").color =
      ⟨1, 0, 0, 1⟩ ∧
    (_html_submitted sampleEngine { initialState with edit_alpha := false }
      "#ff000080").color.a =
      ({ initialState with edit_alpha := false } : PickerState).color.a :=
  ⟨rfl, by decide!, by decide!,
    C30_html_keeps_alpha sampleEngine { initialState with edit_alpha := false } "#ff000080" rfl⟩

/-- C26: in the constructor form `_update_text_value` writes
"Color(r, g, b, a)" when alpha editing is enabled and the alpha is below 1
and "Color(r, g, b)" otherwise; in the hex form, for r, g and b in [0, 1], it
writes `to_html` called with that same condition as its alpha flag; the text
field (and its type button) is visible afterwards if and only if r, g and b
all lie in [0, 1]. -/
theorem C26_text_value (E : Engine) (st : PickerState) :
    (st.text_is_constructor = true →
      (_update_text_value E st).c_text =
        (if st.edit_alpha = true ∧ st.color.a < 1 then
          "Color(" ++ E.num st.color.r 3 ++ ", " ++ E.num st.color.g 3 ++ ", " ++
            E.num st.color.b 3 ++ ", " ++ E.num st.color.a 3 ++ ")"
        else
          "Color(" ++ E.num st.color.r 3 ++ ", " ++ E.num st.color.g 3 ++ ", " ++
            E.num st.color.b 3 ++ ")")) ∧
    (st.text_is_constructor = false →
      (0 ≤ st.color.r ∧ st.color.r ≤ 1) ∧ (0 ≤ st.color.g ∧ st.color.g ≤ 1) ∧
        (0 ≤ st.color.b ∧ st.color.b ≤ 1) →
      (_update_text_value E st).c_text =
        E.to_html st.color (decide (st.edit_alpha = true ∧ st.color.a < 1))) ∧
    ((_update_text_value E st).c_text_visible = true ↔
      (0 ≤ st.color.r ∧ st.color.r ≤ 1) ∧ (0 ≤ st.color.g ∧ st.color.g ≤ 1) ∧
        (0 ≤ st.color.b ∧ st.color.b ≤ 1)) ∧
    (_update_text_value E st).text_type_visible = (_update_text_value E st).c_text_visible := by
  refine ⟨?_, ?_, ?_, ?_⟩
  · intro hc
    unfold _update_text_value
    simp only [hc, if_true]
    by_cases ha : st.edit_alpha = true ∧ st.color.a < 1
    · simp only [if_pos ha]
      split_ifs <;> simp_all [String.append_assoc]
    · simp only [if_neg ha]
      split_ifs <;> simp_all [String.append_assoc]
  · intro hc hr
    obtain ⟨⟨r0, r1⟩, ⟨g0, g1⟩, ⟨b0, b1⟩⟩ := hr
    have hr : ¬ (st.color.r > 1 ∨ st.color.g > 1 ∨ st.color.b > 1 ∨
        st.color.r < 0 ∨ st.color.g < 0 ∨ st.color.b < 0) := by
      simp only [not_or, not_lt, gt_iff_lt]
      exact ⟨r1, g1, b1, r0, g0, b0⟩
    unfold _update_text_value
    simp [hc, hr]
  · unfold _update_text_value
    dsimp only
    by_cases hr : (st.color.r > 1 ∨ st.color.g > 1 ∨ st.color.b > 1 ∨
        st.color.r < 0 ∨ st.color.g < 0 ∨ st.color.b < 0)
    · have hn : ¬ ((0 ≤ st.color.r ∧ st.color.r ≤ 1) ∧ (0 ≤ st.color.g ∧ st.color.g ≤ 1) ∧
          (0 ≤ st.color.b ∧ st.color.b ≤ 1)) := by
        rintro ⟨⟨r0, r1⟩, ⟨g0, g1⟩, ⟨b0, b1⟩⟩
        rcases hr with h | h | h | h | h | h <;> linarith
      split_ifs <;> simp_all
    · have hy : (0 ≤ st.color.r ∧ st.color.r ≤ 1) ∧ (0 ≤ st.color.g ∧ st.color.g ≤ 1) ∧
          (0 ≤ st.color.b ∧ st.color.b ≤ 1) := by
        simp only [not_or, not_lt, gt_iff_lt] at hr
        exact ⟨⟨hr.2.2.2.1, hr.1⟩, ⟨hr.2.2.2.2.1, hr.2.1⟩, ⟨hr.2.2.2.2.2, hr.2.2.1⟩⟩
      split_ifs <;> simp_all
  · unfold _update_text_value
    dsimp only
    split_ifs <;> rfl

/-- C26, evaluated on the sample engine: half transparent red gives
"ff000080" with alpha editing and "ff0000" without it, and
"Color(1, 0, 0, 0.502)" in the constructor form. -/
theorem C26_text_value_witness :
    (_update_text_value sampleEngine
      { initialState with color := ⟨1, 0, 0, 128 / 255⟩ }).c_text = "ff000080" ∧
    (_update_text_value sampleEngine
      { initialState with color := ⟨1, 0, 0, 128 / 255⟩, edit_alpha := false }).c_text =
      "ff0000" ∧
    (_update_text_value sampleEngine
      { initialState with color := ⟨1, 0, 0, 128 / 255⟩, text_is_constructor := true }).c_text =
      (if ({ initialState with color := ⟨1, 0, 0, 128 / 255⟩, text_is_constructor := true } :
            PickerState).edit_alpha = true ∧
          ({ initialState with color := ⟨1, 0, 0, 128 / 255⟩, text_is_constructor := true } :
            PickerState).color.a < 1 then
        "Color(" ++ sampleEngine.num 1 3 ++ ", " ++ sampleEngine.num 0 3 ++ ", " ++
          sampleEngine.num 0 3 ++ ", " ++ sampleEngine.num (128 / 255) 3 ++ ")"
      else
        "Color(" ++ sampleEngine.num 1 3 ++ ", " ++ sampleEngine.num 0 3 ++ ", " ++
          sampleEngine.num 0 3 ++ ")") :=
  ⟨by decide!, by decide!,
    (C26_text_value sampleEngine
      { initialState with color := ⟨1, 0, 0, 128 / 255⟩, text_is_constructor := true }).1 rfl⟩

/-- Setting the colour that `last_color` already holds keeps the cached
triples. -/
theorem set_pick_color_keeps_triples (E : Engine) (s : PickerState) (p : Color) (b : Bool)
    (h : p = s.last_color) :
    (_set_pick_color E s p b).h = s.h ∧ (_set_pick_color E s p b).s = s.s ∧
    (_set_pick_color E s p b).v = s.v ∧ (_set_pick_color E s p b).ok_hsl_h = s.ok_hsl_h ∧
    (_set_pick_color E s p b).ok_hsl_s = s.ok_hsl_s ∧
    (_set_pick_color E s p b).ok_hsl_l = s.ok_hsl_l := by
  have htri := set_pick_color_triples E s p b
  simp only [if_pos h, hsv_triple, ok_hsl_triple, Prod.mk.injEq] at htri
  tauto

/-- C27: with `updating` false, in HSV mode `_slider_value_changed` leaves the
cached h, s, v at slider0 / 360, slider1 / 100, slider2 / 100 (they are not
derived from the new colour) and the cached OK-HSL triple at the values derived
from the new colour; in OKHSL mode the roles are swapped; in both modes the new
colour is the one the mode reads from the sliders and `last_color` equals it. -/
theorem C27_slider_change_triples (E : Engine) (st : PickerState)
    (hupd : st.updating = false) :
    (st.current_mode = MODE_HSV →
      (_slider_value_changed E st).color = E.mode_get_color MODE_HSV st ∧
      hsv_triple (_slider_value_changed E st) =
        (st.sliders.getD 0 0 / 360, st.sliders.getD 1 0 / 100, st.sliders.getD 2 0 / 100) ∧
      ok_hsl_triple (_slider_value_changed E st) =
        derived_ok_hsl E (_slider_value_changed E st).color ∧
      (_slider_value_changed E st).last_color = (_slider_value_changed E st).color) ∧
    (st.current_mode = MODE_OKHSL →
      (_slider_value_changed E st).color = E.mode_get_color MODE_OKHSL st ∧
      ok_hsl_triple (_slider_value_changed E st) =
        (st.sliders.getD 0 0 / 360, st.sliders.getD 1 0 / 100, st.sliders.getD 2 0 / 100) ∧
      hsv_triple (_slider_value_changed E st) =
        derived_hsv (_slider_value_changed E st).color ∧
      (_slider_value_changed E st).last_color = (_slider_value_changed E st).color) := by
  constructor
  · intro hm
    unfold _slider_value_changed hsv_triple ok_hsl_triple derived_ok_hsl
    simp only [hupd, hm, if_true, Bool.false_eq_true, if_false]
    split_ifs <;>
      simp [emit_color_changed, set_pick_color_keeps_triples, set_pick_color_fields]
  · intro hm
    have hne : MODE_OKHSL ≠ MODE_HSV := by decide
    unfold _slider_value_changed hsv_triple ok_hsl_triple derived_hsv
    simp only [hupd, hm, if_true, Bool.false_eq_true, if_false, hne]
    split_ifs <;>
      simp [emit_color_changed, set_pick_color_keeps_triples, set_pick_color_fields]

/-- C27, evaluated: in HSV mode with the sliders at (180, 0, 100) the new
colour is white and the cached hue stays 1/2, where the hue derived from white
is 0. -/
theorem C27_slider_change_triples_witness :
    ({ initialState with current_mode := MODE_HSV, sliders := [180, 0, 100] } :
      PickerState).updating = false ∧
    (_slider_value_changed sampleEngine
      { initialState with current_mode := MODE_HSV, sliders := [180, 0, 100] }).color =
      ⟨1, 1, 1, 1⟩ ∧
    (⟨1, 1, 1, 1⟩ : Color).get_h = 0 ∧
    hsv_triple (_slider_value_changed sampleEngine
      { initialState with current_mode := MODE_HSV, sliders := [180, 0, 100] }) =
      ((180 : ℚ) / 360, (0 : ℚ) / 100, (100 : ℚ) / 100) :=
  ⟨rfl, by decide!, by decide!,
    ((C27_slider_change_triples sampleEngine
      { initialState with current_mode := MODE_HSV, sliders := [180, 0, 100] } rfl).1 rfl).2.1⟩

/-- C29, at the failing input: on the fresh picker after black and dark red
were added, the swatches mirror the recent list [black, dark red] and the
swatch of dark red, the newest colour, is child 0. `erase_recent_preset(dark
red)` takes dark red out of the list and leaves all swatches as they were,
none queued for deletion; after the delete queue is flushed
`add_recent_preset(dark red)` finds that swatch and does not put dark red back
into the list. For black, whose swatch is child 1, the swatch is queued and
after the flush the colour is added again. -/
theorem C29_erase_recent_first_child :
    recent_buttons_mirror twoRecentState ∧
    get_recent_presets twoRecentState = [⟨0, 0, 0, 1⟩, ⟨1 / 8, 0, 0, 1⟩] ∧
    twoRecentState.recent_preset_hbc.map (fun b => b.preset_color) =
      [⟨1 / 8, 0, 0, 1⟩, ⟨0, 0, 0, 1⟩] ∧
    get_recent_presets (erase_recent_preset twoRecentState ⟨1 / 8, 0, 0, 1⟩) =
      [⟨0, 0, 0, 1⟩] ∧
    (erase_recent_preset twoRecentState ⟨1 / 8, 0, 0, 1⟩).recent_preset_hbc =
      twoRecentState.recent_preset_hbc ∧
    (flush_delete_queue
      (erase_recent_preset twoRecentState ⟨1 / 8, 0, 0, 1⟩)).recent_preset_hbc.map
        (fun b => b.preset_color) = [⟨1 / 8, 0, 0, 1⟩, ⟨0, 0, 0, 1⟩] ∧
    get_recent_presets (add_recent_preset sampleEngine
      (flush_delete_queue (erase_recent_preset twoRecentState ⟨1 / 8, 0, 0, 1⟩))
      ⟨1 / 8, 0, 0, 1⟩) = [⟨0, 0, 0, 1⟩] ∧
    (flush_delete_queue
      (erase_recent_preset twoRecentState ⟨0, 0, 0, 1⟩)).recent_preset_hbc.map
        (fun b => b.preset_color) = [⟨1 / 8, 0, 0, 1⟩] ∧
    get_recent_presets (add_recent_preset sampleEngine
      (flush_delete_queue (erase_recent_preset twoRecentState ⟨0, 0, 0, 1⟩))
      ⟨0, 0, 0, 1⟩) = [⟨1 / 8, 0, 0, 1⟩, ⟨0, 0, 0, 1⟩] := by
  decide!

/-- A duplicate-free list with one colour taken out and put at the end is
duplicate-free. -/
theorem nodup_erase_append (l : List Color) (c : Color) (hnd : l.Nodup) :
    (l.erase c ++ [c]).Nodup := by
  rw [List.nodup_append]
  refine ⟨hnd.erase c, List.nodup_singleton c, ?_⟩
  intro x hx hx2
  rw [List.mem_singleton] at hx2
  exact ((List.Nodup.mem_erase_iff hnd).1 (hx2 ▸ hx)).1 rfl

/-- The cache of the saved list after `add_preset`. -/
theorem add_preset_cache (st : PickerState) (c : Color) :
    (add_preset st c).preset_cache = st.preset_cache.erase c ++ [c] := by
  unfold add_preset _add_preset_button list_move_to_back
  dsimp only
  by_cases hc : c ∈ st.presets
  · simp only [if_pos hc]
    split_ifs with h2
    · rfl
    · simp only [List.erase_of_not_mem h2]
  · simp only [if_neg hc]
    split_ifs with h2
    · rfl
    · simp only [List.erase_of_not_mem h2]

/-- C28: when `presets` and `preset_cache` are the same duplicate-free
sequence, they are the same duplicate-free sequence after `add_preset(c)` and
after `erase_preset(c)`; `erase_preset(c)` removes c from the list when it is
present, keeping the other colours in order, and changes nothing when c is
absent. -/
theorem C28_presets_cache_equal (st : PickerState) (c : Color)
    (heq : st.presets = st.preset_cache) (hnd : st.presets.Nodup) :
    (add_preset st c).presets = (add_preset st c).preset_cache ∧
    (add_preset st c).presets.Nodup ∧
    (erase_preset st c).presets = (erase_preset st c).preset_cache ∧
    (erase_preset st c).presets.Nodup ∧
    (c ∈ st.presets →
      c ∉ get_presets (erase_preset st c) ∧
      get_presets (erase_preset st c) = st.presets.filter (fun x => x ≠ c)) ∧
    (c ∉ st.presets → erase_preset st c = st) := by
  have hp := add_preset_presets st c
  simp only [get_presets] at hp
  have he : st.presets.erase c = st.presets.filter (fun x => x ≠ c) := by
    rw [List.Nodup.erase_eq_filter hnd]
    apply List.filter_congr
    intro x _
    by_cases hx : x = c <;> simp [hx]
  refine ⟨?_, ?_, ?_, ?_, ?_, ?_⟩
  · rw [hp, add_preset_cache, heq]
  · rw [hp]
    exact nodup_erase_append _ _ hnd
  · unfold erase_preset
    split_ifs
    · simp only [heq]
    · exact heq
  · unfold erase_preset
    split_ifs
    · exact hnd.erase c
    · exact hnd
  · intro hc
    have h1 : (erase_preset st c).presets = st.presets.erase c := by
      unfold erase_preset
      simp [hc]
    simp only [get_presets]
    rw [h1]
    exact ⟨fun h => ((List.Nodup.mem_erase_iff hnd).1 h).1 rfl, he⟩
  · intro hc
    unfold erase_preset
    simp [hc]

/-- C28, evaluated: erasing the second of three saved colours. -/
theorem C28_presets_cache_equal_witness :
    ({ initialState with presets := sampleColors.take 3, preset_cache := sampleColors.take 3 } :
      PickerState).presets.Nodup ∧
    get_presets (erase_preset
      { initialState with presets := sampleColors.take 3, preset_cache := sampleColors.take 3 }
      ⟨1 / 8, 0, 0, 1⟩) = [⟨0, 0, 0, 1⟩, ⟨2 / 8, 0, 0, 1⟩] ∧
    (erase_preset
      { initialState with presets := sampleColors.take 3, preset_cache := sampleColors.take 3 }
      ⟨1 / 8, 0, 0, 1⟩).presets =
    (erase_preset
      { initialState with presets := sampleColors.take 3, preset_cache := sampleColors.take 3 }
      ⟨1 / 8, 0, 0, 1⟩).preset_cache :=
  ⟨by decide!, by decide!,
    (C28_presets_cache_equal
      { initialState with presets := sampleColors.take 3, preset_cache := sampleColors.take 3 }
      ⟨1 / 8, 0, 0, 1⟩ rfl (by decide!)).2.2.1⟩

/-- After `add_recent_preset(c)` the colour c is in the recent list, provided
a swatch of colour c only exists when c is in the list. -/
theorem add_recent_preset_mem (E : Engine) (st : PickerState) (c : Color)
    (h : c ∈ st.recent_preset_hbc.map (fun b => b.preset_color) → c ∈ st.recent_presets) :
    c ∈ (add_recent_preset E st c).recent_presets := by
  by_cases hin : c ∈ st.recent_preset_hbc.map (fun b => b.preset_color)
  · rw [((add_recent_preset_recent E st c).1 hin).1]
    exact h hin
  · rw [((add_recent_preset_recent E st c).2 hin).1]
    simp

/-- With mirroring swatches, a swatch of colour c only exists when c is in the
recent list. -/
theorem mirror_mem (st : PickerState) (c : Color) (hmir : recent_buttons_mirror st) :
    c ∈ st.recent_preset_hbc.map (fun b => b.preset_color) → c ∈ st.recent_presets := by
  intro h
  unfold recent_buttons_mirror at hmir
  rw [hmir] at h
  exact List.mem_reverse.1 h

/-- With a pending text edit `_set_pick_color` adds the current colour to the
recent list. -/
theorem set_pick_color_recent_text (E : Engine) (st : PickerState) (p : Color) (b : Bool)
    (ht : st.text_changed = true) :
    (_set_pick_color E st p b).recent_presets =
      (add_recent_preset E st st.color).recent_presets := by
  unfold _set_pick_color _copy_color_to_hsv
  dsimp only
  split_ifs <;> simp_all

/-- The release branch of `_w_input`, written out. -/
theorem w_release_eq (E : Engine) (st : PickerState) (pos : Vector2) :
    _w_input E st (InputEvent.mouse_button MouseButton.LEFT false pos) =
      emit_color_changed (add_recent_preset E
        (set_pick_color E
          { _copy_hsv_to_color E { st with changing_color := false } with
            last_color := (_copy_hsv_to_color E { st with changing_color := false }).color }
          (_copy_hsv_to_color E { st with changing_color := false }).color)
        (set_pick_color E
          { _copy_hsv_to_color E { st with changing_color := false } with
            last_color := (_copy_hsv_to_color E { st with changing_color := false }).color }
          (_copy_hsv_to_color E { st with changing_color := false }).color).color) := by
  rfl

/-- C24: when the recent swatches mirror the recent list, after a left-button
release handled by `_uv_input` or by `_w_input` the canonical colour is an
element of the list that `get_recent_presets()` returns. -/
theorem C24_release_pushes_recent (E : Engine) (st : PickerState) (pos : Vector2) (c : Control)
    (hmir : recent_buttons_mirror st) :
    (_uv_input E st (InputEvent.mouse_button MouseButton.LEFT false pos) c).color ∈
      get_recent_presets (_uv_input E st (InputEvent.mouse_button MouseButton.LEFT false pos) c) ∧
    (_w_input E st (InputEvent.mouse_button MouseButton.LEFT false pos)).color ∈
      get_recent_presets (_w_input E st (InputEvent.mouse_button MouseButton.LEFT false pos)) := by
  constructor
  · have h1 := add_recent_preset_mem E st st.color (mirror_mem st st.color hmir)
    have h2 := add_recent_preset_mem E (emit_color_changed st) st.color
      (mirror_mem (emit_color_changed st) st.color hmir)
    simp only [_uv_input, get_recent_presets]
    by_cases hd : st.deferred_mode_enabled = true
    · simpa [hd, emit_color_changed] using h2
    · simpa [hd] using h1
  · have key : ∀ (S : PickerState) (k : Color), S.color = k → recent_buttons_mirror S →
        (add_recent_preset E (set_pick_color E S k) (set_pick_color E S k).color).color ∈
          (add_recent_preset E (set_pick_color E S k)
            (set_pick_color E S k).color).recent_presets := by
      intro S k hk hS
      subst hk
      have hcol : (set_pick_color E S S.color).color = S.color := by
        simp [set_pick_color, set_pick_color_fields]
      rw [(add_recent_preset_fields E _ _).1]
      apply add_recent_preset_mem
      rw [hcol]
      by_cases ht : S.text_changed = true
      · intro _
        unfold set_pick_color
        rw [set_pick_color_recent_text E S S.color true ht]
        exact add_recent_preset_mem E S S.color (mirror_mem S S.color hS)
      · have ht2 : S.text_changed = false := by simpa using ht
        obtain ⟨r1, _, r3⟩ := set_pick_color_recent E S S.color true ht2
        unfold set_pick_color
        rw [r1, r3]
        exact mirror_mem S S.color hS
    have hmirC : recent_buttons_mirror (_copy_hsv_to_color E { st with changing_color := false }) := by
      unfold recent_buttons_mirror at *
      simpa using hmir
    rw [w_release_eq]
    generalize _copy_hsv_to_color E { st with changing_color := false } = C at hmirC ⊢
    have hk := key { C with last_color := C.color } C.color rfl hmirC
    generalize add_recent_preset E (set_pick_color E { C with last_color := C.color } C.color)
      (set_pick_color E { C with last_color := C.color } C.color).color = X at hk ⊢
    exact hk

/-- C24, evaluated: a release over the strip of the fresh picker puts its
colour, white, into the recent list. -/
theorem C24_release_pushes_recent_witness :
    recent_buttons_mirror initialState ∧
    get_recent_presets (_w_input sampleEngine initialState
      (InputEvent.mouse_button MouseButton.LEFT false ⟨10, 0⟩)) = [⟨1, 1, 1, 1⟩] ∧
    (_w_input sampleEngine initialState
      (InputEvent.mouse_button MouseButton.LEFT false ⟨10, 0⟩)).color ∈
      get_recent_presets (_w_input sampleEngine initialState
        (InputEvent.mouse_button MouseButton.LEFT false ⟨10, 0⟩)) :=
  ⟨by decide!, by decide!,
    (C24_release_pushes_recent sampleEngine initialState ⟨10, 0⟩ ⟨⟨200, 200⟩, false⟩
      (by decide!)).2⟩

/-- A frame tick of the eyedropper keeps the colour saved at its start and
the picking flag. -/
theorem internal_process_fields (E : Engine) (s : PickerState) (c : Color) :
    (notification_internal_process E s c).pre_picking_color = s.pre_picking_color ∧
    (notification_internal_process E s c).is_picking_color = s.is_picking_color := by
  unfold notification_internal_process set_pick_color
  split_ifs <;> simp [set_pick_color_fields]

/-- Frame ticks of the eyedropper keep the colour saved at its start and the
picking flag. -/
theorem internal_process_fold (E : Engine) (samples : List Color) :
    ∀ s : PickerState,
      (samples.foldl (notification_internal_process E) s).pre_picking_color =
        s.pre_picking_color ∧
      (samples.foldl (notification_internal_process E) s).is_picking_color =
        s.is_picking_color := by
  induction samples with
  | nil => intro s; exact ⟨rfl, rfl⟩
  | cons c cs ih =>
    intro s
    obtain ⟨a1, a2⟩ := internal_process_fields E s c
    obtain ⟨b1, b2⟩ := ih (notification_internal_process E s c)
    rw [List.foldl_cons]
    exact ⟨b1.trans a1, b2.trans a2⟩

/-- Once the picking flag is cleared the frame ticks change nothing. -/
theorem internal_process_idle (E : Engine) (later : List Color) :
    ∀ s : PickerState, s.is_picking_color = false →
      later.foldl (notification_internal_process E) s = s := by
  induction later with
  | nil => intro s _; rfl
  | cons c cs ih =>
    intro s hs
    have h1 : notification_internal_process E s c = s := by
      unfold notification_internal_process
      simp [hs]
    rw [List.foldl_cons, h1]
    exact ih s hs

/-- C23: let c0 be the canonical colour when `_pick_button_pressed` starts the
eyedropper. During the gesture every frame tick sets the canonical colour to
the sampled pixel. After any number of ticks, an event of the right button in
`_target_gui_input` leaves the canonical colour equal to c0 and
`is_picking_color` false; later frame ticks then leave the state as it is;
and `_pick_finished`, run for the window that was hidden, keeps the colour c0
and the flag false whether or not the cancel action was pressed. -/
theorem C23_eyedropper_cancel (E : Engine) (st : PickerState) (samples later : List Color)
    (px : Color) (pressed ui_cancel : Bool) (pos : Vector2) :
    (eyedropper_sampling E st (samples ++ [px])).color = px ∧
    (eyedropper_sampling E st samples).is_picking_color = true ∧
    (_target_gui_input E (eyedropper_sampling E st samples)
      (InputEvent.mouse_button MouseButton.RIGHT pressed pos) ui_cancel).color = st.color ∧
    (_target_gui_input E (eyedropper_sampling E st samples)
      (InputEvent.mouse_button MouseButton.RIGHT pressed pos) ui_cancel).is_picking_color =
      false ∧
    later.foldl (notification_internal_process E)
      (_target_gui_input E (eyedropper_sampling E st samples)
        (InputEvent.mouse_button MouseButton.RIGHT pressed pos) ui_cancel) =
      _target_gui_input E (eyedropper_sampling E st samples)
        (InputEvent.mouse_button MouseButton.RIGHT pressed pos) ui_cancel ∧
    (∀ uc : Bool,
      (_pick_finished E (_target_gui_input E (eyedropper_sampling E st samples)
        (InputEvent.mouse_button MouseButton.RIGHT pressed pos) ui_cancel) false uc).color =
        st.color ∧
      (_pick_finished E (_target_gui_input E (eyedropper_sampling E st samples)
        (InputEvent.mouse_button MouseButton.RIGHT pressed pos) ui_cancel)
        false uc).is_picking_color = false) := by
  obtain ⟨f1, f2⟩ := internal_process_fold E samples (_pick_button_pressed st)
  have hpre : (eyedropper_sampling E st samples).pre_picking_color = st.color := f1
  have hpick : (eyedropper_sampling E st samples).is_picking_color = true := f2
  have hright : ∀ s : PickerState,
      _target_gui_input E s (InputEvent.mouse_button MouseButton.RIGHT pressed pos) ui_cancel =
        { set_pick_color E s s.pre_picking_color with is_picking_color := false } := by
    intro s
    simp [_target_gui_input]
  generalize eyedropper_sampling E st samples = sN at hpre hpick ⊢
  have hstep : eyedropper_sampling E st (samples ++ [px]) =
      notification_internal_process E (eyedropper_sampling E st samples) px := by
    simp [eyedropper_sampling, List.foldl_append]
  have hc : (_target_gui_input E sN (InputEvent.mouse_button MouseButton.RIGHT pressed pos)
      ui_cancel).color = st.color := by
    rw [hright]
    simp [set_pick_color, set_pick_color_fields, hpre]
  have hp : (_target_gui_input E sN (InputEvent.mouse_button MouseButton.RIGHT pressed pos)
      ui_cancel).is_picking_color = false := by
    rw [hright]
  have hpp : (_target_gui_input E sN (InputEvent.mouse_button MouseButton.RIGHT pressed pos)
      ui_cancel).pre_picking_color = st.color := by
    rw [hright]
    simp [set_pick_color, set_pick_color_fields, hpre]
  refine ⟨?_, hpick, hc, hp, internal_process_idle E later _ hp, ?_⟩
  · rw [hstep]
    obtain ⟨g1, g2⟩ := internal_process_fold E samples (_pick_button_pressed st)
    have g3 : (eyedropper_sampling E st samples).is_picking_color = true := g2
    unfold notification_internal_process
    simp [g3, set_pick_color, set_pick_color_fields]
  · intro uc
    generalize _target_gui_input E sN (InputEvent.mouse_button MouseButton.RIGHT pressed pos)
      ui_cancel = sC at hc hp hpp ⊢
    unfold _pick_finished
    cases uc <;> simp [emit_color_changed, set_pick_color, set_pick_color_fields, hc, hpp]

/-- A position whose `distance_to` the centre is at least 0.84 of the radius
lies outside the inscribed S/V rectangle when the half diagonal of that
rectangle is shorter than 0.84 of the radius and `distance_to` does not
exceed the Euclidean distance. -/
theorem ring_press_outside_rectangle (E : Engine) (pos : Vector2) (c : Control)
    (hW : 0 < c.size.x)
    (hring : c.size.x / 2 * (84 / 100) ≤ E.distance_to ⟨c.size.x / 2, c.size.y / 2⟩ pos)
    (hdist : (E.distance_to ⟨c.size.x / 2, c.size.y / 2⟩ pos) ^ 2 ≤
      (pos.x - c.size.x / 2) ^ 2 + (pos.y - c.size.y / 2) ^ 2)
    (hrect : (c.size.x / 2 - uv_corner_x E c) ^ 2 + (c.size.y / 2 - uv_corner_y E c) ^ 2 <
      (c.size.x / 2 * (84 / 100)) ^ 2) :
    pos.x < uv_corner_x E c ∨ pos.x > c.size.x - uv_corner_x E c ∨
      pos.y < uv_corner_y E c ∨ pos.y > c.size.y - uv_corner_y E c := by
  by_contra hin
  simp only [not_or, not_lt, gt_iff_lt] at hin
  obtain ⟨x0, x1, y0, y1⟩ := hin
  have hx : (pos.x - c.size.x / 2) ^ 2 ≤ (c.size.x / 2 - uv_corner_x E c) ^ 2 := by
    apply sq_le_sq'
    · linarith
    · linarith
  have hy : (pos.y - c.size.y / 2) ^ 2 ≤ (c.size.y / 2 - uv_corner_y E c) ^ 2 := by
    apply sq_le_sq'
    · linarith
    · linarith
  have hr0 : 0 ≤ c.size.x / 2 * (84 / 100) := by positivity
  have hsq : (c.size.x / 2 * (84 / 100)) ^ 2 ≤
      (E.distance_to ⟨c.size.x / 2, c.size.y / 2⟩ pos) ^ 2 :=
    pow_le_pow_left₀ hr0 hring 2
  linarith

/-- `_set_pick_color` with the handler run in place: after the nested
`add_recent_preset`, if any, the rest is the method without a pending text
edit. -/
theorem toggled_set_pick_color_eq (H : PickerState → Color → Option PickerState) (E : Engine)
    (st : PickerState) (p : Color) (b : Bool) :
    Toggled._set_pick_color H E st p b =
      if st.text_changed = true then
        (Toggled.add_recent_preset H E st st.color).map
          (fun s => _set_pick_color E { s with text_changed := false } p b)
      else some (_set_pick_color E st p b) := by
  unfold Toggled._set_pick_color _set_pick_color
  by_cases ht : st.text_changed = true
  · simp only [ht, if_true]
    cases Toggled.add_recent_preset H E st st.color with
    | none => rfl
    | some s => simp
  · have ht2 : st.text_changed = false := by simpa using ht
    simp [ht2]

/-- Without a pending text edit no handler runs inside `_set_pick_color`. -/
theorem toggled_set_pick_color_no_text (H : PickerState → Color → Option PickerState)
    (E : Engine) (st : PickerState) (p : Color) (b : Bool) (ht : st.text_changed = false) :
    Toggled._set_pick_color H E st p b = some (_set_pick_color E st p b) := by
  rw [toggled_set_pick_color_eq]
  simp [ht]

/-- `add_recent_preset` for a colour without a swatch: no handler runs. -/
theorem toggled_add_absent (H : PickerState → Color → Option PickerState) (E : Engine)
    (st : PickerState) (c : Color)
    (hf : st.recent_preset_hbc.findIdx? (fun b => decide (c = b.preset_color)) = none) :
    Toggled.add_recent_preset H E st c = some (add_recent_preset E st c) := by
  unfold Toggled.add_recent_preset Toggled._select_from_recent_preset_hbc add_recent_preset
    _select_from_recent_preset_hbc
  simp [hf]

/-- `add_recent_preset` for a colour whose swatch is pressed: no handler runs
and only the saved swatches are touched. -/
theorem toggled_add_pressed (H : PickerState → Color → Option PickerState) (E : Engine)
    (st : PickerState) (c : Color) (i : Nat)
    (hf : st.recent_preset_hbc.findIdx? (fun b => decide (c = b.preset_color)) = some i)
    (hp : (st.recent_preset_hbc.get? i).map (fun (b : ColorPresetButton) => b.pressed) =
      some true) :
    Toggled.add_recent_preset H E st c = some (_select_from_preset_container st c) := by
  unfold Toggled.add_recent_preset Toggled._select_from_recent_preset_hbc
  simp only [hf, if_pos hp]
  simp

/-- `add_recent_preset` for a colour whose swatch is not pressed: the swatch
is pressed and the handler runs. -/
theorem toggled_add_unpressed (H : PickerState → Color → Option PickerState) (E : Engine)
    (st : PickerState) (c : Color) (i : Nat)
    (hf : st.recent_preset_hbc.findIdx? (fun b => decide (c = b.preset_color)) = some i)
    (hp : ¬ (st.recent_preset_hbc.get? i).map (fun (b : ColorPresetButton) => b.pressed) =
      some true) :
    Toggled.add_recent_preset H E st c =
      (H { st with recent_preset_hbc := set_pressed_at i st.recent_preset_hbc } c).map
        (fun s => _select_from_preset_container s c) := by
  unfold Toggled.add_recent_preset Toggled._select_from_recent_preset_hbc
  simp only [hf, if_neg hp]
  cases H { st with recent_preset_hbc := set_pressed_at i st.recent_preset_hbc } c with
  | none => rfl
  | some s => simp

/-- The handler without a pending text edit: the colour is set, moved to the
back of the recent list and notified; it does not return when the colour is
not in the list. -/
theorem toggled_pressed_no_text (H : PickerState → Color → Option PickerState) (E : Engine)
    (st : PickerState) (c : Color) (ht : st.text_changed = false) :
    Toggled._recent_preset_pressed H E st true c =
      if c ∈ st.recent_presets then
        some
          { (if c ∈ st.recent_preset_cache then
              { set_pick_color E st c with
                recent_presets := list_move_to_back st.recent_presets c
                recent_preset_cache := list_move_to_back st.recent_preset_cache c }
            else
              { set_pick_color E st c with
                recent_presets := list_move_to_back st.recent_presets c }) with
            recent_preset_hbc :=
              (match st.recent_preset_hbc.findIdx?
                  (fun (b : ColorPresetButton) => decide (c = b.preset_color)) with
              | some i => move_child_to_front i st.recent_preset_hbc
              | none => st.recent_preset_hbc)
            emitted := st.emitted ++ [Signal.color_changed c] }
      else none := by
  obtain ⟨r1, r2, r3⟩ := set_pick_color_recent E st c true ht
  have he : (_set_pick_color E st c true).emitted = st.emitted := by
    simp [set_pick_color_fields]
  unfold Toggled._recent_preset_pressed Toggled.set_pick_color
  rw [toggled_set_pick_color_no_text H E st c true ht]
  simp only [Bool.not_eq_true, Bool.true_eq_false, if_false, Option.some_bind, r1, r2, r3,
    set_pick_color]
  by_cases hin : c ∈ st.recent_presets
  · simp only [if_pos hin]
    by_cases hc : c ∈ st.recent_preset_cache
    · simp [hc, r1, r2, r3, he]
    · simp [hc, r1, r2, r3, he]
  · simp [hin]

/-- Pressing child `i` leaves the colours, so the first swatch of a colour
stays where it is. -/
theorem findIdx_set_pressed_at (i : Nat) (l : List ColorPresetButton) (c : Color) :
    (set_pressed_at i l).findIdx? (fun b => decide (c = b.preset_color)) =
      l.findIdx? (fun b => decide (c = b.preset_color)) := by
  have hmap := set_pressed_at_map i l
  have key : ∀ (l1 l2 : List ColorPresetButton),
      l1.map (fun b => b.preset_color) = l2.map (fun b => b.preset_color) →
      ∀ k : Nat, List.findIdx? (fun b => decide (c = b.preset_color)) l1 k =
        List.findIdx? (fun b => decide (c = b.preset_color)) l2 k := by
    intro l1
    induction l1 with
    | nil =>
      intro l2 h k
      cases l2 with
      | nil => rfl
      | cons b l2 => simp at h
    | cons a l1 ih =>
      intro l2 h k
      cases l2 with
      | nil => simp at h
      | cons b l2 =>
        simp only [List.map_cons, List.cons.injEq] at h
        simp only [List.findIdx?_cons, h.1]
        rw [ih l2 h.2]
  exact key _ _ hmap 0

/-- The handler run for the swatch of the current colour, found pressed,
does not depend on the handler of the signals raised inside it: none is
raised. -/
theorem toggled_pressed_current (H H1 : PickerState → Color → Option PickerState) (E : Engine)
    (st : PickerState) (c : Color) (i : Nat) (hc : st.color = c)
    (hf : st.recent_preset_hbc.findIdx? (fun b => decide (c = b.preset_color)) = some i)
    (hp : (st.recent_preset_hbc.get? i).map (fun (b : ColorPresetButton) => b.pressed) =
      some true) :
    Toggled._recent_preset_pressed H E st true c =
      Toggled._recent_preset_pressed H1 E st true c := by
  unfold Toggled._recent_preset_pressed Toggled.set_pick_color
  rw [toggled_set_pick_color_eq H, toggled_set_pick_color_eq H1, hc,
    toggled_add_pressed H E st c i hf hp, toggled_add_pressed H1 E st c i hf hp]

/-- Two handlers that agree wherever they run for the swatch of the current
colour, found pressed, give the same `_set_pick_color`. -/
theorem toggled_set_pick_color_congr (H H1 : PickerState → Color → Option PickerState)
    (E : Engine)
    (hHH : ∀ (st : PickerState) (c : Color) (i : Nat), st.color = c →
      st.recent_preset_hbc.findIdx? (fun b => decide (c = b.preset_color)) = some i →
      (st.recent_preset_hbc.get? i).map (fun (b : ColorPresetButton) => b.pressed) = some true →
      H st c = H1 st c)
    (st : PickerState) (p : Color) (b : Bool) :
    Toggled._set_pick_color H E st p b = Toggled._set_pick_color H1 E st p b := by
  rw [toggled_set_pick_color_eq H, toggled_set_pick_color_eq H1]
  by_cases ht : st.text_changed = true
  · simp only [if_pos ht]
    have hadd : Toggled.add_recent_preset H E st st.color =
        Toggled.add_recent_preset H1 E st st.color := by
      cases hf : st.recent_preset_hbc.findIdx? (fun b => decide (st.color = b.preset_color)) with
      | none => rw [toggled_add_absent H E st _ hf, toggled_add_absent H1 E st _ hf]
      | some i =>
        by_cases hp : (st.recent_preset_hbc.get? i).map
            (fun (b : ColorPresetButton) => b.pressed) = some true
        · rw [toggled_add_pressed H E st _ i hf hp, toggled_add_pressed H1 E st _ i hf hp]
        · rw [toggled_add_unpressed H E st _ i hf hp, toggled_add_unpressed H1 E st _ i hf hp]
          have hlt : i < st.recent_preset_hbc.length :=
            (List.findIdx?_eq_some_iff_getElem.1 hf).1
          rw [hHH { st with recent_preset_hbc := set_pressed_at i st.recent_preset_hbc }
            st.color i rfl (by
              show (set_pressed_at i st.recent_preset_hbc).findIdx? _ = some i
              rw [findIdx_set_pressed_at, hf]) (by
              show ((set_pressed_at i st.recent_preset_hbc).get? i).map _ = some true
              rw [set_pressed_at_get i _ hlt]
              rfl)]
    rw [hadd]
  · simp only [if_neg ht]

/-- Two levels of the handler are all that a call reaches: handling the
signals raised inside the handler to any greater depth gives the same run. -/
theorem recent_toggled_depth (E : Engine) (n : Nat) :
    Toggled.recent_toggled E (n + 2) = Toggled.recent_toggled E 2 := by
  funext st c
  show Toggled._recent_preset_pressed (Toggled.recent_toggled E (n + 1)) E st true c =
    Toggled._recent_preset_pressed (Toggled.recent_toggled E 1) E st true c
  have hspc := toggled_set_pick_color_congr (Toggled.recent_toggled E (n + 1))
    (Toggled.recent_toggled E 1) E
    (fun s k i hk hf hp => toggled_pressed_current _ _ E s k i hk hf hp) st c true
  unfold Toggled._recent_preset_pressed Toggled.set_pick_color
  rw [hspc]

/-- Moving a colour of a duplicate-free list to its back. -/
theorem list_move_to_back_spec (l : List Color) (c : Color) (hin : c ∈ l) (hnd : l.Nodup) :
    (list_move_to_back l c).length = l.length ∧ (list_move_to_back l c).count c = 1 ∧
    (list_move_to_back l c).getLast? = some c ∧
    (list_move_to_back l c).dropLast = l.erase c ∧
    (list_move_to_back l c).filter (fun x => x ≠ c) = l.filter (fun x => x ≠ c) := by
  have hnot : c ∉ l.erase c := fun h => ((List.Nodup.mem_erase_iff hnd).1 h).1 rfl
  have he : l.erase c = l.filter (fun x => x ≠ c) := by
    rw [List.Nodup.erase_eq_filter hnd]
    apply List.filter_congr
    intro x _
    by_cases hx : x = c <;> simp [hx]
  unfold list_move_to_back
  refine ⟨?_, ?_, ?_, ?_, ?_⟩
  · rw [List.length_append, List.length_erase_of_mem hin]
    have : 0 < l.length := List.length_pos_of_mem hin
    simp only [List.length_singleton]
    omega
  · rw [List.count_append, List.count_eq_zero_of_not_mem hnot]
    simp
  · simp
  · rw [List.dropLast_concat]
  · rw [List.filter_append, he, List.filter_filter]
    simp

/-- C12, as amended: for a duplicate-free recent list that contains c, with a
swatch of colour c (the first one is child `i`) and no text edit pending,
where that swatch is not the pressed one unless c is the last element
already: `add_recent_preset(c)`, with the handler of `toggled` run in place,
returns, and the list then has the same length, contains c exactly once, has c
as its last element and keeps the other colours in their order. -/
theorem C12_recent_readd_amended (E : Engine) (st : PickerState) (c : Color) (i : Nat)
    (hi : st.recent_preset_hbc.findIdx? (fun b => decide (c = b.preset_color)) = some i)
    (hin : c ∈ get_recent_presets st) (hnd : (get_recent_presets st).Nodup)
    (htext : st.text_changed = false)
    (hlast : (st.recent_preset_hbc.get? i).map (fun (b : ColorPresetButton) => b.pressed) =
      some true → (get_recent_presets st).getLast? = some c) :
    ∃ s, Toggled.add_recent_preset (Toggled.recent_toggled E 2) E st c = some s ∧
      (get_recent_presets s).length = (get_recent_presets st).length ∧
      (get_recent_presets s).count c = 1 ∧
      (get_recent_presets s).getLast? = some c ∧
      (get_recent_presets s).filter (fun x => x ≠ c) =
        (get_recent_presets st).filter (fun x => x ≠ c) := by
  simp only [get_recent_presets] at *
  by_cases hp : (st.recent_preset_hbc.get? i).map (fun (b : ColorPresetButton) => b.pressed) =
      some true
  · refine ⟨_, toggled_add_pressed _ E st c i hi hp, ?_, ?_, ?_, ?_⟩
    · simp
    · simp only [select_container_fields]
      exact List.count_eq_one_of_mem hnd hin
    · simp only [select_container_fields]
      exact hlast hp
    · simp
  · obtain ⟨m1, m2, m3, _, m5⟩ := list_move_to_back_spec st.recent_presets c hin hnd
    rw [toggled_add_unpressed _ E st c i hi hp]
    have hH : Toggled.recent_toggled E 2
        { st with recent_preset_hbc := set_pressed_at i st.recent_preset_hbc } c =
        Toggled._recent_preset_pressed (Toggled.recent_toggled E 1) E
          { st with recent_preset_hbc := set_pressed_at i st.recent_preset_hbc } true c := rfl
    rw [hH, toggled_pressed_no_text _ E
      { st with recent_preset_hbc := set_pressed_at i st.recent_preset_hbc } c htext]
    simp only [if_pos hin, Option.map_some']
    refine ⟨_, rfl, ?_, ?_, ?_, ?_⟩
    · simp only [select_container_fields]
      split_ifs <;> exact m1
    · simp only [select_container_fields]
      split_ifs <;> exact m2
    · simp only [select_container_fields]
      split_ifs <;> exact m3
    · simp only [select_container_fields]
      split_ifs <;> exact m5

/-- C12 as amended, evaluated on the fresh picker after black and dark red
were added: re-adding black, whose swatch is child 1 and not pressed, gives
the list [dark red, black]. -/
theorem C12_recent_readd_amended_witness :
    get_recent_presets twoRecentState = [⟨0, 0, 0, 1⟩, ⟨1 / 8, 0, 0, 1⟩] ∧
    (Toggled.add_recent_preset (Toggled.recent_toggled sampleEngine 2) sampleEngine
      twoRecentState ⟨0, 0, 0, 1⟩).map get_recent_presets =
      some [⟨1 / 8, 0, 0, 1⟩, ⟨0, 0, 0, 1⟩] ∧
    ∃ s, Toggled.add_recent_preset (Toggled.recent_toggled sampleEngine 2) sampleEngine
        twoRecentState ⟨0, 0, 0, 1⟩ = some s ∧
      (get_recent_presets s).length = (get_recent_presets twoRecentState).length ∧
      (get_recent_presets s).count ⟨0, 0, 0, 1⟩ = 1 ∧
      (get_recent_presets s).getLast? = some ⟨0, 0, 0, 1⟩ ∧
      (get_recent_presets s).filter (fun x => x ≠ (⟨0, 0, 0, 1⟩ : Color)) =
        (get_recent_presets twoRecentState).filter (fun x => x ≠ (⟨0, 0, 0, 1⟩ : Color)) :=
  ⟨by decide!, by decide!,
    C12_recent_readd_amended sampleEngine twoRecentState ⟨0, 0, 0, 1⟩ 1 (by decide!)
      (by decide!) (by decide!) (by decide!) (by decide!)⟩

/-- C12 fails as stated: on the fresh picker after black and dark red were
added and the text field was edited, the recent list is [black, dark red] and
contains black; `add_recent_preset(black)` presses the swatch of black, the
handler of `toggled` calls set_pick_color, which first adds the current
colour, white, because of the pending text edit, and then moves black to the
back: the list is [dark red, white, black], three entries instead of two. -/
theorem C12_recent_readd_counterexample :
    get_recent_presets pendingTextState = [⟨0, 0, 0, 1⟩, ⟨1 / 8, 0, 0, 1⟩] ∧
    (⟨0, 0, 0, 1⟩ : Color) ∈ get_recent_presets pendingTextState ∧
    pendingTextState.color = ⟨1, 1, 1, 1⟩ ∧ pendingTextState.text_changed = true ∧
    (Toggled.add_recent_preset (Toggled.recent_toggled sampleEngine 2) sampleEngine
      pendingTextState ⟨0, 0, 0, 1⟩).map get_recent_presets =
      some [⟨1 / 8, 0, 0, 1⟩, ⟨1, 1, 1, 1⟩, ⟨0, 0, 0, 1⟩] ∧
    (Toggled.add_recent_preset (Toggled.recent_toggled sampleEngine 2) sampleEngine
      pendingTextState ⟨0, 0, 0, 1⟩).map (fun s => (get_recent_presets s).length) ≠
      some (get_recent_presets pendingTextState).length := by
  decide!

theorem move_child_to_front_length (i : Nat) (l : List ColorPresetButton) :
    (move_child_to_front i l).length = l.length := by
  unfold move_child_to_front
  cases h : l.get? i with
  | none => rfl
  | some b =>
    have hi : i < l.length := by
      rw [List.get?_eq_some] at h
      exact h.1
    have hpos : 0 < l.length := by omega
    simp only [List.length_cons, List.length_eraseIdx, if_pos hi]
    omega

/-- A colour some swatch carries, in terms of the search of
`_select_from_recent_preset_hbc`. -/
theorem findIdx_none_not_mem (l : List ColorPresetButton) (c : Color)
    (hf : l.findIdx? (fun b => decide (c = b.preset_color)) = none) :
    c ∉ l.map (fun b => b.preset_color) := by
  rw [List.findIdx?_eq_none_iff] at hf
  intro hin
  simp only [List.mem_map] at hin
  obtain ⟨b, hb, hbc⟩ := hin
  have := hf b hb
  simp [hbc] at this

theorem findIdx_some_mem (l : List ColorPresetButton) (c : Color) (i : Nat)
    (hf : l.findIdx? (fun b => decide (c = b.preset_color)) = some i) :
    c ∈ l.map (fun b => b.preset_color) := by
  by_contra hnin
  have hnone : l.findIdx? (fun b => decide (c = b.preset_color)) = none := by
    rw [List.findIdx?_eq_none_iff]
    intro b hb
    simp only [decide_eq_false_iff_not]
    intro hcb
    exact hnin (List.mem_map.mpr ⟨b, hb, hcb.symm⟩)
  rw [hnone] at hf
  exact Option.noConfusion hf

/-- Adding a colour without a swatch keeps the recent list within the row of
swatches and within the capacity. -/
theorem add_recent_preset_within (E : Engine) (st : PickerState) (c : Color)
    (hN : 0 < E.PRESET_COLUMN_COUNT) (hI : recent_within_capacity E st)
    (hf : st.recent_preset_hbc.findIdx? (fun b => decide (c = b.preset_color)) = none) :
    recent_within_capacity E (add_recent_preset E st c) := by
  obtain ⟨h1, h2⟩ := (add_recent_preset_recent E st c).2 (findIdx_none_not_mem _ c hf)
  have hlen : (add_recent_preset E st c).recent_preset_hbc.length =
      st.recent_preset_hbc.length + 1 := by
    have := congrArg List.length h2
    simpa using this
  unfold recent_within_capacity at *
  rw [h1, hlen]
  split_ifs with hge
  · simp only [List.length_append, List.length_tail, List.length_singleton]
    omega
  · simp only [List.length_append, List.length_singleton]
    omega

/-- The invariant through `add_recent_preset` with the handler run in place,
for a handler that keeps it. -/
theorem toggled_add_within (H : PickerState → Color → Option PickerState) (E : Engine)
    (hN : 0 < E.PRESET_COLUMN_COUNT)
    (hH : ∀ st c s, recent_within_capacity E st → H st c = some s → recent_within_capacity E s)
    (st : PickerState) (c : Color) (s : PickerState) (hI : recent_within_capacity E st)
    (h : Toggled.add_recent_preset H E st c = some s) : recent_within_capacity E s := by
  cases hf : st.recent_preset_hbc.findIdx? (fun b => decide (c = b.preset_color)) with
  | none =>
    rw [toggled_add_absent H E st c hf] at h
    cases h
    exact add_recent_preset_within E st c hN hI hf
  | some i =>
    by_cases hp : (st.recent_preset_hbc.get? i).map (fun (b : ColorPresetButton) => b.pressed) =
        some true
    · rw [toggled_add_pressed H E st c i hf hp] at h
      cases h
      unfold recent_within_capacity at *
      simpa using hI
    · rw [toggled_add_unpressed H E st c i hf hp] at h
      cases hr : H { st with recent_preset_hbc := set_pressed_at i st.recent_preset_hbc } c with
      | none => rw [hr] at h; exact Option.noConfusion h
      | some s1 =>
        rw [hr] at h
        simp only [Option.map_some', Option.some.injEq] at h
        have hI1 : recent_within_capacity E
            { st with recent_preset_hbc := set_pressed_at i st.recent_preset_hbc } := by
          unfold recent_within_capacity at *
          simpa [set_pressed_at_length] using hI
        have := hH _ c s1 hI1 hr
        rw [← h]
        unfold recent_within_capacity at *
        simpa using this

/-- The invariant through `_set_pick_color` with the handler run in place. -/
theorem toggled_set_pick_color_within (H : PickerState → Color → Option PickerState)
    (E : Engine) (hN : 0 < E.PRESET_COLUMN_COUNT)
    (hH : ∀ st c s, recent_within_capacity E st → H st c = some s → recent_within_capacity E s)
    (st : PickerState) (p : Color) (b : Bool) (s : PickerState)
    (hI : recent_within_capacity E st)
    (h : Toggled._set_pick_color H E st p b = some s) : recent_within_capacity E s := by
  rw [toggled_set_pick_color_eq] at h
  by_cases ht : st.text_changed = true
  · rw [if_pos ht] at h
    cases hr : Toggled.add_recent_preset H E st st.color with
    | none => rw [hr] at h; exact Option.noConfusion h
    | some s1 =>
      rw [hr] at h
      simp only [Option.map_some', Option.some.injEq] at h
      have hI1 := toggled_add_within H E hN hH st st.color s1 hI hr
      obtain ⟨r1, _, r3⟩ := set_pick_color_recent E { s1 with text_changed := false } p b rfl
      rw [← h]
      unfold recent_within_capacity at *
      rw [r1, r3]
      exact hI1
  · rw [if_neg ht] at h
    have ht2 : st.text_changed = false := by simpa using ht
    obtain ⟨r1, _, r3⟩ := set_pick_color_recent E st p b ht2
    simp only [Option.some.injEq] at h
    rw [← h]
    unfold recent_within_capacity at *
    rw [r1, r3]
    exact hI

/-- The invariant through the handler of `toggled`. -/
theorem toggled_pressed_within (H : PickerState → Color → Option PickerState) (E : Engine)
    (hN : 0 < E.PRESET_COLUMN_COUNT)
    (hH : ∀ st c s, recent_within_capacity E st → H st c = some s → recent_within_capacity E s)
    (st : PickerState) (c : Color) (s : PickerState) (hI : recent_within_capacity E st)
    (h : Toggled._recent_preset_pressed H E st true c = some s) :
    recent_within_capacity E s := by
  unfold Toggled._recent_preset_pressed Toggled.set_pick_color at h
  simp only [Bool.not_eq_true, Bool.true_eq_false, if_false] at h
  cases hr : Toggled._set_pick_color H E st c true with
  | none => rw [hr] at h; exact Option.noConfusion h
  | some s1 =>
    rw [hr] at h
    have hI1 := toggled_set_pick_color_within H E hN hH st c true s1 hI hr
    change (if c ∈ s1.recent_presets then _ else none) = some s at h
    by_cases hin : c ∈ s1.recent_presets
    · rw [if_pos hin] at h
      simp only [Option.some.injEq] at h
      have hl : (list_move_to_back s1.recent_presets c).length = s1.recent_presets.length := by
        unfold list_move_to_back
        rw [List.length_append, List.length_erase_of_mem hin]
        have : 0 < s1.recent_presets.length := List.length_pos_of_mem hin
        simp only [List.length_singleton]
        omega
      rw [← h]
      unfold recent_within_capacity at *
      dsimp only
      split_ifs <;> dsimp only <;> rw [hl] <;>
        (cases s1.recent_preset_hbc.findIdx?
            (fun (b : ColorPresetButton) => decide (c = b.preset_color)) with
          | none => exact hI1
          | some j => simpa [move_child_to_front_length] using hI1)
    · rw [if_neg hin] at h
      exact Option.noConfusion h

/-- The invariant through the handler at every nesting depth. -/
theorem recent_toggled_within (E : Engine) (hN : 0 < E.PRESET_COLUMN_COUNT) (n : Nat) :
    ∀ st c s, recent_within_capacity E st → Toggled.recent_toggled E n st c = some s →
      recent_within_capacity E s := by
  induction n with
  | zero =>
    intro st c s _ h
    exact Option.noConfusion h
  | succ n ih =>
    intro st c s hI h
    exact toggled_pressed_within _ E hN ih st c s hI h

/-- C3: in a state whose recent list has at most PRESET_COLUMN_COUNT entries
and is mirrored by the recent swatches, `add_recent_preset(c)`, with the
handler of `toggled` run in place, returns whenever no text edit is pending,
and the list has at most PRESET_COLUMN_COUNT entries after every call that
returns. -/
theorem C3_recent_capacity (E : Engine) (st : PickerState) (c : Color)
    (hN : 0 < E.PRESET_COLUMN_COUNT)
    (hcap : (get_recent_presets st).length ≤ E.PRESET_COLUMN_COUNT)
    (hmir : recent_buttons_mirror st) :
    (∀ s, Toggled.add_recent_preset (Toggled.recent_toggled E 2) E st c = some s →
      (get_recent_presets s).length ≤ E.PRESET_COLUMN_COUNT) ∧
    (st.text_changed = false →
      ∃ s, Toggled.add_recent_preset (Toggled.recent_toggled E 2) E st c = some s) := by
  unfold get_recent_presets at *
  have hlen : st.recent_preset_hbc.length = st.recent_presets.length := by
    have := congrArg List.length hmir
    simpa using this
  have hI : recent_within_capacity E st := ⟨by omega, hcap⟩
  refine ⟨fun s h => ?_, fun ht => ?_⟩
  · exact (toggled_add_within _ E hN (recent_toggled_within E hN 2) st c s hI h).2
  · cases hf : st.recent_preset_hbc.findIdx? (fun b => decide (c = b.preset_color)) with
    | none => exact ⟨_, toggled_add_absent _ E st c hf⟩
    | some i =>
      by_cases hp : (st.recent_preset_hbc.get? i).map
          (fun (b : ColorPresetButton) => b.pressed) = some true
      · exact ⟨_, toggled_add_pressed _ E st c i hf hp⟩
      · have hin : c ∈ st.recent_presets := mirror_mem st c hmir (findIdx_some_mem _ c i hf)
        rw [toggled_add_unpressed _ E st c i hf hp]
        have hH : Toggled.recent_toggled E 2
            { st with recent_preset_hbc := set_pressed_at i st.recent_preset_hbc } c =
            Toggled._recent_preset_pressed (Toggled.recent_toggled E 1) E
              { st with recent_preset_hbc := set_pressed_at i st.recent_preset_hbc } true c :=
          rfl
        rw [hH, toggled_pressed_no_text _ E
          { st with recent_preset_hbc := set_pressed_at i st.recent_preset_hbc } c ht]
        simp only [if_pos hin, Option.map_some']
        exact ⟨_, rfl⟩

/-- C3, evaluated: a ninth colour added to a full recent list, and the oldest
colour added again, without a pending text edit. -/
theorem C3_recent_capacity_witness :
    (get_recent_presets fullRecentState).length = 8 ∧
    recent_buttons_mirror fullRecentState ∧
    fullRecentState.text_changed = false ∧
    (Toggled.add_recent_preset (Toggled.recent_toggled sampleEngine 2) sampleEngine
      fullRecentState ⟨1, 0, 0, 1⟩).map (fun s => (get_recent_presets s).length) = some 8 ∧
    (Toggled.add_recent_preset (Toggled.recent_toggled sampleEngine 2) sampleEngine
      fullRecentState ⟨0, 0, 0, 1⟩).map (fun s => (get_recent_presets s).length) = some 8 ∧
    ((∀ s, Toggled.add_recent_preset (Toggled.recent_toggled sampleEngine 2) sampleEngine
        fullRecentState ⟨1, 0, 0, 1⟩ = some s →
      (get_recent_presets s).length ≤ sampleEngine.PRESET_COLUMN_COUNT) ∧
    (fullRecentState.text_changed = false →
      ∃ s, Toggled.add_recent_preset (Toggled.recent_toggled sampleEngine 2) sampleEngine
        fullRecentState ⟨1, 0, 0, 1⟩ = some s)) :=
  ⟨by decide!, by decide!, by decide!, by decide!, by decide!,
    C3_recent_capacity sampleEngine fullRecentState ⟨1, 0, 0, 1⟩ (by decide!) (by decide!)
      (by decide!)⟩

/-- C3, the run that does not return: the recent list of the fresh picker
holds the eight sample colours, black the oldest, mirrored by the swatches;
the text field was edited, and the colour of the picker, white, has no swatch.
`add_recent_preset(black)` presses the swatch of black; the handler of
`toggled` calls set_pick_color(black), which adds white because of the pending
text edit; the list is full, so black is dropped from its front; back in the
handler `recent_presets.find(black)` is null and is handed to move_to_back. -/
theorem C3_recent_capacity_null_find :
    (get_recent_presets fullPendingTextState).length ≤ sampleEngine.PRESET_COLUMN_COUNT ∧
    recent_buttons_mirror fullPendingTextState ∧
    (get_recent_presets fullPendingTextState).head? = some ⟨0, 0, 0, 1⟩ ∧
    fullPendingTextState.color = ⟨1, 1, 1, 1⟩ ∧
    fullPendingTextState.text_changed = true ∧
    Toggled.add_recent_preset (Toggled.recent_toggled sampleEngine 2) sampleEngine
      fullPendingTextState ⟨0, 0, 0, 1⟩ = none ∧
    (Toggled._set_pick_color (Toggled.recent_toggled sampleEngine 1) sampleEngine
      { fullPendingTextState with
        recent_preset_hbc := set_pressed_at 7 fullPendingTextState.recent_preset_hbc }
      ⟨0, 0, 0, 1⟩ true).map
      (fun s => decide ((⟨0, 0, 0, 1⟩ : Color) ∈ get_recent_presets s)) = some false := by
  decide!

/-- The colour `_copy_hsv_to_color` stores, written out. -/
theorem copy_hsv_color (E : Engine) (x : PickerState) :
    (_copy_hsv_to_color E x).color =
      if _get_actual_shape E x = SHAPE_OKHSL_CIRCLE then
        E.set_ok_hsl x.ok_hsl_h x.ok_hsl_s x.ok_hsl_l x.color.a
      else Color.set_hsv x.h x.s x.v x.color.a := by
  unfold _copy_hsv_to_color
  split_ifs <;> rfl

theorem actual_shape_congr (E : Engine) (x y : PickerState)
    (hm : x.current_mode = y.current_mode) (hs : x.current_shape = y.current_shape) :
    _get_actual_shape E x = _get_actual_shape E y := by
  unfold _get_actual_shape
  rw [hm, hs]

theorem raises_toggled_congr (x y : PickerState) (c : Color)
    (h : x.recent_preset_hbc = y.recent_preset_hbc) :
    raises_toggled x c = raises_toggled y c := by
  unfold raises_toggled
  rw [h]

/-- Without a pending text edit the shared tail of the pointer handlers runs
no handler of `toggled`. -/
theorem toggled_apply_hsv_edit_no_text (H : PickerState → Color → Option PickerState)
    (E : Engine) (st : PickerState) (ht : st.text_changed = false) :
    Toggled.apply_hsv_edit H E st = some (apply_hsv_edit E st) := by
  unfold Toggled.apply_hsv_edit Toggled.set_pick_color apply_hsv_edit set_pick_color
  dsimp only
  rw [toggled_set_pick_color_no_text H E _ _ true (by simpa using ht)]
  rfl

/-- The shared tail of the pointer handlers leaves no text edit pending and,
when none was pending, keeps the recent list and its swatches. -/
theorem apply_hsv_edit_recent (E : Engine) (st : PickerState) (ht : st.text_changed = false) :
    (apply_hsv_edit E st).text_changed = false ∧
    (apply_hsv_edit E st).recent_presets = st.recent_presets ∧
    (apply_hsv_edit E st).recent_preset_hbc = st.recent_preset_hbc := by
  have ht1 : ({ _copy_hsv_to_color E st with
      last_color := (_copy_hsv_to_color E st).color } : PickerState).text_changed = false := by
    simpa using ht
  obtain ⟨r1, _, r3⟩ := set_pick_color_recent E
    { _copy_hsv_to_color E st with last_color := (_copy_hsv_to_color E st).color }
    (_copy_hsv_to_color E st).color true ht1
  have r0 := (set_pick_color_fields E
    { _copy_hsv_to_color E st with last_color := (_copy_hsv_to_color E st).color }
    (_copy_hsv_to_color E st).color true).2.2.1
  unfold apply_hsv_edit set_pick_color
  dsimp only
  split_ifs
  all_goals exact ⟨r0, r1.trans (by simp), r3.trans (by simp)⟩

/-- The shared tail of the pointer handlers keeps what a gesture keeps. -/
theorem apply_hsv_edit_keeps (E : Engine) (st x : PickerState) (ht : x.text_changed = false)
    (h2 : x.recent_presets = st.recent_presets)
    (h3 : x.recent_preset_hbc = st.recent_preset_hbc) (h4 : x.current_mode = st.current_mode)
    (h5 : x.current_shape = st.current_shape) : gesture_keeps st (apply_hsv_edit E x) := by
  obtain ⟨a1, a2, a3⟩ := apply_hsv_edit_recent E x ht
  have f := apply_hsv_edit_fields E x
  exact ⟨a1, a2.trans h2, a3.trans h3, f.2.2.2.2.1.trans h4, f.2.2.2.2.2.1.trans h5⟩

/-- A left press over the S/V area without a pending text edit runs no
handler of `toggled`. -/
theorem toggled_uv_press_no_text (H : PickerState → Color → Option PickerState) (E : Engine)
    (st : PickerState) (pos : Vector2) (c : Control) (ht : st.text_changed = false) :
    Toggled._uv_input H E st (InputEvent.mouse_button MouseButton.LEFT true pos) c =
      some (_uv_input E st (InputEvent.mouse_button MouseButton.LEFT true pos) c) := by
  unfold Toggled._uv_input _uv_input
  simp only [and_self, if_true]
  cases hv : uv_press_target E st pos c with
  | none => rfl
  | some t =>
    have := (uv_press_target_fields E st t pos c hv).2.2.2.1
    exact toggled_apply_hsv_edit_no_text H E _ (this.trans ht)

/-- A motion sample over the S/V area without a pending text edit runs no
handler of `toggled`. -/
theorem toggled_uv_motion_no_text (H : PickerState → Color → Option PickerState) (E : Engine)
    (s : PickerState) (p : Vector2) (c : Control) (ht : s.text_changed = false) :
    Toggled._uv_input H E s (InputEvent.mouse_motion p) c =
      some (_uv_input E s (InputEvent.mouse_motion p) c) := by
  unfold Toggled._uv_input _uv_input
  dsimp only
  by_cases hc : s.changing_color = true
  · simp only [hc, not_true_eq_false, if_false]
    exact toggled_apply_hsv_edit_no_text H E _ (by simpa using ht)
  · simp [hc]

/-- A left press over the strip without a pending text edit runs no handler of
`toggled`. -/
theorem toggled_w_press_no_text (H : PickerState → Color → Option PickerState) (E : Engine)
    (st : PickerState) (pos : Vector2) (ht : st.text_changed = false) :
    Toggled._w_input H E st (InputEvent.mouse_button MouseButton.LEFT true pos) =
      some (_w_input E st (InputEvent.mouse_button MouseButton.LEFT true pos)) := by
  unfold Toggled._w_input _w_input Toggled.set_pick_color set_pick_color
  dsimp only
  simp only [and_self, if_true]
  rw [toggled_set_pick_color_no_text H E _ _ true (by simpa using ht)]
  simp only [Option.some_bind, Bool.true_eq_false, not_true_eq_false, false_and, if_false]
  split_ifs <;> rfl

/-- A motion sample over the strip without a pending text edit runs no handler
of `toggled`. -/
theorem toggled_w_motion_no_text (H : PickerState → Color → Option PickerState) (E : Engine)
    (s : PickerState) (p : Vector2) (ht : s.text_changed = false) :
    Toggled._w_input H E s (InputEvent.mouse_motion p) =
      some (_w_input E s (InputEvent.mouse_motion p)) := by
  unfold Toggled._w_input _w_input
  dsimp only
  by_cases hc : s.changing_color = true
  · simp only [hc, not_true_eq_false, if_false]
    exact toggled_apply_hsv_edit_no_text H E _ (by simpa using ht)
  · simp [hc]

/-- The press over the S/V area keeps what a gesture keeps. -/
theorem uv_press_keeps (E : Engine) (st : PickerState) (pos : Vector2) (c : Control)
    (ht : st.text_changed = false) :
    gesture_keeps st (_uv_input E st (InputEvent.mouse_button MouseButton.LEFT true pos) c) := by
  unfold _uv_input
  simp only [and_self, if_true]
  cases hv : uv_press_target E st pos c with
  | none => exact ⟨ht, rfl, rfl, rfl, rfl⟩
  | some t =>
    obtain ⟨_, _, _, f4, _, _, f7, f8, _, _, _, f12, f13⟩ := uv_press_target_fields E st t pos c hv
    exact apply_hsv_edit_keeps E st _ (f4.trans ht) f12 f13 f7 f8

/-- A motion sample over the S/V area keeps what a gesture keeps. -/
theorem uv_motion_keeps (E : Engine) (st s : PickerState) (p : Vector2) (c : Control)
    (hk : gesture_keeps st s) :
    gesture_keeps st (_uv_input E s (InputEvent.mouse_motion p) c) := by
  obtain ⟨k1, k2, k3, k4, k5⟩ := hk
  unfold _uv_input
  dsimp only
  by_cases hc : s.changing_color = true
  · simp only [hc, not_true_eq_false, if_false]
    exact apply_hsv_edit_keeps E st _ (by simpa using k1) (by simpa using k2)
      (by simpa using k3) (by simpa using k4) (by simpa using k5)
  · simp only [hc, not_false_eq_true, if_true]
    exact ⟨k1, k2, k3, k4, k5⟩

/-- The press over the strip keeps what a gesture keeps. -/
theorem w_press_keeps (E : Engine) (st : PickerState) (pos : Vector2)
    (ht : st.text_changed = false) :
    gesture_keeps st (_w_input E st (InputEvent.mouse_button MouseButton.LEFT true pos)) := by
  rw [w_press_eq]
  exact apply_hsv_edit_keeps E st _ (by simpa using ht) (by simp) (by simp) (by simp) (by simp)

/-- A motion sample over the strip keeps what a gesture keeps. -/
theorem w_motion_keeps (E : Engine) (st s : PickerState) (p : Vector2)
    (hk : gesture_keeps st s) : gesture_keeps st (_w_input E s (InputEvent.mouse_motion p)) := by
  obtain ⟨k1, k2, k3, k4, k5⟩ := hk
  unfold _w_input
  dsimp only
  by_cases hc : s.changing_color = true
  · simp only [hc, not_true_eq_false, if_false]
    exact apply_hsv_edit_keeps E st _ (by simpa using k1) (by simpa using k2)
      (by simpa using k3) (by simpa using k4) (by simpa using k5)
  · simp only [hc, not_false_eq_true, if_true]
    exact ⟨k1, k2, k3, k4, k5⟩

/-- Motion samples over the S/V area, without a pending text edit at their
start: the run with the handler in place is the plain run. -/
theorem toggled_uv_motion_fold (H : PickerState → Color → Option PickerState) (E : Engine)
    (st : PickerState) (c : Control) (ps : List Vector2) :
    ∀ s : PickerState, gesture_keeps st s →
      ps.foldl
        (fun (o : Option PickerState) (p : Vector2) =>
          o.bind (fun (s : PickerState) =>
            Toggled._uv_input H E s (InputEvent.mouse_motion p) c)) (some s) =
        some (ps.foldl (fun s p => _uv_input E s (InputEvent.mouse_motion p) c) s) ∧
      gesture_keeps st (ps.foldl (fun s p => _uv_input E s (InputEvent.mouse_motion p) c) s) := by
  induction ps with
  | nil => intro s hk; exact ⟨rfl, hk⟩
  | cons p ps ih =>
    intro s hk
    simp only [List.foldl_cons, Option.some_bind]
    rw [toggled_uv_motion_no_text H E s p c hk.1]
    exact ih _ (uv_motion_keeps E st s p c hk)

/-- Motion samples over the strip, without a pending text edit at their
start: the run with the handler in place is the plain run. -/
theorem toggled_w_motion_fold (H : PickerState → Color → Option PickerState) (E : Engine)
    (st : PickerState) (ps : List Vector2) :
    ∀ s : PickerState, gesture_keeps st s →
      ps.foldl
        (fun (o : Option PickerState) (p : Vector2) =>
          o.bind (fun (s : PickerState) =>
            Toggled._w_input H E s (InputEvent.mouse_motion p))) (some s) =
        some (ps.foldl (fun s p => _w_input E s (InputEvent.mouse_motion p)) s) ∧
      gesture_keeps st (ps.foldl (fun s p => _w_input E s (InputEvent.mouse_motion p)) s) := by
  induction ps with
  | nil => intro s hk; exact ⟨rfl, hk⟩
  | cons p ps ih =>
    intro s hk
    simp only [List.foldl_cons, Option.some_bind]
    rw [toggled_w_motion_no_text H E s p hk.1]
    exact ih _ (w_motion_keeps E st s p hk)

/-- A gesture over the S/V area that starts without a pending text edit runs
no handler of `toggled` before its release. -/
theorem toggled_uv_drag_eq (H : PickerState → Color → Option PickerState) (E : Engine)
    (st : PickerState) (pos : Vector2) (ps : List Vector2) (c : Control)
    (ht : st.text_changed = false) :
    Toggled.uv_drag H E st pos ps c = some (uv_drag E st pos ps c) ∧
    gesture_keeps st (uv_drag E st pos ps c) := by
  unfold Toggled.uv_drag uv_drag
  rw [toggled_uv_press_no_text H E st pos c ht]
  exact toggled_uv_motion_fold H E st c ps _ (uv_press_keeps E st pos c ht)

/-- A gesture over the strip that starts without a pending text edit runs no
handler of `toggled` before its release. -/
theorem toggled_w_drag_eq (H : PickerState → Color → Option PickerState) (E : Engine)
    (st : PickerState) (pos : Vector2) (ps : List Vector2) (ht : st.text_changed = false) :
    Toggled.w_drag H E st pos ps = some (w_drag E st pos ps) ∧
    gesture_keeps st (w_drag E st pos ps) := by
  unfold Toggled.w_drag w_drag
  rw [toggled_w_press_no_text H E st pos ht]
  exact toggled_w_motion_fold H E st ps _ (w_press_keeps E st pos ht)

/-- `add_recent_preset(color)` for the current colour, without a pending text
edit and with mirroring swatches: the call returns, keeps the colour, and the
handler of `toggled` notifies once when the swatch of the colour was not
pressed. -/
theorem toggled_add_current (E : Engine) (s : PickerState) (ht : s.text_changed = false)
    (hmir : recent_buttons_mirror s) :
    ∃ r, Toggled.add_recent_preset (Toggled.recent_toggled E 2) E s s.color = some r ∧
      r.color = s.color ∧
      r.emitted = s.emitted ++
        (if raises_toggled s s.color = true then [Signal.color_changed s.color] else []) := by
  cases hf : s.recent_preset_hbc.findIdx? (fun b => decide (s.color = b.preset_color)) with
  | none =>
    refine ⟨_, toggled_add_absent _ E s s.color hf, by simp, ?_⟩
    simp [raises_toggled, hf]
  | some i =>
    by_cases hp : (s.recent_preset_hbc.get? i).map (fun (b : ColorPresetButton) => b.pressed) =
        some true
    · have hr : raises_toggled s s.color = false := by
        unfold raises_toggled
        rw [hf]
        exact decide_eq_false (not_not.mpr hp)
      refine ⟨_, toggled_add_pressed _ E s s.color i hf hp, by simp, ?_⟩
      rw [hr]
      simp
    · have hr : raises_toggled s s.color = true := by
        unfold raises_toggled
        rw [hf]
        exact decide_eq_true hp
      have hin : s.color ∈ s.recent_presets :=
        mirror_mem s s.color hmir (findIdx_some_mem _ s.color i hf)
      rw [toggled_add_unpressed _ E s s.color i hf hp]
      have hH : Toggled.recent_toggled E 2
          { s with recent_preset_hbc := set_pressed_at i s.recent_preset_hbc } s.color =
          Toggled._recent_preset_pressed (Toggled.recent_toggled E 1) E
            { s with recent_preset_hbc := set_pressed_at i s.recent_preset_hbc } true s.color :=
        rfl
      rw [hH, toggled_pressed_no_text _ E
        { s with recent_preset_hbc := set_pressed_at i s.recent_preset_hbc } s.color ht]
      simp only [if_pos hin, Option.map_some']
      have hcol : (set_pick_color E
          { s with recent_preset_hbc := set_pressed_at i s.recent_preset_hbc } s.color).color =
          s.color := by
        unfold set_pick_color
        simp
      refine ⟨_, rfl, ?_, ?_⟩
      · simp only [select_container_fields]
        split_ifs <;> exact hcol
      · simp only [select_container_fields]
        rw [hr]
        rfl

/-- The release of the left button over the S/V area during a gesture that
started without a pending text edit, with mirroring swatches: the handler
notifies when deferred, and `_recent_preset_pressed` notifies once more when
the swatch of the colour was not pressed. -/
theorem toggled_uv_release (E : Engine) (st d : PickerState) (q : Vector2) (c : Control)
    (hk : gesture_keeps st d) (hmir : recent_buttons_mirror st) :
    ∃ r, Toggled._uv_input (Toggled.recent_toggled E 2) E d
        (InputEvent.mouse_button MouseButton.LEFT false q) c = some r ∧
      r.color = d.color ∧
      r.emitted = d.emitted ++
        (if d.deferred_mode_enabled = true then [Signal.color_changed d.color] else []) ++
        (if raises_toggled st d.color = true then [Signal.color_changed d.color] else []) := by
  obtain ⟨k1, k2, k3, _, _⟩ := hk
  have hmd : recent_buttons_mirror d := by
    unfold recent_buttons_mirror at *
    rw [k3, k2]
    exact hmir
  have hrt : raises_toggled d d.color = raises_toggled st d.color :=
    raises_toggled_congr d st d.color k3
  unfold Toggled._uv_input
  simp only [Bool.false_eq_true, false_and, if_false, not_false_eq_true, true_and, if_true]
  by_cases hd : d.deferred_mode_enabled = true
  · simp only [hd, if_true]
    obtain ⟨r, hr, hc, he⟩ := toggled_add_current E (emit_color_changed d) k1 hmd
    rw [hr]
    refine ⟨_, rfl, hc, ?_⟩
    have hrt2 : raises_toggled (emit_color_changed d) (emit_color_changed d).color =
        raises_toggled st d.color := hrt
    rw [hrt2] at he
    exact he
  · have hd2 : d.deferred_mode_enabled = false := by simpa using hd
    simp only [hd2, Bool.false_eq_true, if_false]
    obtain ⟨r, hr, hc, he⟩ := toggled_add_current E d k1 hmd
    rw [hr]
    refine ⟨_, rfl, hc, ?_⟩
    rw [hrt] at he
    simpa using he

/-- The release of the left button over the strip during a gesture that
started without a pending text edit, with mirroring swatches: the colour of
the cached values is applied, `_recent_preset_pressed` notifies when the
swatch of the colour was not pressed, and the handler notifies once. -/
theorem toggled_w_release (E : Engine) (st d : PickerState) (q : Vector2)
    (hk : gesture_keeps st d) (hmir : recent_buttons_mirror st) :
    ∃ r, Toggled._w_input (Toggled.recent_toggled E 2) E d
        (InputEvent.mouse_button MouseButton.LEFT false q) = some r ∧
      r.color =
        (if _get_actual_shape E st = SHAPE_OKHSL_CIRCLE then
          E.set_ok_hsl d.ok_hsl_h d.ok_hsl_s d.ok_hsl_l d.color.a
        else Color.set_hsv d.h d.s d.v d.color.a) ∧
      r.emitted = d.emitted ++
        (if raises_toggled st r.color = true then [Signal.color_changed r.color] else []) ++
        [Signal.color_changed r.color] := by
  obtain ⟨k1, k2, k3, k4, k5⟩ := hk
  have ht1 : ({ _copy_hsv_to_color E { d with changing_color := false } with
      last_color := (_copy_hsv_to_color E { d with changing_color := false }).color } :
      PickerState).text_changed = false := by
    simpa using k1
  obtain ⟨r1, _, r3⟩ := set_pick_color_recent E
    { _copy_hsv_to_color E { d with changing_color := false } with
      last_color := (_copy_hsv_to_color E { d with changing_color := false }).color }
    (_copy_hsv_to_color E { d with changing_color := false }).color true ht1
  have f := set_pick_color_fields E
    { _copy_hsv_to_color E { d with changing_color := false } with
      last_color := (_copy_hsv_to_color E { d with changing_color := false }).color }
    (_copy_hsv_to_color E { d with changing_color := false }).color true
  have hcol : (_copy_hsv_to_color E { d with changing_color := false }).color =
      (if _get_actual_shape E st = SHAPE_OKHSL_CIRCLE then
        E.set_ok_hsl d.ok_hsl_h d.ok_hsl_s d.ok_hsl_l d.color.a
      else Color.set_hsv d.h d.s d.v d.color.a) := by
    rw [copy_hsv_color, actual_shape_congr E { d with changing_color := false } st k4 k5]
  unfold Toggled._w_input Toggled.set_pick_color
  dsimp only
  simp only [Bool.false_eq_true, false_and, if_false]
  rw [toggled_set_pick_color_no_text (Toggled.recent_toggled E 2) E _ _ true ht1]
  simp only [Option.some_bind, not_false_eq_true, true_and, if_true]
  generalize hs3 : _set_pick_color E
    { _copy_hsv_to_color E { d with changing_color := false } with
      last_color := (_copy_hsv_to_color E { d with changing_color := false }).color }
    (_copy_hsv_to_color E { d with changing_color := false }).color true = s3 at r1 r3 f
  have hm3 : recent_buttons_mirror s3 := by
    unfold recent_buttons_mirror at *
    rw [r3, r1]
    simp only [copy_hsv_to_color_fields]
    rw [k3, k2]
    exact hmir
  obtain ⟨r, hr, hc, he⟩ := toggled_add_current E s3 f.2.2.1 hm3
  have hb : s3.recent_preset_hbc = st.recent_preset_hbc := by
    rw [r3]
    simp only [copy_hsv_to_color_fields]
    exact k3
  have hem : s3.emitted = d.emitted := by
    rw [f.2.2.2.2.2.2.2.2.2.2.2.2.2.2.2.2.2.2.2.2]
    simp
  rw [hr]
  refine ⟨_, rfl, ?_, ?_⟩
  · simp only [Option.map_some', emit_color_changed]
    rw [hc, f.1, hcol]
  · simp only [Option.map_some', emit_color_changed]
    rw [he, hc, raises_toggled_congr s3 st s3.color hb, hem]

/-- C16, as amended: a gesture over the S/V area (`_uv_input`, with a valid
left press) or over the strip (`_w_input`) made of a left press, motion
samples and a left release, started with no text edit pending and with the
recent swatches mirroring the recent list, the handler of `toggled` run in
place. Every event returns. The press and every motion sample apply the
colour of the new cached values: Color::from_hsv of (h, s, v), or from_ok_hsl
of the OK-HSL values for the OKHSL circle, with the alpha the colour had. With
deferred mode on nothing is notified on the press or on a motion sample; the
release keeps the colour, notifies it once, and `_recent_preset_pressed`
notifies it a second time when the recent swatch of that colour was not
pressed. With deferred mode off the press and every motion sample notify once
each, carrying the colour just applied. -/
theorem C16_deferred_pointer_gestures_amended (E : Engine) (st t : PickerState)
    (pos q p : Vector2) (c : Control) (ps : List Vector2)
    (hvalid : uv_press_target E st pos c = some t) (htext : st.text_changed = false)
    (hmir : recent_buttons_mirror st) :
    (Toggled.uv_drag (Toggled.recent_toggled E 2) E st pos ps c =
        some (uv_drag E st pos ps c) ∧
      Toggled.uv_drag (Toggled.recent_toggled E 2) E st pos (ps ++ [p]) c =
        some (uv_drag E st pos (ps ++ [p]) c) ∧
      Toggled.w_drag (Toggled.recent_toggled E 2) E st pos ps = some (w_drag E st pos ps) ∧
      Toggled.w_drag (Toggled.recent_toggled E 2) E st pos (ps ++ [p]) =
        some (w_drag E st pos (ps ++ [p]))) ∧
    ((uv_drag E st pos [] c).color =
        (if _get_actual_shape E st = SHAPE_OKHSL_CIRCLE then
          E.set_ok_hsl t.ok_hsl_h t.ok_hsl_s t.ok_hsl_l st.color.a
        else Color.set_hsv t.h t.s t.v st.color.a) ∧
      (uv_drag E st pos (ps ++ [p]) c).color =
        (if _get_actual_shape E st = SHAPE_OKHSL_CIRCLE then
          E.set_ok_hsl (uv_motion_target E (uv_drag E st pos ps c) p c).ok_hsl_h
            (uv_motion_target E (uv_drag E st pos ps c) p c).ok_hsl_s
            (uv_motion_target E (uv_drag E st pos ps c) p c).ok_hsl_l
            (uv_drag E st pos ps c).color.a
        else
          Color.set_hsv (uv_motion_target E (uv_drag E st pos ps c) p c).h
            (uv_motion_target E (uv_drag E st pos ps c) p c).s
            (uv_motion_target E (uv_drag E st pos ps c) p c).v
            (uv_drag E st pos ps c).color.a) ∧
      (w_drag E st pos []).color =
        (if _get_actual_shape E st = SHAPE_OKHSL_CIRCLE then
          E.set_ok_hsl (w_target E { st with changing_color := true } pos).ok_hsl_h
            (w_target E { st with changing_color := true } pos).ok_hsl_s
            (w_target E { st with changing_color := true } pos).ok_hsl_l st.color.a
        else
          Color.set_hsv (w_target E { st with changing_color := true } pos).h
            (w_target E { st with changing_color := true } pos).s
            (w_target E { st with changing_color := true } pos).v st.color.a) ∧
      (w_drag E st pos (ps ++ [p])).color =
        (if _get_actual_shape E st = SHAPE_OKHSL_CIRCLE then
          E.set_ok_hsl (w_target E (w_drag E st pos ps) p).ok_hsl_h
            (w_target E (w_drag E st pos ps) p).ok_hsl_s
            (w_target E (w_drag E st pos ps) p).ok_hsl_l (w_drag E st pos ps).color.a
        else
          Color.set_hsv (w_target E (w_drag E st pos ps) p).h
            (w_target E (w_drag E st pos ps) p).s
            (w_target E (w_drag E st pos ps) p).v (w_drag E st pos ps).color.a)) ∧
    (st.deferred_mode_enabled = true →
      (uv_drag E st pos ps c).emitted = st.emitted ∧
      (w_drag E st pos ps).emitted = st.emitted ∧
      (∃ r, Toggled._uv_input (Toggled.recent_toggled E 2) E (uv_drag E st pos ps c)
          (InputEvent.mouse_button MouseButton.LEFT false q) c = some r ∧
        r.color = (uv_drag E st pos ps c).color ∧
        r.emitted = st.emitted ++ [Signal.color_changed r.color] ++
          (if raises_toggled st r.color = true then [Signal.color_changed r.color] else [])) ∧
      (∃ r, Toggled._w_input (Toggled.recent_toggled E 2) E (w_drag E st pos ps)
          (InputEvent.mouse_button MouseButton.LEFT false q) = some r ∧
        r.color =
          (if _get_actual_shape E st = SHAPE_OKHSL_CIRCLE then
            E.set_ok_hsl (w_drag E st pos ps).ok_hsl_h (w_drag E st pos ps).ok_hsl_s
              (w_drag E st pos ps).ok_hsl_l (w_drag E st pos ps).color.a
          else
            Color.set_hsv (w_drag E st pos ps).h (w_drag E st pos ps).s (w_drag E st pos ps).v
              (w_drag E st pos ps).color.a) ∧
        r.emitted = st.emitted ++
          (if raises_toggled st r.color = true then [Signal.color_changed r.color] else []) ++
          [Signal.color_changed r.color])) ∧
    (st.deferred_mode_enabled = false →
      (uv_drag E st pos [] c).emitted =
        st.emitted ++ [Signal.color_changed (uv_drag E st pos [] c).color] ∧
      (uv_drag E st pos (ps ++ [p]) c).emitted =
        (uv_drag E st pos ps c).emitted ++
          [Signal.color_changed (uv_drag E st pos (ps ++ [p]) c).color] ∧
      (w_drag E st pos []).emitted =
        st.emitted ++ [Signal.color_changed (w_drag E st pos []).color] ∧
      (w_drag E st pos (ps ++ [p])).emitted =
        (w_drag E st pos ps).emitted ++
          [Signal.color_changed (w_drag E st pos (ps ++ [p])).color]) := by
  obtain ⟨u1, u2, u3, u4⟩ := uv_press_step E st t pos c hvalid
  obtain ⟨w1, w2, w3, w4⟩ := w_press_step E st pos
  obtain ⟨uf1, uf2, uf3⟩ := uv_motion_fold E c ps _ u1
  obtain ⟨wf1, wf2, wf3⟩ := w_motion_fold E ps _ w1
  have hu : uv_drag E st pos (ps ++ [p]) c =
      _uv_input E (uv_drag E st pos ps c) (InputEvent.mouse_motion p) c := by
    simp [uv_drag, List.foldl_append]
  have hw : w_drag E st pos (ps ++ [p]) =
      _w_input E (w_drag E st pos ps) (InputEvent.mouse_motion p) := by
    simp [w_drag, List.foldl_append]
  obtain ⟨um1, um2, um3, um4⟩ := uv_motion_step E (uv_drag E st pos ps c) p c uf1
  obtain ⟨wm1, wm2, wm3, wm4⟩ := w_motion_step E (w_drag E st pos ps) p wf1
  have hud : (uv_drag E st pos ps c).deferred_mode_enabled = st.deferred_mode_enabled :=
    uf2.trans u2
  have hwd : (w_drag E st pos ps).deferred_mode_enabled = st.deferred_mode_enabled :=
    wf2.trans w2
  obtain ⟨tu, ku⟩ := toggled_uv_drag_eq (Toggled.recent_toggled E 2) E st pos ps c htext
  obtain ⟨tw, kw⟩ := toggled_w_drag_eq (Toggled.recent_toggled E 2) E st pos ps htext
  obtain ⟨f1, _, _, _, _, _, f7, f8, _, _, _, _, _⟩ := uv_press_target_fields E st t pos c hvalid
  have hue : st.deferred_mode_enabled = true → (uv_drag E st pos ps c).emitted = st.emitted := by
    intro hd
    have := uf3 (u2.trans hd)
    simp only [uv_drag]
    rw [this, u4, hd]
    simp
  have hwe : st.deferred_mode_enabled = true → (w_drag E st pos ps).emitted = st.emitted := by
    intro hd
    have := wf3 (w2.trans hd)
    simp only [w_drag]
    rw [this, w4, hd]
    simp
  refine ⟨⟨tu, (toggled_uv_drag_eq _ E st pos (ps ++ [p]) c htext).1, tw,
    (toggled_w_drag_eq _ E st pos (ps ++ [p]) htext).1⟩, ⟨?_, ?_, ?_, ?_⟩,
    fun hd => ⟨hue hd, hwe hd, ?_, ?_⟩, fun hd => ⟨?_, ?_, ?_, ?_⟩⟩
  · have : uv_drag E st pos [] c =
        _uv_input E st (InputEvent.mouse_button MouseButton.LEFT true pos) c := rfl
    rw [this, u3, copy_hsv_color, actual_shape_congr E { t with changing_color := true } st f7 f8]
    simp only [f1]
  · rw [hu, um3, copy_hsv_color,
      actual_shape_congr E (uv_motion_target E (uv_drag E st pos ps c) p c) st
        ((uv_motion_target_fields E _ p c).2.2.2.2.2.2.2.2.2.2.2.2.2.2.1.trans ku.2.2.2.1)
        ((uv_motion_target_fields E _ p c).2.2.2.2.2.2.2.2.2.2.2.2.2.2.2.1.trans ku.2.2.2.2)]
    simp only [uv_motion_target_fields]
  · have : w_drag E st pos [] =
        _w_input E st (InputEvent.mouse_button MouseButton.LEFT true pos) := rfl
    rw [this, w3, copy_hsv_color,
      actual_shape_congr E (w_target E { st with changing_color := true } pos) st
        (by simp) (by simp)]
    simp only [w_target_fields]
  · rw [hw, wm3, copy_hsv_color,
      actual_shape_congr E (w_target E (w_drag E st pos ps) p) st
        ((w_target_fields E _ p).2.2.2.2.2.2.2.2.2.2.2.2.2.2.2.2.1.trans kw.2.2.2.1)
        ((w_target_fields E _ p).2.2.2.2.2.2.2.2.2.2.2.2.2.2.2.2.2.1.trans kw.2.2.2.2)]
    simp only [w_target_fields]
  · obtain ⟨r, hr, hc, he⟩ := toggled_uv_release E st (uv_drag E st pos ps c) q c ku hmir
    refine ⟨r, hr, hc, ?_⟩
    rw [he, hue hd, hud, hd, hc]
    simp
  · obtain ⟨r, hr, hc, he⟩ := toggled_w_release E st (w_drag E st pos ps) q kw hmir
    refine ⟨r, hr, hc, ?_⟩
    rw [he, hwe hd]
  · simp only [uv_drag, List.foldl_nil]
    rw [u4, hd]
    simp
  · rw [hu, um4, hud, hd]
    simp
  · simp only [w_drag, List.foldl_nil]
    rw [w4, hd]
    simp
  · rw [hw, wm4, hwd, hd]
    simp

/-- C16 as amended, evaluated: a deferred gesture over the rectangle of the
fresh picker, press at (10, 10), two motion samples, release: nothing is
notified before the release, and the release notifies once, the picker having
no recent swatch. -/
theorem C16_deferred_pointer_gestures_amended_witness :
    (uv_press_target sampleEngine { initialState with deferred_mode_enabled := true }
      ⟨10, 10⟩ ⟨⟨256, 256⟩, false⟩).isSome = true ∧
    (Toggled.uv_drag (Toggled.recent_toggled sampleEngine 2) sampleEngine
      { initialState with deferred_mode_enabled := true } ⟨10, 10⟩
      [⟨20, 30⟩, ⟨40, 50⟩] ⟨⟨256, 256⟩, false⟩).map (fun s => s.emitted) = some [] ∧
    ((Toggled.uv_drag (Toggled.recent_toggled sampleEngine 2) sampleEngine
      { initialState with deferred_mode_enabled := true } ⟨10, 10⟩
      [⟨20, 30⟩, ⟨40, 50⟩] ⟨⟨256, 256⟩, false⟩).bind
      (fun s => Toggled._uv_input (Toggled.recent_toggled sampleEngine 2) sampleEngine s
        (InputEvent.mouse_button MouseButton.LEFT false ⟨60, 60⟩) ⟨⟨256, 256⟩, false⟩)).map
      (fun s => s.emitted.length) = some 1 ∧
    (uv_drag sampleEngine { initialState with deferred_mode_enabled := true } ⟨10, 10⟩
      [⟨20, 30⟩, ⟨40, 50⟩] ⟨⟨256, 256⟩, false⟩).emitted = [] :=
  ⟨by decide!, by decide!, by decide!,
    ((C16_deferred_pointer_gestures_amended sampleEngine
      { initialState with deferred_mode_enabled := true }
      ((uv_press_target sampleEngine { initialState with deferred_mode_enabled := true }
        ⟨10, 10⟩ ⟨⟨256, 256⟩, false⟩).get (by decide!))
      ⟨10, 10⟩ ⟨60, 60⟩ ⟨40, 50⟩ ⟨⟨256, 256⟩, false⟩ [⟨20, 30⟩, ⟨40, 50⟩]
      (Option.some_get _).symm (by decide!) (by decide!)).2.2.1 rfl).1⟩

/-- C16 fails as stated: on the picker whose recent swatches are dark red
(pressed) and black (not pressed), in deferred mode, a press at the bottom
left corner of the S/V rectangle applies black and notifies nothing; the
release notifies black, and `add_recent_preset(black)` then presses the
swatch of black, whose `toggled` runs `_recent_preset_pressed`, which
notifies black a second time: two notifications on the release. -/
theorem C16_deferred_pointer_gestures_counterexample :
    deferredTwoRecentState.deferred_mode_enabled = true ∧
    deferredTwoRecentState.text_changed = false ∧
    deferredTwoRecentState.recent_preset_hbc =
      [⟨⟨1 / 8, 0, 0, 1⟩, true, false⟩, ⟨⟨0, 0, 0, 1⟩, false, false⟩] ∧
    (uv_press_target sampleEngine deferredTwoRecentState ⟨0, 256⟩
      ⟨⟨256, 256⟩, false⟩).isSome = true ∧
    (Toggled._uv_input (Toggled.recent_toggled sampleEngine 2) sampleEngine
      deferredTwoRecentState (InputEvent.mouse_button MouseButton.LEFT true ⟨0, 256⟩)
      ⟨⟨256, 256⟩, false⟩).map (fun s => (s.color, s.emitted)) =
      some (⟨0, 0, 0, 1⟩, []) ∧
    ((Toggled._uv_input (Toggled.recent_toggled sampleEngine 2) sampleEngine
      deferredTwoRecentState (InputEvent.mouse_button MouseButton.LEFT true ⟨0, 256⟩)
      ⟨⟨256, 256⟩, false⟩).bind
      (fun s => Toggled._uv_input (Toggled.recent_toggled sampleEngine 2) sampleEngine s
        (InputEvent.mouse_button MouseButton.LEFT false ⟨0, 256⟩) ⟨⟨256, 256⟩, false⟩)).map
      (fun s => s.emitted) =
      some [Signal.color_changed ⟨0, 0, 0, 1⟩, Signal.color_changed ⟨0, 0, 0, 1⟩] := by
  decide!

/-- The colour after `_set_pick_color(p)` with the handler of `toggled` run in
place is `p`, whenever the call returns. -/
theorem toggled_set_pick_color_color (H : PickerState → Color → Option PickerState)
    (E : Engine) (st : PickerState) (p : Color) (b : Bool) (r : PickerState)
    (h : Toggled._set_pick_color H E st p b = some r) : r.color = p := by
  rw [toggled_set_pick_color_eq] at h
  by_cases ht : st.text_changed = true
  · rw [if_pos ht] at h
    cases ha : Toggled.add_recent_preset H E st st.color with
    | none => rw [ha] at h; exact Option.noConfusion h
    | some s =>
      rw [ha] at h
      simp only [Option.map_some', Option.some.injEq] at h
      rw [← h]
      exact (set_pick_color_fields E _ p b).1
  · rw [if_neg ht] at h
    simp only [Option.some.injEq] at h
    rw [← h]
    exact (set_pick_color_fields E _ p b).1

/-- The colour after `_html_submitted` with the handler of `toggled` run in
place, whenever the call returns. -/
theorem toggled_html_submitted_color (H : PickerState → Color → Option PickerState)
    (E : Engine) (st : PickerState) (text : String) (r : PickerState)
    (h : Toggled._html_submitted H E st text = some r) :
    r.color =
      if st.updating = true ∨ st.text_is_constructor = true ∨ st.c_text_visible = false then
        st.color
      else if E.to_argb32 (_html_new_color E st text) = E.to_argb32 st.color then st.color
      else _html_new_color E st text := by
  unfold Toggled._html_submitted Toggled.set_pick_color at h
  by_cases hg : st.updating = true ∨ st.text_is_constructor = true ∨ st.c_text_visible = false
  · have hg2 : st.updating = true ∨ st.text_is_constructor = true ∨
        ¬ st.c_text_visible = true := by
      simpa using hg
    rw [if_pos hg2] at h
    simp only [Option.some.injEq] at h
    rw [if_pos hg, ← h]
  · have hg2 : ¬ (st.updating = true ∨ st.text_is_constructor = true ∨
        ¬ st.c_text_visible = true) := by
      simpa using hg
    rw [if_neg hg2] at h
    dsimp only at h
    rw [if_neg hg]
    by_cases ha : E.to_argb32 (_html_new_color E st text) = E.to_argb32 st.color
    · rw [if_pos ha] at h
      simp only [Option.some.injEq] at h
      rw [if_pos ha, ← h]
    · rw [if_neg ha] at h
      rw [if_neg ha]
      by_cases hin : st.inside_tree = true
      · rw [if_neg (by simpa using hin)] at h
        cases hs : Toggled._set_pick_color H E
            { st with color := _html_new_color E st text } (_html_new_color E st text) true with
        | none => rw [hs] at h; exact Option.noConfusion h
        | some s =>
          rw [hs] at h
          simp only [Option.map_some', Option.some.injEq] at h
          rw [← h]
          exact toggled_set_pick_color_color H E _ _ true s hs
      · rw [if_pos (by simpa using hin)] at h
        simp only [Option.some.injEq] at h
        rw [← h]

/-- C1: the hex repair of `_html_submitted` maps a valid hex string of length
1 to six copies of it, of length 2 to three copies, of length 5 to its first
4 characters, of length 7 to its first 6 characters, and leaves every other
string alone. The colour computed for "#1", "#12", "#12345" and "#1234567" is
the one parsed from "111111", "121212", "1234" and "123456". The canonical
colour after a submit is that computed colour, unless the handler returns
early (updating, constructor text mode, hidden text field, or the same 32-bit
ARGB value as the current colour), where it stays as it was, also with the
handler of `toggled` run in place; on the fresh
picker the four texts give the colours 111111, 121212, 1234 and 123456. -/
theorem C1_hex_repair (E : Engine) (st : PickerState) :
    (∀ s : String, hex_repair s =
      if is_valid_hex_number s = true ∧ s.length = 1 then s ++ s ++ s ++ s ++ s ++ s
      else if is_valid_hex_number s = true ∧ s.length = 2 then s ++ s ++ s
      else if is_valid_hex_number s = true ∧ s.length = 5 then String.mk (s.data.take 4)
      else if is_valid_hex_number s = true ∧ s.length = 7 then String.mk (s.data.take 6)
      else s) ∧
    hex_repair ( trim_prefix (strip_edges "#1") "#") = "111111" ∧
    hex_repair ( trim_prefix (strip_edges "#12") "#") = "121212" ∧
    hex_repair ( trim_prefix (strip_edges "#12345") "#") = "1234" ∧
    hex_repair ( trim_prefix (strip_edges "#1234567") "#") = "123456" ∧
    _html_new_color E { st with edit_alpha := true } "#1" =
      E.from_string "111111" (E.from_string "#1" st.color) ∧
    _html_new_color E { st with edit_alpha := true } "#12" =
      E.from_string "121212" (E.from_string "#12" st.color) ∧
    _html_new_color E { st with edit_alpha := true } "#12345" =
      E.from_string "1234" (E.from_string "#12345" st.color) ∧
    _html_new_color E { st with edit_alpha := true } "#1234567" =
      E.from_string "123456" (E.from_string "#1234567" st.color) ∧
    (∀ text : String, (_html_submitted E st text).color =
      if st.updating = true ∨ st.text_is_constructor = true ∨ st.c_text_visible = false then
        st.color
      else if E.to_argb32 (_html_new_color E st text) = E.to_argb32 st.color then st.color
      else _html_new_color E st text) ∧
    (∀ (text : String) (r : PickerState),
      Toggled._html_submitted (Toggled.recent_toggled E 2) E st text = some r →
      r.color =
        if st.updating = true ∨ st.text_is_constructor = true ∨ st.c_text_visible = false then
          st.color
        else if E.to_argb32 (_html_new_color E st text) = E.to_argb32 st.color then st.color
        else _html_new_color E st text) ∧
    (_html_submitted sampleEngine initialState "#1").color =
      ⟨17 / 255, 17 / 255, 17 / 255, 1⟩ ∧
    (_html_submitted sampleEngine initialState "#12").color =
      ⟨18 / 255, 18 / 255, 18 / 255, 1⟩ ∧
    (_html_submitted sampleEngine initialState "#12345").color =
      ⟨17 / 255, 34 / 255, 51 / 255, 68 / 255⟩ ∧
    (_html_submitted sampleEngine initialState "#1234567").color =
      ⟨18 / 255, 52 / 255, 86 / 255, 1⟩ ∧
    sampleEngine.from_string "111111" ⟨1, 1, 1, 1⟩ = ⟨17 / 255, 17 / 255, 17 / 255, 1⟩ ∧
    sampleEngine.from_string "121212" ⟨1, 1, 1, 1⟩ = ⟨18 / 255, 18 / 255, 18 / 255, 1⟩ ∧
    sampleEngine.from_string "1234" ⟨1, 1, 1, 1⟩ = ⟨17 / 255, 34 / 255, 51 / 255, 68 / 255⟩ ∧
    sampleEngine.from_string "123456" ⟨1, 1, 1, 1⟩ = ⟨18 / 255, 52 / 255, 86 / 255, 1⟩ := by
  have e1 : hex_repair ( trim_prefix (strip_edges "#1") "#") = "111111" := by decide
  have e2 : hex_repair ( trim_prefix (strip_edges "#12") "#") = "121212" := by decide
  have e3 : hex_repair ( trim_prefix (strip_edges "#12345") "#") = "1234" := by decide
  have e4 : hex_repair ( trim_prefix (strip_edges "#1234567") "#") = "123456" := by decide
  have s1 : strip_edges "#1" = "#1" := by decide
  have s2 : strip_edges "#12" = "#12" := by decide
  have s3 : strip_edges "#12345" = "#12345" := by decide
  have s4 : strip_edges "#1234567" = "#1234567" := by decide
  refine ⟨?_, e1, e2, e3, e4, ?_, ?_, ?_, ?_, ?_,
    fun text r h => toggled_html_submitted_color _ E st text r h, by decide!, by decide!,
    by decide!, by decide!, by decide!, by decide!, by decide!, by decide!⟩
  · intro s
    unfold hex_repair str_repeat str_left
    by_cases hv : is_valid_hex_number s = true
    · simp only [hv, if_true, true_and]
      split_ifs <;> first | rfl | (apply String.ext; simp [List.replicate])
    · simp [hv]
  · unfold _html_new_color
    dsimp only
    rw [e1, s1]
    simp
  · unfold _html_new_color
    dsimp only
    rw [e2, s2]
    simp
  · unfold _html_new_color
    dsimp only
    rw [e3, s3]
    simp
  · unfold _html_new_color
    dsimp only
    rw [e4, s4]
    simp
  · intro text
    unfold _html_submitted set_pick_color emit_color_changed
    dsimp only
    by_cases hg : st.updating = true ∨ st.text_is_constructor = true ∨ st.c_text_visible = false
    · have hg2 : st.updating = true ∨ st.text_is_constructor = true ∨ ¬ st.c_text_visible = true := by
        simpa using hg
      rw [if_pos hg2, if_pos hg]
    · have hg2 : ¬ (st.updating = true ∨ st.text_is_constructor = true ∨
          ¬ st.c_text_visible = true) := by
        simpa using hg
      rw [if_neg hg2, if_neg hg]
      split_ifs <;> simp [set_pick_color_fields]

end ColorPicker
